import Mathlib

/-!
# Transform pipeline of the DirectX 11 labs

A shallow embedding of the per-frame update code of the labs (`UpdateCube`,
`UpdateCamera`, `UpdateLight`, `MakeProjectionMatrix`).  C++ `float` values are
modelled by the elements of a field `F`; the theorems are stated over `ℝ`.
The globals of a lab are gathered in a record that the update functions take
and return.
-/

namespace Graphics

/-! ## Scalars, vectors and matrices -/

/-- The functions of the C maths library that the labs call (`sin`, `cos`,
`std::tan`, `powf`), taken as a parameter of the embedding. -/
structure CMath (F : Type) where
  /-- The library `sin`. -/
  sin : F → F
  /-- The library `cos`. -/
  cos : F → F
  /-- The library `std::tan`. -/
  tan : F → F
  /-- The library `powf`. -/
  powf : F → F → F

/-- The maths library computes the real functions: the reading of the code
"over the reals". -/
def CMath.IsReal (m : CMath ℝ) : Prop :=
  m.sin = Real.sin ∧ m.cos = Real.cos ∧ m.tan = Real.tan ∧ ∀ a b : ℝ, m.powf a b = a ^ b

/-- Modelled from the spec: the class `CVector3` (header `CVector3.h`, not among
the sources): "position (3 scalars)", with the members `x`, `y`, `z` that the
labs read and write. -/
@[ext]
structure CVector3 (F : Type) where
  x : F
  y : F
  z : F
deriving DecidableEq, Repr

/-- Modelled from the spec: `operator+` of `CVector3` (not among the sources),
the componentwise sum used in `targetPos + (cos(angle)*radius, yOffset, sin(angle)*radius)`. -/
instance {F : Type} [Add F] : Add (CVector3 F) where
  add a b := { x := a.x + b.x, y := a.y + b.y, z := a.z + b.z }

/-- Modelled from the spec: the class `CMatrix4x4` (header `CMatrix4x4.h`, not
among the sources), a 4x4 matrix whose sixteen members `e00` .. `e33` are named
row first, as the labs read them (`gCubeWorldMatrix.e20`) and as
`MakeProjectionMatrix` lists them. -/
@[ext]
structure CMatrix4x4 (F : Type) where
  e00 : F
  e01 : F
  e02 : F
  e03 : F
  e10 : F
  e11 : F
  e12 : F
  e13 : F
  e20 : F
  e21 : F
  e22 : F
  e23 : F
  e30 : F
  e31 : F
  e32 : F
  e33 : F
deriving DecidableEq, Repr

section Primitives

variable {F : Type} [Field F]

/-- Modelled from the spec: "matrix multiplication" of the matrix primitives
(`operator*` of `CMatrix4x4`, not among the sources): the row-by-column product. -/
instance : Mul (CMatrix4x4 F) where
  mul a b :=
    { e00 := a.e00 * b.e00 + a.e01 * b.e10 + a.e02 * b.e20 + a.e03 * b.e30
      e01 := a.e00 * b.e01 + a.e01 * b.e11 + a.e02 * b.e21 + a.e03 * b.e31
      e02 := a.e00 * b.e02 + a.e01 * b.e12 + a.e02 * b.e22 + a.e03 * b.e32
      e03 := a.e00 * b.e03 + a.e01 * b.e13 + a.e02 * b.e23 + a.e03 * b.e33
      e10 := a.e10 * b.e00 + a.e11 * b.e10 + a.e12 * b.e20 + a.e13 * b.e30
      e11 := a.e10 * b.e01 + a.e11 * b.e11 + a.e12 * b.e21 + a.e13 * b.e31
      e12 := a.e10 * b.e02 + a.e11 * b.e12 + a.e12 * b.e22 + a.e13 * b.e32
      e13 := a.e10 * b.e03 + a.e11 * b.e13 + a.e12 * b.e23 + a.e13 * b.e33
      e20 := a.e20 * b.e00 + a.e21 * b.e10 + a.e22 * b.e20 + a.e23 * b.e30
      e21 := a.e20 * b.e01 + a.e21 * b.e11 + a.e22 * b.e21 + a.e23 * b.e31
      e22 := a.e20 * b.e02 + a.e21 * b.e12 + a.e22 * b.e22 + a.e23 * b.e32
      e23 := a.e20 * b.e03 + a.e21 * b.e13 + a.e22 * b.e23 + a.e23 * b.e33
      e30 := a.e30 * b.e00 + a.e31 * b.e10 + a.e32 * b.e20 + a.e33 * b.e30
      e31 := a.e30 * b.e01 + a.e31 * b.e11 + a.e32 * b.e21 + a.e33 * b.e31
      e32 := a.e30 * b.e02 + a.e31 * b.e12 + a.e32 * b.e22 + a.e33 * b.e32
      e33 := a.e30 * b.e03 + a.e31 * b.e13 + a.e32 * b.e23 + a.e33 * b.e33 }

/-- The matrix of sixteen zeros: a `CMatrix4x4` global before its first
assignment. -/
instance : Zero (CMatrix4x4 F) where
  zero :=
    { e00 := 0, e01 := 0, e02 := 0, e03 := 0
      e10 := 0, e11 := 0, e12 := 0, e13 := 0
      e20 := 0, e21 := 0, e22 := 0, e23 := 0
      e30 := 0, e31 := 0, e32 := 0, e33 := 0 }

/-- Modelled from the spec: `MatrixIdentity` (not among the sources), the
identity matrix. -/
def MatrixIdentity : CMatrix4x4 F :=
  { e00 := 1, e01 := 0, e02 := 0, e03 := 0
    e10 := 0, e11 := 1, e12 := 0, e13 := 0
    e20 := 0, e21 := 0, e22 := 1, e23 := 0
    e30 := 0, e31 := 0, e32 := 0, e33 := 1 }

/-- Modelled from the spec: `MatrixScaling` (not among the sources), "4x4 matrix
construction for scale": the diagonal matrix of the three scale factors. -/
def MatrixScaling (s : CVector3 F) : CMatrix4x4 F :=
  { e00 := s.x, e01 := 0, e02 := 0, e03 := 0
    e10 := 0, e11 := s.y, e12 := 0, e13 := 0
    e20 := 0, e21 := 0, e22 := s.z, e23 := 0
    e30 := 0, e31 := 0, e32 := 0, e33 := 1 }

/-- Modelled from the spec: the overload of `MatrixScaling` taking one float
(not among the sources), a "uniform scalar" scale. -/
def MatrixScalingUniform (s : F) : CMatrix4x4 F :=
  MatrixScaling { x := s, y := s, z := s }

/-- Modelled from the spec: `MatrixTranslation` (not among the sources), "4x4
matrix construction for ... translation" in the row-vector convention: the
identity with the offset in the last row. -/
def MatrixTranslation (t : CVector3 F) : CMatrix4x4 F :=
  { e00 := 1, e01 := 0, e02 := 0, e03 := 0
    e10 := 0, e11 := 1, e12 := 0, e13 := 0
    e20 := 0, e21 := 0, e22 := 1, e23 := 0
    e30 := t.x, e31 := t.y, e32 := t.z, e33 := 1 }

/-- Modelled from the spec: `MatrixRotationX` (not among the sources), rotation
about the X axis, "left-handed convention, row-vector multiplication". -/
def MatrixRotationX (m : CMath F) (x : F) : CMatrix4x4 F :=
  { e00 := 1, e01 := 0, e02 := 0, e03 := 0
    e10 := 0, e11 := m.cos x, e12 := m.sin x, e13 := 0
    e20 := 0, e21 := -m.sin x, e22 := m.cos x, e23 := 0
    e30 := 0, e31 := 0, e32 := 0, e33 := 1 }

/-- Modelled from the spec: `MatrixRotationY` (not among the sources), rotation
about the Y axis, "left-handed convention, row-vector multiplication"; with
`rotation.y = 90°` the "+X-axis direction ... [is] rotated to -Z". -/
def MatrixRotationY (m : CMath F) (y : F) : CMatrix4x4 F :=
  { e00 := m.cos y, e01 := 0, e02 := -m.sin y, e03 := 0
    e10 := 0, e11 := 1, e12 := 0, e13 := 0
    e20 := m.sin y, e21 := 0, e22 := m.cos y, e23 := 0
    e30 := 0, e31 := 0, e32 := 0, e33 := 1 }

/-- Modelled from the spec: `MatrixRotationZ` (not among the sources), rotation
about the Z axis, "left-handed convention, row-vector multiplication". -/
def MatrixRotationZ (m : CMath F) (z : F) : CMatrix4x4 F :=
  { e00 := m.cos z, e01 := m.sin z, e02 := 0, e03 := 0
    e10 := -m.sin z, e11 := m.cos z, e12 := 0, e13 := 0
    e20 := 0, e21 := 0, e22 := 1, e23 := 0
    e30 := 0, e31 := 0, e32 := 0, e33 := 1 }

/-- Modelled from the spec: `InverseAffine` (not among the sources), the
"affine inverse: the inverse of a rotation+translation (no scale/skew)
transform, computable without general matrix inversion": the rotation block is
transposed and the negated translation is carried through the transposed
block. -/
def InverseAffine (a : CMatrix4x4 F) : CMatrix4x4 F :=
  { e00 := a.e00, e01 := a.e10, e02 := a.e20, e03 := 0
    e10 := a.e01, e11 := a.e11, e12 := a.e21, e13 := 0
    e20 := a.e02, e21 := a.e12, e22 := a.e22, e23 := 0
    e30 := -(a.e30 * a.e00 + a.e31 * a.e01 + a.e32 * a.e02)
    e31 := -(a.e30 * a.e10 + a.e31 * a.e11 + a.e32 * a.e12)
    e32 := -(a.e30 * a.e20 + a.e31 * a.e21 + a.e32 * a.e22)
    e33 := 1 }

end Primitives

/-- Modelled from the spec: the key codes of `Input.h` (not among the sources)
that the update functions of the labs test, the "boolean key held signals". -/
inductive KeyCode where
  | Key_A | Key_D | Key_E | Key_F | Key_G | Key_H | Key_I | Key_J | Key_K | Key_L
  | Key_O | Key_Q | Key_R | Key_S | Key_T | Key_U | Key_W | Key_X | Key_Y | Key_Z
  | Key_Up | Key_Down | Key_Left | Key_Right | Key_Period | Key_Comma
  | Key_1 | Key_2
deriving DecidableEq, Repr

/-! ## The Review lab (`Review/Scene.cpp`) -/

namespace Review

section Code

variable {F : Type} [Field F]

/-- Constant `kRotationSpeed`: 4 radians per second for rotation. -/
def kRotationSpeed : F := 4

/-- Constant `kMovementSpeed`: 10 units per second for movement. -/
def kMovementSpeed : F := 10

/-- Constant `kScaleSpeed`: 2x or 1/2x scaling each second. -/
def kScaleSpeed : F := 2

/-- The globals of the Review lab that `UpdateCube` and `UpdateCamera` read
and write. -/
structure Scene (F : Type) where
  gCubePosition : CVector3 F
  gCubeRotation : CVector3 F
  gCubeScale : CVector3 F
  gCubeWorldMatrix : CMatrix4x4 F
  gCameraPosition : CVector3 F
  gCameraRotation : CVector3 F
  gCameraWorldMatrix : CMatrix4x4 F
  gCameraViewMatrix : CMatrix4x4 F
  gCameraProjectionMatrix : CMatrix4x4 F
deriving DecidableEq, Repr

/-- The globals as the program starts: the initialisers of the source; the
matrices, declared without an initialiser, are zero (static storage) until the
first update builds them. -/
def initialScene : Scene F :=
  { gCubePosition := { x := 0, y := 3, z := 0 }
    gCubeRotation := { x := 0, y := 0, z := 0 }
    gCubeScale := { x := 1, y := 1, z := 1 }
    gCubeWorldMatrix := 0
    gCameraPosition := { x := 0, y := 5, z := -8 }
    gCameraRotation := { x := 3 / 10, y := 0, z := 0 }
    gCameraWorldMatrix := 0
    gCameraViewMatrix := 0
    gCameraProjectionMatrix := 0 }

/-- Function `UpdateCube(frameTime)`: the held keys change the cube's rotation, then
its scale (X held), or its position along the world axes (Z held) or along the
rows of the stored world matrix (neither held); the world matrix is rebuilt
last. -/
def UpdateCube (m : CMath F) (KeyHeld : KeyCode → Bool) (frameTime : F) (g : Scene F) : Scene F :=
  -- ROTATION
  let gCubeRotation := g.gCubeRotation
  let gCubeRotation := if KeyHeld .Key_K then
    { gCubeRotation with x := gCubeRotation.x + kRotationSpeed * frameTime } else gCubeRotation
  let gCubeRotation := if KeyHeld .Key_I then
    { gCubeRotation with x := gCubeRotation.x - kRotationSpeed * frameTime } else gCubeRotation
  let gCubeRotation := if KeyHeld .Key_L then
    { gCubeRotation with y := gCubeRotation.y + kRotationSpeed * frameTime } else gCubeRotation
  let gCubeRotation := if KeyHeld .Key_J then
    { gCubeRotation with y := gCubeRotation.y - kRotationSpeed * frameTime } else gCubeRotation
  let gCubeRotation := if KeyHeld .Key_U then
    { gCubeRotation with z := gCubeRotation.z + kRotationSpeed * frameTime } else gCubeRotation
  let gCubeRotation := if KeyHeld .Key_O then
    { gCubeRotation with z := gCubeRotation.z - kRotationSpeed * frameTime } else gCubeRotation
  let gCubeWorldMatrix := g.gCubeWorldMatrix
  let gCubeScale := g.gCubeScale
  let gCubePosition := g.gCubePosition
  -- `if (X) { SCALING } else if (Z) { WORLD MOVEMENT } else { LOCAL MOVEMENT }`:
  -- the first branch writes only `gCubeScale`, the other two only `gCubePosition`
  -- SCALING
  let gCubeScale := if KeyHeld .Key_X then
      let gCubeScale := if KeyHeld .Key_H then
        { gCubeScale with x := gCubeScale.x * m.powf kScaleSpeed frameTime } else gCubeScale
      let gCubeScale := if KeyHeld .Key_F then
        { gCubeScale with x := gCubeScale.x / m.powf kScaleSpeed frameTime } else gCubeScale
      let gCubeScale := if KeyHeld .Key_T then
        { gCubeScale with y := gCubeScale.y * m.powf kScaleSpeed frameTime } else gCubeScale
      let gCubeScale := if KeyHeld .Key_G then
        { gCubeScale with y := gCubeScale.y / m.powf kScaleSpeed frameTime } else gCubeScale
      let gCubeScale := if KeyHeld .Key_R then
        { gCubeScale with z := gCubeScale.z * m.powf kScaleSpeed frameTime } else gCubeScale
      let gCubeScale := if KeyHeld .Key_Y then
        { gCubeScale with z := gCubeScale.z / m.powf kScaleSpeed frameTime } else gCubeScale
      gCubeScale
    else gCubeScale
  let gCubePosition := if KeyHeld .Key_X then gCubePosition
    -- WORLD MOVEMENT
    else if KeyHeld .Key_Z then
      let gCubePosition := if KeyHeld .Key_H then
        { gCubePosition with x := gCubePosition.x + kMovementSpeed * frameTime } else gCubePosition
      let gCubePosition := if KeyHeld .Key_F then
        { gCubePosition with x := gCubePosition.x - kMovementSpeed * frameTime } else gCubePosition
      let gCubePosition := if KeyHeld .Key_R then
        { gCubePosition with y := gCubePosition.y + kMovementSpeed * frameTime } else gCubePosition
      let gCubePosition := if KeyHeld .Key_Y then
        { gCubePosition with y := gCubePosition.y - kMovementSpeed * frameTime } else gCubePosition
      let gCubePosition := if KeyHeld .Key_T then
        { gCubePosition with z := gCubePosition.z + kMovementSpeed * frameTime } else gCubePosition
      let gCubePosition := if KeyHeld .Key_G then
        { gCubePosition with z := gCubePosition.z - kMovementSpeed * frameTime } else gCubePosition
      gCubePosition
    -- LOCAL MOVEMENT
    else
      let gCubePosition := if KeyHeld .Key_H then
        { x := gCubePosition.x + kMovementSpeed * frameTime * gCubeWorldMatrix.e00
          y := gCubePosition.y + kMovementSpeed * frameTime * gCubeWorldMatrix.e01
          z := gCubePosition.z + kMovementSpeed * frameTime * gCubeWorldMatrix.e02 }
        else gCubePosition
      let gCubePosition := if KeyHeld .Key_F then
        { x := gCubePosition.x - kMovementSpeed * frameTime * gCubeWorldMatrix.e00
          y := gCubePosition.y - kMovementSpeed * frameTime * gCubeWorldMatrix.e01
          z := gCubePosition.z - kMovementSpeed * frameTime * gCubeWorldMatrix.e02 }
        else gCubePosition
      let gCubePosition := if KeyHeld .Key_R then
        { x := gCubePosition.x + kMovementSpeed * frameTime * gCubeWorldMatrix.e10
          y := gCubePosition.y + kMovementSpeed * frameTime * gCubeWorldMatrix.e11
          z := gCubePosition.z + kMovementSpeed * frameTime * gCubeWorldMatrix.e12 }
        else gCubePosition
      let gCubePosition := if KeyHeld .Key_Y then
        { x := gCubePosition.x - kMovementSpeed * frameTime * gCubeWorldMatrix.e10
          y := gCubePosition.y - kMovementSpeed * frameTime * gCubeWorldMatrix.e11
          z := gCubePosition.z - kMovementSpeed * frameTime * gCubeWorldMatrix.e12 }
        else gCubePosition
      let gCubePosition := if KeyHeld .Key_T then
        { x := gCubePosition.x + kMovementSpeed * frameTime * gCubeWorldMatrix.e20
          y := gCubePosition.y + kMovementSpeed * frameTime * gCubeWorldMatrix.e21
          z := gCubePosition.z + kMovementSpeed * frameTime * gCubeWorldMatrix.e22 }
        else gCubePosition
      let gCubePosition := if KeyHeld .Key_G then
        { x := gCubePosition.x - kMovementSpeed * frameTime * gCubeWorldMatrix.e20
          y := gCubePosition.y - kMovementSpeed * frameTime * gCubeWorldMatrix.e21
          z := gCubePosition.z - kMovementSpeed * frameTime * gCubeWorldMatrix.e22 }
        else gCubePosition
      gCubePosition
  -- the world matrix, rebuilt from the three transforms
  let gCubeWorldMatrix := MatrixScaling gCubeScale * MatrixRotationZ m gCubeRotation.z *
    MatrixRotationX m gCubeRotation.x * MatrixRotationY m gCubeRotation.y *
    MatrixTranslation gCubePosition
  { g with
    gCubePosition := gCubePosition
    gCubeRotation := gCubeRotation
    gCubeScale := gCubeScale
    gCubeWorldMatrix := gCubeWorldMatrix }

/-- Function `UpdateCamera(frameTime)`: the held keys change the camera's rotation and
its position along the world axes (Z held) or along the rows of the stored
camera world matrix; the camera world matrix, the view matrix and the
projection matrix are rebuilt last.  `projection` is the value of
`MakeProjectionMatrix()` with the default arguments of the lab's header, which
is not among the sources. -/
def UpdateCamera (m : CMath F) (projection : CMatrix4x4 F) (KeyHeld : KeyCode → Bool)
    (frameTime : F) (g : Scene F) : Scene F :=
  -- ROTATION
  let gCameraRotation := g.gCameraRotation
  let gCameraRotation := if KeyHeld .Key_Down then
    { gCameraRotation with x := gCameraRotation.x + kRotationSpeed * frameTime }
    else gCameraRotation
  let gCameraRotation := if KeyHeld .Key_Up then
    { gCameraRotation with x := gCameraRotation.x - kRotationSpeed * frameTime }
    else gCameraRotation
  let gCameraRotation := if KeyHeld .Key_Right then
    { gCameraRotation with y := gCameraRotation.y + kRotationSpeed * frameTime }
    else gCameraRotation
  let gCameraRotation := if KeyHeld .Key_Left then
    { gCameraRotation with y := gCameraRotation.y - kRotationSpeed * frameTime }
    else gCameraRotation
  let gCameraWorldMatrix := g.gCameraWorldMatrix
  let gCameraPosition := g.gCameraPosition
  -- WORLD MOVEMENT
  let gCameraPosition := if KeyHeld .Key_Z then
      let gCameraPosition := if KeyHeld .Key_D then
        { gCameraPosition with x := gCameraPosition.x + kMovementSpeed * frameTime }
        else gCameraPosition
      let gCameraPosition := if KeyHeld .Key_A then
        { gCameraPosition with x := gCameraPosition.x - kMovementSpeed * frameTime }
        else gCameraPosition
      let gCameraPosition := if KeyHeld .Key_Q then
        { gCameraPosition with y := gCameraPosition.y + kMovementSpeed * frameTime }
        else gCameraPosition
      let gCameraPosition := if KeyHeld .Key_E then
        { gCameraPosition with y := gCameraPosition.y - kMovementSpeed * frameTime }
        else gCameraPosition
      let gCameraPosition := if KeyHeld .Key_W then
        { gCameraPosition with z := gCameraPosition.z + kMovementSpeed * frameTime }
        else gCameraPosition
      let gCameraPosition := if KeyHeld .Key_S then
        { gCameraPosition with z := gCameraPosition.z - kMovementSpeed * frameTime }
        else gCameraPosition
      gCameraPosition
    -- LOCAL MOVEMENT
    else
      let gCameraPosition := if KeyHeld .Key_D then
        { x := gCameraPosition.x + kMovementSpeed * frameTime * gCameraWorldMatrix.e00
          y := gCameraPosition.y + kMovementSpeed * frameTime * gCameraWorldMatrix.e01
          z := gCameraPosition.z + kMovementSpeed * frameTime * gCameraWorldMatrix.e02 }
        else gCameraPosition
      let gCameraPosition := if KeyHeld .Key_A then
        { x := gCameraPosition.x - kMovementSpeed * frameTime * gCameraWorldMatrix.e00
          y := gCameraPosition.y - kMovementSpeed * frameTime * gCameraWorldMatrix.e01
          z := gCameraPosition.z - kMovementSpeed * frameTime * gCameraWorldMatrix.e02 }
        else gCameraPosition
      let gCameraPosition := if KeyHeld .Key_Q then
        { x := gCameraPosition.x + kMovementSpeed * frameTime * gCameraWorldMatrix.e10
          y := gCameraPosition.y + kMovementSpeed * frameTime * gCameraWorldMatrix.e11
          z := gCameraPosition.z + kMovementSpeed * frameTime * gCameraWorldMatrix.e12 }
        else gCameraPosition
      let gCameraPosition := if KeyHeld .Key_E then
        { x := gCameraPosition.x - kMovementSpeed * frameTime * gCameraWorldMatrix.e10
          y := gCameraPosition.y - kMovementSpeed * frameTime * gCameraWorldMatrix.e11
          z := gCameraPosition.z - kMovementSpeed * frameTime * gCameraWorldMatrix.e12 }
        else gCameraPosition
      let gCameraPosition := if KeyHeld .Key_W then
        { x := gCameraPosition.x + kMovementSpeed * frameTime * gCameraWorldMatrix.e20
          y := gCameraPosition.y + kMovementSpeed * frameTime * gCameraWorldMatrix.e21
          z := gCameraPosition.z + kMovementSpeed * frameTime * gCameraWorldMatrix.e22 }
        else gCameraPosition
      let gCameraPosition := if KeyHeld .Key_S then
        { x := gCameraPosition.x - kMovementSpeed * frameTime * gCameraWorldMatrix.e20
          y := gCameraPosition.y - kMovementSpeed * frameTime * gCameraWorldMatrix.e21
          z := gCameraPosition.z - kMovementSpeed * frameTime * gCameraWorldMatrix.e22 }
        else gCameraPosition
      gCameraPosition
  -- the camera world matrix and its inverse, the view matrix
  let gCameraWorldMatrix := MatrixRotationZ m gCameraRotation.z *
    MatrixRotationX m gCameraRotation.x * MatrixRotationY m gCameraRotation.y *
    MatrixTranslation gCameraPosition
  let gCameraViewMatrix := InverseAffine gCameraWorldMatrix
  { g with
    gCameraPosition := gCameraPosition
    gCameraRotation := gCameraRotation
    gCameraWorldMatrix := gCameraWorldMatrix
    gCameraViewMatrix := gCameraViewMatrix
    gCameraProjectionMatrix := projection }

/-- The two update calls of `UpdateScene(frameTime)`, in the order of the
source: `UpdateCamera` first, then `UpdateCube`. -/
def UpdateScene (m : CMath F) (projection : CMatrix4x4 F) (KeyHeld : KeyCode → Bool)
    (frameTime : F) (g : Scene F) : Scene F :=
  UpdateCube m KeyHeld frameTime (UpdateCamera m projection KeyHeld frameTime g)

/-- A run of frames with the same keys held throughout: `UpdateScene` is called
once for each frame time of the list, in order. -/
def UpdateSceneFrames (m : CMath F) (projection : CMatrix4x4 F) (KeyHeld : KeyCode → Bool)
    (frameTimes : List F) (g : Scene F) : Scene F :=
  frameTimes.foldl (fun g frameTime => UpdateScene m projection KeyHeld frameTime g) g

/-- A sequence of `UpdateCube` calls with the same keys held throughout, one
for each frame time of the list, in order. -/
def UpdateCubeFrames (m : CMath F) (KeyHeld : KeyCode → Bool)
    (frameTimes : List F) (g : Scene F) : Scene F :=
  frameTimes.foldl (fun g frameTime => UpdateCube m KeyHeld frameTime g) g

/-- The stored cube world matrix is the one composed from the stored scale,
rotation and position, as `UpdateCube` leaves it. -/
def WorldMatrixBuilt (m : CMath F) (g : Scene F) : Prop :=
  g.gCubeWorldMatrix = MatrixScaling g.gCubeScale * MatrixRotationZ m g.gCubeRotation.z *
    MatrixRotationX m g.gCubeRotation.x * MatrixRotationY m g.gCubeRotation.y *
    MatrixTranslation g.gCubePosition

end Code

end Review

/-! ## The PixelLighting lab (`PixelLighting/Scene.cpp`, `PixelLighting/Utility/SceneHelpers.cpp`) -/

namespace PixelLighting

section Code

variable {F : Type} [Field F]

/-- Constant `kRotationSpeed`: 3 radians per second for rotation. -/
def kRotationSpeed : F := 3

/-- Constant `kMovementSpeed`: 10 units per second for movement. -/
def kMovementSpeed : F := 10

/-- Constant `gLightOrbit`: the radius of light 1's orbit round the cube. -/
def gLightOrbit : F := 5

/-- Constant `gLightOrbitSpeed`: the literal `0.7f`, whose value is the float
nearest to 0.7, `11744051 / 2 ^ 24`. -/
def gLightOrbitSpeed : F := 11744051 / 16777216

/-- The globals of the PixelLighting lab that the update functions read and
write, and `rotate`, the static local of `UpdateLight`. -/
structure Scene (F : Type) where
  gCubePosition : CVector3 F
  gCubeRotation : CVector3 F
  gCubeScale : CVector3 F
  gCubeWorldMatrix : CMatrix4x4 F
  gCameraPosition : CVector3 F
  gCameraRotation : CVector3 F
  gCameraWorldMatrix : CMatrix4x4 F
  gCameraViewMatrix : CMatrix4x4 F
  gCameraProjectionMatrix : CMatrix4x4 F
  gLight1Position : CVector3 F
  gLight1Strength : F
  gLight1WorldMatrix : CMatrix4x4 F
  rotate : F
deriving DecidableEq, Repr

/-- The globals as the program starts: the initialisers of the source; the
matrices and the light position, declared without an initialiser, are zero
(static storage) until the first update sets them. -/
def initialScene : Scene F :=
  { gCubePosition := { x := 0, y := 3, z := 0 }
    gCubeRotation := { x := 0, y := 0, z := 0 }
    gCubeScale := { x := 1, y := 1, z := 1 }
    gCubeWorldMatrix := 0
    gCameraPosition := { x := -3, y := 5, z := -10 }
    gCameraRotation := { x := 2 / 10, y := 2 / 10, z := 0 }
    gCameraWorldMatrix := 0
    gCameraViewMatrix := 0
    gCameraProjectionMatrix := 0
    gLight1Position := { x := 0, y := 0, z := 0 }
    gLight1Strength := 1
    gLight1WorldMatrix := 0
    rotate := 0 }

/-- Function `MakeProjectionMatrix(aspectRatio, FOVx, nearClip, farClip)` of
`PixelLighting/Utility/SceneHelpers.cpp`. -/
def MakeProjectionMatrix (m : CMath F) (aspectRatio FOVx nearClip farClip : F) : CMatrix4x4 F :=
  let tanFOVx := m.tan (FOVx * (1 / 2))
  let scaleX := 1 / tanFOVx
  let scaleY := aspectRatio / tanFOVx
  let scaleZa := farClip / (farClip - nearClip)
  let scaleZb := -nearClip * scaleZa
  { e00 := scaleX, e01 := 0, e02 := 0, e03 := 0
    e10 := 0, e11 := scaleY, e12 := 0, e13 := 0
    e20 := 0, e21 := 0, e22 := scaleZa, e23 := 1
    e30 := 0, e31 := 0, e32 := scaleZb, e33 := 0 }

/-- Function `UpdateCube(frameTime)`: the held keys change the cube's rotation about X
and Y and move it along the third row of the stored world matrix; the world
matrix is rebuilt last. -/
def UpdateCube (m : CMath F) (KeyHeld : KeyCode → Bool) (frameTime : F) (g : Scene F) : Scene F :=
  -- ROTATION
  let gCubeRotation := g.gCubeRotation
  let gCubeRotation := if KeyHeld .Key_K then
    { gCubeRotation with x := gCubeRotation.x + kRotationSpeed * frameTime } else gCubeRotation
  let gCubeRotation := if KeyHeld .Key_I then
    { gCubeRotation with x := gCubeRotation.x - kRotationSpeed * frameTime } else gCubeRotation
  let gCubeRotation := if KeyHeld .Key_L then
    { gCubeRotation with y := gCubeRotation.y + kRotationSpeed * frameTime } else gCubeRotation
  let gCubeRotation := if KeyHeld .Key_J then
    { gCubeRotation with y := gCubeRotation.y - kRotationSpeed * frameTime } else gCubeRotation
  let gCubeWorldMatrix := g.gCubeWorldMatrix
  let gCubeScale := g.gCubeScale
  let gCubePosition := g.gCubePosition
  -- LOCAL Z MOVEMENT
  let gCubePosition := if KeyHeld .Key_Period then
    { x := gCubePosition.x + kMovementSpeed * frameTime * gCubeWorldMatrix.e20
      y := gCubePosition.y + kMovementSpeed * frameTime * gCubeWorldMatrix.e21
      z := gCubePosition.z + kMovementSpeed * frameTime * gCubeWorldMatrix.e22 }
    else gCubePosition
  let gCubePosition := if KeyHeld .Key_Comma then
    { x := gCubePosition.x - kMovementSpeed * frameTime * gCubeWorldMatrix.e20
      y := gCubePosition.y - kMovementSpeed * frameTime * gCubeWorldMatrix.e21
      z := gCubePosition.z - kMovementSpeed * frameTime * gCubeWorldMatrix.e22 }
    else gCubePosition
  -- the world matrix, rebuilt from the three transforms
  let gCubeWorldMatrix := MatrixScaling gCubeScale *
    MatrixRotationZ m gCubeRotation.z * MatrixRotationX m gCubeRotation.x *
    MatrixRotationY m gCubeRotation.y *
    MatrixTranslation gCubePosition
  { g with
    gCubePosition := gCubePosition
    gCubeRotation := gCubeRotation
    gCubeWorldMatrix := gCubeWorldMatrix }

/-- Function `UpdateLight(frameTime)`: light 1 is put on its orbit round the cube at the
angle `rotate`, the angle is then decreased, and the light's world matrix is
built.  The arithmetic is read exactly, in `F`; `Float32.UpdateLight` below
reads it in binary32. -/
def UpdateLight (m : CMath F) (frameTime : F) (g : Scene F) : Scene F :=
  let rotate := g.rotate
  let gLight1Position := g.gCubePosition +
    { x := m.cos rotate * gLightOrbit, y := 0, z := m.sin rotate * gLightOrbit }
  let rotate := rotate - gLightOrbitSpeed * frameTime
  let gLight1WorldMatrix := MatrixScalingUniform g.gLight1Strength *
    MatrixTranslation gLight1Position
  { g with
    gLight1Position := gLight1Position
    gLight1WorldMatrix := gLight1WorldMatrix
    rotate := rotate }

/-- Function `UpdateCamera(frameTime)`: the held keys change the camera's rotation and
move it along the first and third rows of the stored camera world matrix; the
camera world matrix, the view matrix and the projection matrix are rebuilt
last.  `projection` is the value of `MakeProjectionMatrix()` with the default
arguments of the lab's header, which is not among the sources. -/
def UpdateCamera (m : CMath F) (projection : CMatrix4x4 F) (KeyHeld : KeyCode → Bool)
    (frameTime : F) (g : Scene F) : Scene F :=
  -- ROTATION
  let gCameraRotation := g.gCameraRotation
  let gCameraRotation := if KeyHeld .Key_Down then
    { gCameraRotation with x := gCameraRotation.x + kRotationSpeed * frameTime }
    else gCameraRotation
  let gCameraRotation := if KeyHeld .Key_Up then
    { gCameraRotation with x := gCameraRotation.x - kRotationSpeed * frameTime }
    else gCameraRotation
  let gCameraRotation := if KeyHeld .Key_Right then
    { gCameraRotation with y := gCameraRotation.y + kRotationSpeed * frameTime }
    else gCameraRotation
  let gCameraRotation := if KeyHeld .Key_Left then
    { gCameraRotation with y := gCameraRotation.y - kRotationSpeed * frameTime }
    else gCameraRotation
  let gCameraWorldMatrix := g.gCameraWorldMatrix
  let gCameraPosition := g.gCameraPosition
  -- LOCAL MOVEMENT
  let gCameraPosition := if KeyHeld .Key_D then
    { x := gCameraPosition.x + kMovementSpeed * frameTime * gCameraWorldMatrix.e00
      y := gCameraPosition.y + kMovementSpeed * frameTime * gCameraWorldMatrix.e01
      z := gCameraPosition.z + kMovementSpeed * frameTime * gCameraWorldMatrix.e02 }
    else gCameraPosition
  let gCameraPosition := if KeyHeld .Key_A then
    { x := gCameraPosition.x - kMovementSpeed * frameTime * gCameraWorldMatrix.e00
      y := gCameraPosition.y - kMovementSpeed * frameTime * gCameraWorldMatrix.e01
      z := gCameraPosition.z - kMovementSpeed * frameTime * gCameraWorldMatrix.e02 }
    else gCameraPosition
  let gCameraPosition := if KeyHeld .Key_W then
    { x := gCameraPosition.x + kMovementSpeed * frameTime * gCameraWorldMatrix.e20
      y := gCameraPosition.y + kMovementSpeed * frameTime * gCameraWorldMatrix.e21
      z := gCameraPosition.z + kMovementSpeed * frameTime * gCameraWorldMatrix.e22 }
    else gCameraPosition
  let gCameraPosition := if KeyHeld .Key_S then
    { x := gCameraPosition.x - kMovementSpeed * frameTime * gCameraWorldMatrix.e20
      y := gCameraPosition.y - kMovementSpeed * frameTime * gCameraWorldMatrix.e21
      z := gCameraPosition.z - kMovementSpeed * frameTime * gCameraWorldMatrix.e22 }
    else gCameraPosition
  -- the camera world matrix and its inverse, the view matrix
  let gCameraWorldMatrix := MatrixRotationZ m gCameraRotation.z *
    MatrixRotationX m gCameraRotation.x * MatrixRotationY m gCameraRotation.y *
    MatrixTranslation gCameraPosition
  let gCameraViewMatrix := InverseAffine gCameraWorldMatrix
  { g with
    gCameraPosition := gCameraPosition
    gCameraRotation := gCameraRotation
    gCameraWorldMatrix := gCameraWorldMatrix
    gCameraViewMatrix := gCameraViewMatrix
    gCameraProjectionMatrix := projection }

end Code

end PixelLighting

/-! ## The maths helpers of DirectXTutorial3 (`DirectXTutorial3/Utility/MathHelpers.h`) -/

namespace DirectXTutorial3

section Code

variable {F : Type} [Field F]

/-- Constant `PI`: the constant `3.14159265359f`. -/
def PI : F := 314159265359 / 100000000000

/-- Function `ToRadians(d)`: an angle in degrees to radians. -/
def ToRadians (d : F) : F := d * PI / 180

/-- Function `ToDegrees(r)`: an angle in radians to degrees. -/
def ToDegrees (r : F) : F := r * 180 / PI

/-- Function `MakeProjectionMatrix(aspectRatio, FOVx, nearClip, farClip)` of
`DirectXTutorial3/Utility/MathHelpers.h`, the arithmetic read exactly, in `F`;
`Float32.MakeProjectionMatrix` below reads it in binary32. -/
def MakeProjectionMatrix (m : CMath F) (aspectRatio FOVx nearClip farClip : F) : CMatrix4x4 F :=
  let tanFOVx := m.tan (FOVx * (1 / 2))
  let scaleX := 1 / tanFOVx
  let scaleY := aspectRatio / tanFOVx
  let scaleZa := farClip / (farClip - nearClip)
  let scaleZb := -nearClip * scaleZa
  { e00 := scaleX, e01 := 0, e02 := 0, e03 := 0
    e10 := 0, e11 := scaleY, e12 := 0, e13 := 0
    e20 := 0, e21 := 0, e22 := scaleZa, e23 := 1
    e30 := 0, e31 := 0, e32 := scaleZb, e33 := 0 }

end Code

end DirectXTutorial3

/-! ## The scene helpers of PixelShaders (`PixelShaders/Utility/SceneHelpers.cpp`) -/

namespace PixelShaders

section Code

variable {F : Type} [Field F]

/-- Function `MakeProjectionMatrix(aspectRatio, FOVx, nearClip, farClip)` of
`PixelShaders/Utility/SceneHelpers.cpp`. -/
def MakeProjectionMatrix (m : CMath F) (aspectRatio FOVx nearClip farClip : F) : CMatrix4x4 F :=
  let tanFOVx := m.tan (FOVx * (1 / 2))
  let scaleX := 1 / tanFOVx
  let scaleY := aspectRatio / tanFOVx
  let scaleZa := farClip / (farClip - nearClip)
  let scaleZb := -nearClip * scaleZa
  { e00 := scaleX, e01 := 0, e02 := 0, e03 := 0
    e10 := 0, e11 := scaleY, e12 := 0, e13 := 0
    e20 := 0, e21 := 0, e22 := scaleZa, e23 := 1
    e30 := 0, e31 := 0, e32 := scaleZb, e33 := 0 }

end Code

end PixelShaders

/-! ## The Assignment lab (`Assignment/Assignment/Scene.cpp`) -/

namespace Assignment

section Code

variable {F : Type} [LinearOrderedField F]

/-- Constant `gLightOrbit`: the radius of the orbit of lights 0 and 3. -/
def gLightOrbit : F := 20

/-- Constant `gLightOrbitSpeed`: `0.7f`. -/
def gLightOrbitSpeed : F := 7 / 10

/-- Constant `NUM_LIGHTS`. -/
def NUM_LIGHTS : Nat := 5

/-- Modelled from the spec: what `UpdateScene` sets of a light's `Model` (the
class `Model` is not among the sources): the "position (3 scalars)" given to
`SetPosition` and the "uniform scalar" given to `SetScale`.  The orientation
set by `FaceTarget` is left out. -/
structure Model (F : Type) where
  position : CVector3 F
  scale : F

/-- The struct `Light`: a model, a colour and a strength. -/
structure Light (F : Type) where
  model : Model F
  colour : CVector3 F
  strength : F

/-- The globals and static locals that `UpdateScene` reads and writes: the
positions of the models `gCharacter` and `gSpecular`, the array `gLights`, the
texture animation values, the hue cycle `r`, `g`, `b` with its increments, the
flag `strengthIsZero`, and the statics `rotate` and `go`.  The model
`gAlphaTest` and the camera, changed only through `Control` of classes that are
not among the sources, are left out. -/
structure Scene (F : Type) where
  gCharacterPosition : CVector3 F
  gSpecularPosition : CVector3 F
  wiggle : F
  change : F
  wiggleDirection : F
  gLights : Fin 5 → Light F
  r : F
  g : F
  b : F
  dr : Int
  dg : Int
  db : Int
  strengthIsZero : Bool
  rotate : F
  go : Bool

/-- The globals after `InitScene`: the initialisers of the source, the values
set by `InitScene`, zero for `wiggle` and `change` (declared without an
initialiser, static storage). -/
def initialScene (m : CMath F) : Scene F :=
  { gCharacterPosition := { x := 20, y := 0, z := 0 }
    gSpecularPosition := { x := -45, y := 5, z := -5 }
    wiggle := 0
    change := 0
    wiggleDirection := 1
    gLights := fun i =>
      if i = 0 then
        { model := { position := { x := 30, y := 20, z := 0 }, scale := m.powf 20 (7 / 10) }
          colour := { x := 8 / 10, y := 8 / 10, z := 1 }, strength := 20 }
      else if i = 1 then
        { model := { position := { x := -30, y := 30, z := 30 }, scale := m.powf 15 (7 / 10) }
          colour := { x := 1, y := 8 / 10, z := 2 / 10 }, strength := 40 }
      else if i = 2 then
        { model := { position := { x := 40, y := 25, z := 0 }, scale := m.powf 20 (7 / 10) }
          colour := { x := 0, y := 0, z := 0 }, strength := 25 }
      else if i = 3 then
        { model := { position := { x := -20, y := 10, z := 0 }, scale := m.powf 20 (7 / 10) }
          colour := { x := 8 / 10, y := 8 / 10, z := 1 }, strength := 10 }
      else
        { model := { position := { x := 25, y := 5, z := -25 }, scale := m.powf 10 (7 / 10) }
          colour := { x := 8 / 10, y := 8 / 10, z := 15 / 10 }, strength := 1 }
    r := 255
    g := 0
    b := 0
    dr := 0
    dg := 0
    db := 0
    strengthIsZero := false
    rotate := 0
    go := true }

/-- Function `UpdateScene(frameTime)`, without the calls of `Control` and
`FaceTarget` and without the window title: the texture animation, the orbit of
lights 0 and 3 (paused and resumed by key 1), the hue cycle of light 2 and the
pulsing strength of light 1.  `KeyHit` tells which keys were hit since the
previous frame. -/
def UpdateScene (m : CMath F) (KeyHit : KeyCode → Bool) (frameTime : F) (s : Scene F) :
    Scene F :=
  let wiggle := s.wiggle + frameTime
  let change := s.change + frameTime / 2 * s.wiggleDirection
  let wiggleDirection := s.wiggleDirection
  -- `if (change > 1.0f) { change = 1.0f; wiggleDirection = -1.0f; }`
  let wiggleDirection := if change > 1 then -1 else wiggleDirection
  let change := if change > 1 then 1 else change
  -- `if (change < 0) { change = 0; wiggleDirection = 1.0f; }`
  let wiggleDirection := if change < 0 then 1 else wiggleDirection
  let change := if change < 0 then 0 else change
  -- Orbit the light
  let rotate := s.rotate
  let go := s.go
  let gLights := s.gLights
  let gLights := Function.update gLights 0
    { gLights 0 with
      model := { (gLights 0).model with
        position := s.gCharacterPosition +
          { x := m.cos rotate * gLightOrbit, y := 10, z := m.sin rotate * gLightOrbit } } }
  let gLights := Function.update gLights 3
    { gLights 3 with
      model := { (gLights 3).model with
        position := s.gSpecularPosition +
          { x := m.cos rotate * gLightOrbit, y := 1, z := m.sin rotate * gLightOrbit } } }
  let rotate := if go then rotate - gLightOrbitSpeed * frameTime else rotate
  let go := if KeyHit .Key_1 then !go else go
  -- the hue cycle
  let r := s.r + (s.dr : F)
  let g := s.g + (s.dg : F)
  let b := s.b + (s.db : F)
  let d : Int × Int × Int := (s.dr, s.dg, s.db)
  let d := if r = 255 ∧ g = 0 ∧ b = 0 then (0, 1, 0) else d
  let d := if r = 255 ∧ g = 255 ∧ b = 0 then (-1, 0, 0) else d
  let d := if r = 0 ∧ g = 255 ∧ b = 0 then (0, 0, 1) else d
  let d := if r = 0 ∧ g = 255 ∧ b = 255 then (0, -1, 0) else d
  let d := if r = 0 ∧ g = 0 ∧ b = 255 then (1, 0, 0) else d
  let d := if r = 255 ∧ g = 0 ∧ b = 255 then (0, 0, -1) else d
  let gLights := Function.update gLights 2
    { gLights 2 with colour := { x := r / 255, y := g / 255, z := b / 255 } }
  -- the pulsing strength of `gLights[1]`
  let strength := if s.strengthIsZero = false then (gLights 1).strength - 1 / 10
    else (gLights 1).strength + 1 / 10
  let gLights := Function.update gLights 1
    { gLights 1 with
      strength := strength
      model := { (gLights 1).model with scale := m.powf strength (7 / 10) } }
  let strengthIsZero := if strength < 0 then true else s.strengthIsZero
  let strengthIsZero := if strength > 40 then false else strengthIsZero
  { s with
    wiggle := wiggle
    change := change
    wiggleDirection := wiggleDirection
    gLights := gLights
    r := r
    g := g
    b := b
    dr := d.1
    dg := d.2.1
    db := d.2.2
    strengthIsZero := strengthIsZero
    rotate := rotate
    go := go }

end Code

end Assignment

/-! ## The 3DMatrices lab (`3DMatrices/3DMatrices/Scene.cpp`) -/

namespace Matrices3D

section Code

variable {F : Type} [Field F]

/-- The globals and static locals that `UpdateScene` reads and writes. -/
structure Scene (F : Type) where
  gCubeMatrix : CMatrix4x4 F
  gCubeMatrix2 : CMatrix4x4 F
  viewMatrix : CMatrix4x4 F
  projectionMatrix : CMatrix4x4 F
  posx : F
  posy : F
  posz : F
  rotationY : F
  rotationX : F
  rotationZ : F
  scaleX : CVector3 F
  translate : CVector3 F
  position2 : CVector3 F

/-- The globals and statics as the program starts: the initialisers of the
source; the matrices, declared without an initialiser, are zero (static
storage) until the first update sets them. -/
def initialScene : Scene F :=
  { gCubeMatrix := 0
    gCubeMatrix2 := 0
    viewMatrix := 0
    projectionMatrix := 0
    posx := 0
    posy := 0
    posz := -5
    rotationY := 0
    rotationX := 0
    rotationZ := 0
    scaleX := { x := 1, y := 1, z := 1 }
    translate := { x := 0, y := 0, z := 0 }
    position2 := { x := 0, y := 0, z := 10 } }

set_option linter.unusedVariables false in
/-- Function `UpdateScene(frameTime)`, without the window title.  `ToRadians`
and `projection`, the value of `MakeProjectionMatrix()`, come from headers of
the lab that are not among the sources. -/
def UpdateScene (m : CMath F) (ToRadians : F → F) (projection : CMatrix4x4 F)
    (KeyHeld : KeyCode → Bool) (frameTime : F) (s : Scene F) : Scene F :=
  -- Update camera
  let viewMatrix := InverseAffine (MatrixTranslation ({ x := 0, y := 0, z := -5 } : CVector3 F))
  let projectionMatrix := projection
  let posx := s.posx
  let posy := s.posy
  let posz := s.posz
  let posy := if KeyHeld .Key_Up then posy - 2 * frameTime else posy
  let posy := if KeyHeld .Key_Down then posy + 2 * frameTime else posy
  let posx := if KeyHeld .Key_Right then posx - 2 * frameTime else posx
  let posx := if KeyHeld .Key_Left then posx + 2 * frameTime else posx
  let cameraPos : CVector3 F := { x := posx, y := posy, z := posz }
  -- Update cube 1
  let rotationY := s.rotationY
  let rotationX := s.rotationX
  let rotationZ := s.rotationZ
  let scaleX := s.scaleX
  let translate := s.translate
  let position2 := s.position2
  let rotationY := if KeyHeld .Key_A then rotationY + ToRadians 120 * frameTime else rotationY
  let rotationY := if KeyHeld .Key_D then rotationY - ToRadians 120 * frameTime else rotationY
  let rotationX := if KeyHeld .Key_S then rotationX - ToRadians 120 * frameTime else rotationX
  let rotationX := if KeyHeld .Key_W then rotationX + ToRadians 120 * frameTime else rotationX
  let rotationZ := if KeyHeld .Key_Q then rotationZ + ToRadians 120 * frameTime else rotationZ
  let rotationZ := if KeyHeld .Key_E then rotationZ - ToRadians 120 * frameTime else rotationZ
  -- X scaling
  let scaleX := if KeyHeld .Key_2 then { scaleX with x := scaleX.x + 2 * frameTime } else scaleX
  let scaleX := if KeyHeld .Key_1 then { scaleX with x := scaleX.x - 2 * frameTime } else scaleX
  -- matrix translation
  let translate := if KeyHeld .Key_I then { translate with z := translate.z + 2 * frameTime }
    else translate
  let translate := if KeyHeld .Key_K then { translate with z := translate.z - 2 * frameTime }
    else translate
  let translate := if KeyHeld .Key_L then { translate with x := translate.x + 2 * frameTime }
    else translate
  let translate := if KeyHeld .Key_J then { translate with x := translate.x - 2 * frameTime }
    else translate
  let translate := if KeyHeld .Key_U then { translate with y := translate.y + 2 * frameTime }
    else translate
  let translate := if KeyHeld .Key_O then { translate with y := translate.y - 2 * frameTime }
    else translate
  -- the view matrix assigned at the top is overwritten here
  let viewMatrix := MatrixTranslation cameraPos
  let gCubeMatrix := MatrixScaling scaleX * MatrixRotationZ m rotationZ *
    MatrixRotationY m rotationY * MatrixRotationX m rotationX * MatrixTranslation translate
  let gCubeMatrix2 := MatrixTranslation position2
  { gCubeMatrix := gCubeMatrix
    gCubeMatrix2 := gCubeMatrix2
    viewMatrix := viewMatrix
    projectionMatrix := projectionMatrix
    posx := posx
    posy := posy
    posz := posz
    rotationY := rotationY
    rotationX := rotationX
    rotationZ := rotationZ
    scaleX := scaleX
    translate := translate
    position2 := position2 }

end Code

end Matrices3D

/-! ## The viewport of the pixel and sprite plotters -/

/-- Modelled from the spec: the .NET `Color` structure (not among the sources)
with its byte channels `A`, `R`, `G`, `B`, each a number in `0..255`. -/
structure Color where
  A : Nat
  R : Nat
  G : Nat
  B : Nat
deriving DecidableEq, Repr

/-- Every channel of the colour is a byte. -/
def Color.Valid (c : Color) : Prop :=
  c.A ≤ 255 ∧ c.R ≤ 255 ∧ c.G ≤ 255 ∧ c.B ≤ 255

/-- Modelled from the spec: `Color::FromArgb(red, green, blue)` of .NET (not
among the sources): the opaque colour with the three given channels. -/
def Color.FromArgb (red green blue : Nat) : Color :=
  { A := 255, R := red, G := green, B := blue }

/-- Modelled from the spec: the .NET `Bitmap` (not among the sources): its
`Width`, its `Height` and the colour `GetPixel(x, y)` of each of its pixels. -/
structure Bitmap where
  Width : Nat
  Height : Nat
  GetPixel : Nat → Nat → Color

/-- The viewport of a plotter form: the colour of every pixel, and the list of
the `SetViewportPixel` calls made so far, oldest first.  The viewport is taken
as the whole integer grid: its size is in the form classes, which are not among
the sources. -/
structure Viewport where
  pixels : Int → Int → Color
  written : List (Int × Int × Color)

/-- Modelled from the spec: `SetViewportPixel(X, Y, colour)` of the form classes
(not among the sources): "set the colour of the given pixel in the viewport". -/
def SetViewportPixel (vp : Viewport) (X Y : Int) (colour : Color) : Viewport :=
  { pixels := fun a b => if a = X ∧ b = Y then colour else vp.pixels a b
    written := vp.written ++ [(X, Y, colour)] }

/-- Modelled from the spec: `GetViewportPixel(X, Y)` of the form classes (not
among the sources): "get the colour of the given pixel in the viewport". -/
def GetViewportPixel (vp : Viewport) (X Y : Int) : Color :=
  vp.pixels X Y

/-- The `int` of the plotters: 32 bits, two's complement.  The value of a sum
that leaves the range `-2147483648 .. 2147483647` wraps round, as the `add` of
the compiled code does. -/
def wrapInt (n : Int) : Int :=
  (n + 2147483648) % 4294967296 - 2147483648

/-! ## The sprite plotter (`SpritePlotter/SpritePlotter/SpriteDrawing.cpp`) -/

namespace SpritePlotter

/-- Function `DrawSprite(X, Y, SrcBitmap)`: the pixels of the bitmap whose alpha
is not zero are copied to the viewport at offset `(X, Y)`; `x + X` and `y + Y`
are `int` sums. -/
def DrawSprite (X Y : Int) (SrcBitmap : Bitmap) (vp : Viewport) : Viewport :=
  Nat.fold (fun x vp =>
    Nat.fold (fun y vp =>
      let pixelColor := SrcBitmap.GetPixel x y
      if pixelColor.A ≠ 0 then
        SetViewportPixel vp (wrapInt (x + X)) (wrapInt (y + Y)) pixelColor
      else vp) SrcBitmap.Height vp) SrcBitmap.Width vp

/-- Function `DrawSpriteAlpha(X, Y, SrcBitmap)`: every pixel of the bitmap is
blended onto the viewport pixel under it, with the bitmap's alpha as the
blending factor. -/
def DrawSpriteAlpha (X Y : Int) (SrcBitmap : Bitmap) (vp : Viewport) : Viewport :=
  Nat.fold (fun x vp =>
    Nat.fold (fun y vp =>
      let pixelColor := SrcBitmap.GetPixel x y
      let viewportColor := GetViewportPixel vp (x + X) (y + Y)
      let red := (pixelColor.R * pixelColor.A + viewportColor.R * (255 - pixelColor.A)) / 255
      let blue := (pixelColor.B * pixelColor.A + viewportColor.B * (255 - pixelColor.A)) / 255
      let green := (pixelColor.G * pixelColor.A + viewportColor.G * (255 - pixelColor.A)) / 255
      let ResultColor := Color.FromArgb red green blue
      SetViewportPixel vp (x + X) (y + Y) ResultColor) SrcBitmap.Height vp) SrcBitmap.Width vp

end SpritePlotter

/-! ## The pixel plotter (`PixelPlotter/PixelDrawing.cpp`) -/

namespace PixelPlotter

/-- Function `DrawRectangle(X, Y, Width, Height, PixelColour)`: the top and
bottom rows, then the left and right columns; every sum and difference is an
`int` operation. -/
def DrawRectangle (X Y Width Height : Int) (PixelColour : Color) (vp : Viewport) : Viewport :=
  let vp := Nat.fold (fun i vp =>
    let vp := SetViewportPixel vp (wrapInt (X + i)) Y PixelColour
    SetViewportPixel vp (wrapInt (X + i)) (wrapInt (wrapInt (Y + Height) - 1)) PixelColour)
      Width.toNat vp
  Nat.fold (fun i vp =>
    let vp := SetViewportPixel vp X (wrapInt (Y + i)) PixelColour
    SetViewportPixel vp (wrapInt (wrapInt (X + Width) - 1)) (wrapInt (Y + i)) PixelColour)
      Height.toNat vp

/-- The conversion of a `float` to the `int` parameter of `SetViewportPixel`:
the fractional part is dropped. -/
def truncate {F : Type} [LinearOrderedField F] [FloorRing F] (q : F) : Int :=
  if 0 ≤ q then ⌊q⌋ else ⌈q⌉

/-- The loop `while (MaxDist >= 0)` of `DrawLine`, for the `passes` passes that
it makes: a pixel is set at `(X, Y)`, then `X` and `Y` advance by the steps. -/
def DrawLine.loop {F : Type} [LinearOrderedField F] [FloorRing F] (XStep YStep : F)
    (PixelColour : Color) : Nat → F → F → Viewport → Viewport
  | 0, _, _, vp => vp
  | passes + 1, X, Y, vp =>
    DrawLine.loop XStep YStep PixelColour passes (X + XStep) (Y + YStep)
      (SetViewportPixel vp (truncate X) (truncate Y) PixelColour)

/-- Function `DrawLine(X1, Y1, X2, Y2, PixelColour)`, with the `float`
arithmetic taken as exact in `F`.  The loop makes `MaxDist + 1` passes when
`MaxDist ≥ 0` and none otherwise; a zero `MaxDist` divides the steps by zero,
and then the single pass of the loop sets its pixel before the steps are
used. -/
def DrawLine (F : Type) [LinearOrderedField F] [FloorRing F] (X1 Y1 X2 Y2 : Int)
    (PixelColour : Color) (vp : Viewport) : Viewport :=
  let a : Int := |X2 - X1|
  let b : Int := |Y2 - Y1|
  let MaxDist : Int := a - b
  let XStep : F := ((X2 - X1 : Int) : F)
  let YStep : F := ((Y2 - Y1 : Int) : F)
  let XStep := XStep / (MaxDist : F)
  let YStep := YStep / (MaxDist : F)
  let X : F := (X1 : F) + 1 / 2
  let Y : F := (Y1 : F) + 1 / 2
  DrawLine.loop XStep YStep PixelColour (MaxDist + 1).toNat X Y vp

end PixelPlotter

/-! ## Texture loading and vertex layouts (`PixelLighting/Utility/SceneHelpers.cpp`, `DirectXTutorials1/DirectXTutorial2/Shader.cpp`) -/

namespace DirectXTutorial2

/-- Modelled from the spec: the values of `DXGI_FORMAT` (a Direct3D header, not
among the sources) that `CreateSignatureForVertexLayout` tells apart; `other`
stands for every other format, by its number. -/
inductive DXGI_FORMAT where
  | R32G32B32A32_FLOAT
  | R32G32B32_FLOAT
  | R32G32_FLOAT
  | R32_FLOAT
  | other (code : Nat)
deriving DecidableEq, Repr

/-- Modelled from the spec: the members of `D3D11_INPUT_ELEMENT_DESC` (a
Direct3D header, not among the sources) that `CreateSignatureForVertexLayout`
reads. -/
structure D3D11_INPUT_ELEMENT_DESC where
  SemanticName : String
  SemanticIndex : Nat
  Format : DXGI_FORMAT
deriving DecidableEq, Repr

/-- Modelled from the spec: a compiled shader, the object behind a non-null
`ID3DBlob*` (a Direct3D header, not among the sources), by its bytecode. -/
structure ID3DBlob where
  bytes : List Nat
deriving DecidableEq, Repr

/-- The loop of `CreateSignatureForVertexLayout` over the elements of the
layout: the parameter list of the temporary shader, or `none` at the first
element of an unsupported format. -/
def CreateSignatureForVertexLayout.params :
    List D3D11_INPUT_ELEMENT_DESC → String → Option String
  | [], shaderSource => some shaderSource
  | elt :: rest, shaderSource =>
    let format := elt.Format
    let typeName : Option String :=
      if format = .R32G32B32A32_FLOAT then some "float4"
      else if format = .R32G32B32_FLOAT then some "float3"
      else if format = .R32G32_FLOAT then some "float2"
      else if format = .R32_FLOAT then some "float"
      else none
    match typeName with
    | none => none
    | some t =>
      let shaderSource := shaderSource ++ t
      let index := elt.SemanticIndex % 256
      let semanticName := elt.SemanticName.push (Char.ofNat ((48 + index) % 256))
      let shaderSource := shaderSource ++ " "
      let shaderSource := shaderSource ++ semanticName
      let shaderSource := shaderSource ++ " : "
      let shaderSource := shaderSource ++ semanticName
      CreateSignatureForVertexLayout.params rest shaderSource

/-- Function `CreateSignatureForVertexLayout(vertexLayout, numElements)`: the
source of a temporary shader is written for the layout and compiled; the result
is `none` (`nullptr`) for an unsupported format or a failed compile.
`D3DCompile` is the compiler of Direct3D, `none` when it fails.  The labs share
this helper; the copy among the sources is that of DirectXTutorial2. -/
def CreateSignatureForVertexLayout (D3DCompile : String → Option ID3DBlob)
    (vertexLayout : List D3D11_INPUT_ELEMENT_DESC) : Option ID3DBlob :=
  match CreateSignatureForVertexLayout.params vertexLayout "float4 main(" with
  | none => none
  | some shaderSource =>
    let shaderSource := shaderSource ++ ") : SV_Position {return 0;}"
    D3DCompile shaderSource

end DirectXTutorial2

namespace PixelLighting

open DirectXTutorial2

/-- Modelled from the spec: a vertex layout object, the object behind a non-null
`ID3D11InputLayout*` (a Direct3D header, not among the sources), by the
description it was created from. -/
structure ID3D11InputLayout where
  elements : List D3D11_INPUT_ELEMENT_DESC
deriving DecidableEq, Repr

/-- A way in which a call can go wrong instead of returning. -/
inductive Fault where
  | nullDereference
deriving DecidableEq, Repr

/-- Function `CreateVertexLayout(vertexDescData, numDescElements)`: the
signature is created, its buffer is handed to `CreateInputLayout`, and only then
is the signature tested for null.  The result is `.error .nullDereference` when
a member of a null signature is called, `.ok none` for a returned `nullptr`, and
`.ok (some layout)` for a returned layout.  `CreateInputLayout` is the device
call, `none` when it fails. -/
def CreateVertexLayout (D3DCompile : String → Option ID3DBlob)
    (CreateInputLayout : List D3D11_INPUT_ELEMENT_DESC → ID3DBlob → Option ID3D11InputLayout)
    (vertexDescData : List D3D11_INPUT_ELEMENT_DESC) :
    Except Fault (Option ID3D11InputLayout) :=
  let shaderSignature := CreateSignatureForVertexLayout D3DCompile vertexDescData
  -- `shaderSignature->GetBufferPointer()`, `shaderSignature->GetBufferSize()`
  match shaderSignature with
  | none => .error .nullDereference
  | some signature =>
    let hr := CreateInputLayout vertexDescData signature
    -- `if (shaderSignature) shaderSignature->Release();`
    match hr with
    | none => .ok none
    | some vertexLayout => .ok (some vertexLayout)

/-- The two texture loaders of DirectXTK. -/
inductive TextureLoader where
  | CreateDDSTextureFromFile
  | CreateWICTextureFromFile
deriving DecidableEq, Repr

/-- What a call of `LoadTexture` does: the loader it calls and the `bool` it
returns. -/
structure TextureLoad where
  loader : TextureLoader
  result : Bool
deriving DecidableEq, Repr

/-- Modelled from the spec: `std::tolower` of the C library (not among the
sources) on a byte, in the default locale: the upper-case letters `A`..`Z`
(65..90) go to the lower-case ones, every other byte is unchanged. -/
def tolower (c : Nat) : Nat :=
  if 65 ≤ c ∧ c ≤ 90 then c + 32 else c

/-- Modelled from the spec: `std::equal(first1, last1, first2, pred)` of the C++
library (not among the sources): the elements of the first range are compared
with as many elements of the second; the second range has to be at least as
long as the first. -/
def equal {α : Type} (first second : List α) (pred : α → α → Bool) : Bool :=
  match first, second with
  | [], _ => true
  | _ :: _, [] => false
  | a :: first, b :: second => pred a b && equal first second pred

/-- The bytes of the string `".dds"`. -/
def dds : List Nat := [46, 100, 100, 115]

/-- Function `LoadTexture(filename, texture, textureSRV)` on the bytes of
`filename`: the DDS loader is used for a name that ends in `.dds` whatever the
case, the WIC loader for every other name.  The two loaders are those of
DirectXTK, `true` when they succeed. -/
def LoadTexture (CreateDDSTextureFromFile CreateWICTextureFromFile : List Nat → Bool)
    (filename : List Nat) : TextureLoad :=
  if filename.length ≥ 4 ∧
      equal dds.reverse filename.reverse (fun a b => tolower a == tolower b) = true then
    { loader := .CreateDDSTextureFromFile, result := CreateDDSTextureFromFile filename }
  else
    { loader := .CreateWICTextureFromFile, result := CreateWICTextureFromFile filename }

end PixelLighting

/-! ## The Assignment lab: runs of frames and the light colours of `RenderScene` -/

/-- Modelled from the spec: `operator*` of a `CVector3` and a float (the header
`CVector3.h` is not among the sources), the componentwise scaling used in
`gLights[0].colour * gLights[0].strength`. -/
instance {F : Type} [Mul F] : HMul (CVector3 F) F (CVector3 F) where
  hMul v s := { x := v.x * s, y := v.y * s, z := v.z * s }

namespace Assignment

section Code

variable {F : Type} [LinearOrderedField F]

/-- A run of frames: `UpdateScene` is called once for each frame of the list, in
order, with that frame's key hits and frame time. -/
def UpdateSceneFrames (m : CMath F) (frames : List ((KeyCode → Bool) × F)) (s : Scene F) :
    Scene F :=
  frames.foldl (fun s frame => UpdateScene m frame.1 frame.2 s) s

/-- The light colours of the struct `gPerFrameConstants`, which `RenderScene`
fills and sends to the shaders. -/
structure PerFrameConstants (F : Type) where
  light1Colour : CVector3 F
  light2Colour : CVector3 F
  light3Colour : CVector3 F
  light4Colour : CVector3 F
  light5Colour : CVector3 F

/-- Function `RenderScene`, the five assignments of `lightNColour`; the light
positions, facings and matrices and the rendering itself are left out. -/
def RenderScene (s : Scene F) : PerFrameConstants F :=
  { light1Colour := (s.gLights 0).colour * (s.gLights 0).strength
    light2Colour := (s.gLights 1).colour * (s.gLights 1).strength
    light3Colour := (s.gLights 2).colour * (s.gLights 2).strength
    light4Colour := (s.gLights 3).colour * (s.gLights 3).strength
    light5Colour := (s.gLights 4).colour * (s.gLights 3).strength }

end Code

end Assignment

/-! ## Initialisation functions

The initialisation functions are chains of guarded early returns around calls
into Direct3D and the labs' helper files. Each takes the outcomes of those calls
as parameters, in the order of the calls, and the shared last-error string
`gLastError` as it was before the call; it gives back the returned `bool` and
`gLastError` as it is after the call. -/

/-- Windows result code of a Direct3D call. -/
abbrev HRESULT := Int

/-- Macro `FAILED(hr)` of the Windows headers: a negative result code. -/
def FAILED (hr : HRESULT) : Prop := hr < 0

instance (hr : HRESULT) : Decidable (FAILED hr) :=
  inferInstanceAs (Decidable (hr < 0))

/-- Address held by a pointer global. -/
abbrev Pointer := Nat

/-- The null pointer. -/
def nullptr : Pointer := 0

namespace DirectXTutorial1

/-- Function `InitDirect3D` of `DirectXTutorial1/Direct3DSetup.cpp`; the
parameters are the results of `D3D11CreateDeviceAndSwapChain`, `GetBuffer` and
`CreateRenderTargetView`. This tutorial declares no `gLastError` and no statement
of the function assigns one, so the string is handed back as it came. -/
def InitDirect3D (hrDevice hrBuffer hrTarget : HRESULT) (gLastError : String) :
    Bool × String :=
  if FAILED hrDevice then (false, gLastError)
  else if FAILED hrBuffer then (false, gLastError)
  else if FAILED hrTarget then (false, gLastError)
  else (true, gLastError)

end DirectXTutorial1

namespace DirectXTutorial2

/-- Function `InitScene` of `DirectXTutorial2/Scene.cpp`; the result of
`CreateInputLayout` is not looked at, the parameter is the result of
`CreateBuffer`. `DirectXTutorial2/Common.h` declares no `gLastError` and no
statement of the function assigns one, so the string is handed back as it came.
The shader signature is taken to be created (the function calls its members
without a null test). -/
def InitScene (hrBuffer : HRESULT) (gLastError : String) : Bool × String :=
  if FAILED hrBuffer then (false, gLastError)
  else (true, gLastError)

end DirectXTutorial2

namespace DirectXTutorial3

/-- Function `LoadShaders` of `DirectXTutorial3/Direct3DSetup.cpp`; the
parameters are the pointers returned by `LoadVertexShader` and
`LoadPixelShader`. -/
def LoadShaders (gSimpleVertexShader gSimplePixelShader : Pointer) (gLastError : String) :
    Bool × String :=
  if gSimpleVertexShader = nullptr ∨ gSimplePixelShader = nullptr then
    (false, "Error loading shaders")
  else (true, gLastError)

/-- Function `InitDirect3D` of `DirectXTutorial3/Direct3DSetup.cpp`; the
parameters are the results of `D3D11CreateDeviceAndSwapChain`, `GetBuffer` and
`CreateRenderTargetView` and the two shader pointers of `LoadShaders`. When
`LoadShaders` fails the function returns without an assignment of its own. -/
def InitDirect3D (hrDevice hrBuffer hrTarget : HRESULT)
    (gSimpleVertexShader gSimplePixelShader : Pointer) (gLastError : String) :
    Bool × String :=
  if FAILED hrDevice then (false, "Error creating Direct3D device")
  else if FAILED hrBuffer then (false, "Error creating swap chain")
  else if FAILED hrTarget then (false, "Error creating render target view")
  else
    let loaded := LoadShaders gSimpleVertexShader gSimplePixelShader gLastError
    if !loaded.1 then (false, loaded.2)
    else (true, loaded.2)

/-- Function `InitGeometry` of `DirectXTutorial3/Scene.cpp`; the parameters are
the results of `CreateInputLayout` and `CreateBuffer`. The shader signature is
taken to be created (its members are called before the null test). -/
def InitGeometry (hrLayout hrBuffer : HRESULT) (gLastError : String) : Bool × String :=
  if FAILED hrLayout then (false, "Error creating input layout")
  else if FAILED hrBuffer then (false, "Error creating vertex buffer")
  else (true, gLastError)

/-- Function `InitScene` of `DirectXTutorial3/Scene.cpp`; the parameters are the
pointer returned by `CreateConstantBuffer` and the result of
`CreateRasterizerState`. -/
def InitScene (gSceneConstantBuffer : Pointer) (hrState : HRESULT) (gLastError : String) :
    Bool × String :=
  if gSceneConstantBuffer = nullptr then (false, "Error creating constant buffer")
  else if FAILED hrState then (false, "Error creating two-sided state")
  else (true, gLastError)

end DirectXTutorial3

namespace TheCube

/-- Function `InitGeometry` of `TheCube/Scene.cpp`; the parameters are the
results of `CreateBuffer` and `CreateInputLayout`. The shader signature is taken
to be created (its members are called before the null test). -/
def InitGeometry (hrBuffer hrLayout : HRESULT) (gLastError : String) : Bool × String :=
  if FAILED hrBuffer then (false, "Error creating vertex buffer")
  else if FAILED hrLayout then (false, "Error creating input layout")
  else (true, gLastError)

/-- Function `InitScene` of `TheCube/Scene.cpp`; the parameters are the pointer
returned by `CreateConstantBuffer` and the result of `CreateRasterizerState`. -/
def InitScene (gSceneConstantBuffer : Pointer) (hrState : HRESULT) (gLastError : String) :
    Bool × String :=
  if gSceneConstantBuffer = nullptr then (false, "Error creating constant buffer")
  else if FAILED hrState then (false, "Error creating two-sided state")
  else (true, gLastError)

end TheCube

namespace Matrices3D

/-- Function `InitGeometry` of `3DMatrices/Scene.cpp`; the parameters are the
results of `CreateBuffer` and `CreateInputLayout`. The shader signature is taken
to be created (its members are called before the null test). -/
def InitGeometry (hrBuffer hrLayout : HRESULT) (gLastError : String) : Bool × String :=
  if FAILED hrBuffer then (false, "Error creating vertex buffer")
  else if FAILED hrLayout then (false, "Error creating input layout")
  else (true, gLastError)

/-- Function `InitScene` of `3DMatrices/Scene.cpp`; the parameters are the two
pointers returned by `CreateConstantBuffer` and the result of
`CreateRasterizerState`. -/
def InitScene (gPerFrameConstantBuffer gPerModelConstantBuffer : Pointer) (hrState : HRESULT)
    (gLastError : String) : Bool × String :=
  if gPerFrameConstantBuffer = nullptr ∨ gPerModelConstantBuffer = nullptr then
    (false, "Error creating constant buffers")
  else if FAILED hrState then (false, "Error creating two-sided state")
  else (true, gLastError)

end Matrices3D

namespace PixelShaders

/-- Function `InitGeometry` of `PixelShaders/Scene.cpp`; the parameters are the
results of the two `CreateBuffer` calls, of `CreateInputLayout` and of
`CreateWICTextureFromFile`. The shader signature is taken to be created (its
members are called before the null test). -/
def InitGeometry (hrVertexBuffer hrIndexBuffer hrLayout hrTexture : HRESULT)
    (gLastError : String) : Bool × String :=
  if FAILED hrVertexBuffer then (false, "Error creating vertex buffer")
  else if FAILED hrIndexBuffer then (false, "Error creating index buffer")
  else if FAILED hrLayout then (false, "Error creating input layout")
  else if FAILED hrTexture then (false, "Error loading texture")
  else (true, gLastError)

/-- Function `InitScene` of `PixelShaders/Scene.cpp`; the parameters are the two
pointers returned by `CreateConstantBuffer`. -/
def InitScene (gPerFrameConstantBuffer gPerModelConstantBuffer : Pointer)
    (gLastError : String) : Bool × String :=
  if gPerFrameConstantBuffer = nullptr ∨ gPerModelConstantBuffer = nullptr then
    (false, "Error creating constant buffers")
  else (true, gLastError)

end PixelShaders

namespace Texturing

/-- Function `InitGeometry` of `Texturing/Scene.cpp`; the parameters are the
pointers returned by `CreateVertexBuffer`, `CreateIndexBuffer` and
`CreateVertexLayout`, the result of `CreateWICTextureFromFile` for each file
name, and the result of `CreateSamplerState`. -/
def InitGeometry (gCubeVertexBuffer gFloorVertexBuffer gCubeIndexBuffer gFloorIndexBuffer
    gBasicVertexLayout : Pointer) (CreateWICTextureFromFile : String → HRESULT)
    (hrSampler : HRESULT) (gLastError : String) : Bool × String :=
  if gCubeVertexBuffer = nullptr ∨ gFloorVertexBuffer = nullptr then
    (false, "Error creating vertex buffers")
  else if gCubeIndexBuffer = nullptr ∨ gFloorIndexBuffer = nullptr then
    (false, "Error creating index buffers")
  else if gBasicVertexLayout = nullptr then (false, "Error creating vertex layout")
  else if FAILED (CreateWICTextureFromFile "tiles1.jpg") ∨
      FAILED (CreateWICTextureFromFile "lines.png") then
    (false, "Error loading textures")
  else if FAILED hrSampler then (false, "Error creating sampler")
  else (true, gLastError)

/-- Function `InitScene` of `Texturing/Scene.cpp`; the parameters are the two
pointers returned by `CreateConstantBuffer`. -/
def InitScene (gPerFrameConstantBuffer gPerModelConstantBuffer : Pointer)
    (gLastError : String) : Bool × String :=
  if gPerFrameConstantBuffer = nullptr ∨ gPerModelConstantBuffer = nullptr then
    (false, "Error creating constant buffers")
  else (true, gLastError)

end Texturing

namespace Blending

/-- Function `CreateStates` of `Blending/State.cpp`; the parameters are the
results of the sampler, the three rasteriser, the four blend and the two
depth-stencil state creations, in the order of the calls. The messages are the
source's, repeated ones included. -/
def CreateStates (hrTrilinear hrCullBack hrCullFront hrCullNone hrNoBlend hrAdditive
    hrMultiplicative hrAlpha hrUseDepth hrDepthReadOnly : HRESULT) (gLastError : String) :
    Bool × String :=
  if FAILED hrTrilinear then (false, "Error creating trilinear sampler")
  else if FAILED hrCullBack then (false, "Error creating cull-back state")
  else if FAILED hrCullFront then (false, "Error creating cull-back state")
  else if FAILED hrCullNone then (false, "Error creating cull-none state")
  else if FAILED hrNoBlend then (false, "Error creating no-blend state")
  else if FAILED hrAdditive then (false, "Error creating no-blend state")
  else if FAILED hrMultiplicative then (false, "Error creating no-blend state")
  else if FAILED hrAlpha then (false, "Error creating no-blend state")
  else if FAILED hrUseDepth then (false, "Error creating use-depth-buffer state")
  else if FAILED hrDepthReadOnly then (false, "Error creating depth-read-only state")
  else (true, gLastError)

end Blending

namespace Review

/-- Function `InitGeometry` of `Review/Scene.cpp`; the parameters are the result
of `LoadShaders`, the pointers returned by `CreateVertexBuffer`,
`CreateIndexBuffer` and `CreateVertexLayout`, the result of
`CreateWICTextureFromFile` for each file name, and the result of `CreateStates`.
The lab's `LoadShaders` and `CreateStates` are in files that are not among the
sources; only their results enter. -/
def InitGeometry (LoadShaders : Bool) (gCubeVertexBuffer gFloorVertexBuffer gCubeIndexBuffer
    gFloorIndexBuffer gBasicVertexLayout : Pointer)
    (CreateWICTextureFromFile : String → HRESULT) (CreateStates : Bool)
    (gLastError : String) : Bool × String :=
  if !LoadShaders then (false, "Error loading shaders")
  else if gCubeVertexBuffer = nullptr ∨ gFloorVertexBuffer = nullptr then
    (false, "Error creating vertex buffers")
  else if gCubeIndexBuffer = nullptr ∨ gFloorIndexBuffer = nullptr then
    (false, "Error creating index buffers")
  else if gBasicVertexLayout = nullptr then (false, "Error creating vertex layout")
  else if FAILED (CreateWICTextureFromFile "brick1.jpg") ∨
      FAILED (CreateWICTextureFromFile "tech02.jpg") then
    (false, "Error loading textures")
  else if !CreateStates then (false, "Error creating states")
  else (true, gLastError)

/-- Function `InitScene` of `Review/Scene.cpp`; the parameters are the two
pointers returned by `CreateConstantBuffer`. -/
def InitScene (gPerFrameConstantBuffer gPerModelConstantBuffer : Pointer)
    (gLastError : String) : Bool × String :=
  if gPerFrameConstantBuffer = nullptr ∨ gPerModelConstantBuffer = nullptr then
    (false, "Error creating constant buffers")
  else (true, gLastError)

end Review

namespace PixelLighting

/-- Function `InitGeometry` of `PixelLighting/Scene.cpp`; the parameters are the
result of `LoadShaders`, the pointers returned by `CreateConstantBuffer`,
`CreateVertexBuffer`, `CreateIndexBuffer` and `CreateVertexLayout`, the result
of `LoadTexture` for each file name, and the result of `CreateStates`. The lab's
`LoadShaders` and `CreateStates` are in files that are not among the sources;
only their results enter. -/
def InitGeometry (LoadShaders : Bool) (gPerFrameConstantBuffer gPerModelConstantBuffer
    gCubeVertexBuffer gFloorVertexBuffer gLightVertexBuffer gCubeIndexBuffer gFloorIndexBuffer
    gLightIndexBuffer gBasicVertexLayout : Pointer) (LoadTexture : String → Bool)
    (CreateStates : Bool) (gLastError : String) : Bool × String :=
  if !LoadShaders then (false, "Error loading shaders")
  else if gPerFrameConstantBuffer = nullptr ∨ gPerModelConstantBuffer = nullptr then
    (false, "Error creating constant buffers")
  else if gCubeVertexBuffer = nullptr ∨ gFloorVertexBuffer = nullptr ∨
      gLightVertexBuffer = nullptr then
    (false, "Error creating vertex buffers")
  else if gCubeIndexBuffer = nullptr ∨ gFloorIndexBuffer = nullptr ∨
      gLightIndexBuffer = nullptr then
    (false, "Error creating index buffers")
  else if gBasicVertexLayout = nullptr then (false, "Error creating vertex layout")
  else if (!LoadTexture "StoneDiffuseSpecular.dds" || !LoadTexture "WoodDiffuseSpecular.dds" ||
      !LoadTexture "Flare.jpg") then
    (false, "Error loading textures")
  else if !CreateStates then (false, "Error creating states")
  else (true, gLastError)

/-- Function `InitScene` of `PixelLighting/Scene.cpp`: it sets up the camera and
returns true. -/
def InitScene (gLastError : String) : Bool × String :=
  (true, gLastError)

end PixelLighting

namespace PixelLighting2

/-- Function `InitGeometry` of `Advanced shaders/PixelLighting2/Scene.cpp`; the
parameters are the message of the `std::runtime_error` thrown by a `Mesh`
constructor (`none` when none is thrown), the result of `LoadShaders`, the two
pointers returned by `CreateConstantBuffer`, the result of `LoadTexture` for
each file name, and the result of `CreateStates`. The lab's `Mesh`,
`LoadShaders`, `LoadTexture` and `CreateStates` are in files that are not among
the sources; only their results enter. -/
def InitGeometry (meshError : Option String) (LoadShaders : Bool)
    (gPerFrameConstantBuffer gPerModelConstantBuffer : Pointer) (LoadTexture : String → Bool)
    (CreateStates : Bool) (gLastError : String) : Bool × String :=
  match meshError with
  | some what => (false, what)
  | none =>
    if !LoadShaders then (false, "Error loading shaders")
    else if gPerFrameConstantBuffer = nullptr ∨ gPerModelConstantBuffer = nullptr then
      (false, "Error creating constant buffers")
    else if (!LoadTexture "StoneDiffuseSpecular.dds" || !LoadTexture "WoodDiffuseSpecular.dds" ||
        !LoadTexture "Flare.jpg" || !LoadTexture "StoneDiffuseSpecular.dds") then
      (false, "Error loading textures")
    else if !CreateStates then (false, "Error creating states")
    else (true, gLastError)

/-- Function `InitScene` of `Advanced shaders/PixelLighting2/Scene.cpp`: it
creates the models, the lights and the camera and returns true. -/
def InitScene (gLastError : String) : Bool × String :=
  (true, gLastError)

end PixelLighting2

namespace NormalMapping

/-- Function `InitGeometry` of `Advanced shaders/NormalMapping/Scene.cpp`; the
parameters are as for `PixelLighting2.InitGeometry`. -/
def InitGeometry (meshError : Option String) (LoadShaders : Bool)
    (gPerFrameConstantBuffer gPerModelConstantBuffer : Pointer) (LoadTexture : String → Bool)
    (CreateStates : Bool) (gLastError : String) : Bool × String :=
  match meshError with
  | some what => (false, what)
  | none =>
    if !LoadShaders then (false, "Error loading shaders")
    else if gPerFrameConstantBuffer = nullptr ∨ gPerModelConstantBuffer = nullptr then
      (false, "Error creating constant buffers")
    else if (!LoadTexture "PatternDiffuseSpecular.dds" || !LoadTexture "PatternNormal.dds" ||
        !LoadTexture "WoodDiffuseSpecular.dds" || !LoadTexture "WoodNormal.dds" ||
        !LoadTexture "Flare.jpg") then
      (false, "Error loading textures")
    else if !CreateStates then (false, "Error creating states")
    else (true, gLastError)

/-- Function `InitScene` of `Advanced shaders/NormalMapping/Scene.cpp`: it
creates the models, the lights and the camera and returns true. -/
def InitScene (gLastError : String) : Bool × String :=
  (true, gLastError)

end NormalMapping

namespace ParallaxMapping

/-- Function `InitGeometry` of `Advanced shaders/Parallax mapping/ParallaxMapping/Scene.cpp`;
the parameters are as for `PixelLighting2.InitGeometry`. -/
def InitGeometry (meshError : Option String) (LoadShaders : Bool)
    (gPerFrameConstantBuffer gPerModelConstantBuffer : Pointer) (LoadTexture : String → Bool)
    (CreateStates : Bool) (gLastError : String) : Bool × String :=
  match meshError with
  | some what => (false, what)
  | none =>
    if !LoadShaders then (false, "Error loading shaders")
    else if gPerFrameConstantBuffer = nullptr ∨ gPerModelConstantBuffer = nullptr then
      (false, "Error creating constant buffers")
    else if (!LoadTexture "TechDiffuseSpecular.dds" || !LoadTexture "TechNormalHeight.dds" ||
        !LoadTexture "PatternDiffuseSpecular.dds" || !LoadTexture "PatternNormalHeight.dds" ||
        !LoadTexture "CobbleDiffuseSpecular.dds" || !LoadTexture "CobbleNormalHeight.dds" ||
        !LoadTexture "Flare.jpg") then
      (false, "Error loading textures")
    else if !CreateStates then (false, "Error creating states")
    else (true, gLastError)

/-- Function `InitScene` of `Advanced shaders/Parallax mapping/ParallaxMapping/Scene.cpp`:
it creates the models, the lights and the camera and returns true. -/
def InitScene (gLastError : String) : Bool × String :=
  (true, gLastError)

end ParallaxMapping

namespace CellShading

/-- Function `InitGeometry` of `Advanced shaders/Parallax mapping/Cell Shading/Scene.cpp`;
the parameters are as for `PixelLighting2.InitGeometry`. -/
def InitGeometry (meshError : Option String) (LoadShaders : Bool)
    (gPerFrameConstantBuffer gPerModelConstantBuffer : Pointer) (LoadTexture : String → Bool)
    (CreateStates : Bool) (gLastError : String) : Bool × String :=
  match meshError with
  | some what => (false, what)
  | none =>
    if !LoadShaders then (false, "Error loading shaders")
    else if gPerFrameConstantBuffer = nullptr ∨ gPerModelConstantBuffer = nullptr then
      (false, "Error creating constant buffers")
    else if (!LoadTexture "Green.png" || !LoadTexture "Red.png" ||
        !LoadTexture "CellGradient.png" || !LoadTexture "Flare.jpg") then
      (false, "Error loading textures")
    else if !CreateStates then (false, "Error creating states")
    else (true, gLastError)

/-- Function `InitScene` of `Advanced shaders/Parallax mapping/Cell Shading/Scene.cpp`:
it creates the models, the lights and the camera and returns true. -/
def InitScene (gLastError : String) : Bool × String :=
  (true, gLastError)

end CellShading

namespace Assignment

/-- Function `InitGeometry` of `Assignment/Scene.cpp`; the parameters are the
message of the `std::runtime_error` thrown by a `Mesh` constructor (`none` when
none is thrown), the result of `LoadShaders`, the two pointers returned by
`CreateConstantBuffer`, the result of `LoadTexture` for each file name, the
results of `CreateTexture2D`, `CreateDepthStencilView` and
`CreateShaderResourceView` for the shadow map, and the result of `CreateStates`.
The lab's `Mesh`, `LoadShaders`, `LoadTexture` and `CreateStates` are in files that
are not among the sources; only their results enter. -/
def InitGeometry (meshError : Option String) (LoadShaders : Bool)
    (gPerFrameConstantBuffer gPerModelConstantBuffer : Pointer) (LoadTexture : String → Bool)
    (hrShadowTexture hrShadowDepthStencil hrShadowSRV : HRESULT) (CreateStates : Bool)
    (gLastError : String) : Bool × String :=
  match meshError with
  | some what => (false, what)
  | none =>
    if !LoadShaders then (false, "Error loading shaders")
    else if gPerFrameConstantBuffer = nullptr ∨ gPerModelConstantBuffer = nullptr then
      (false, "Error creating constant buffers")
    else if (!LoadTexture "porcelain.jpg" || !LoadTexture "CargoA.dds" ||
        !LoadTexture "GrassDiffuseSpecular1.dds" || !LoadTexture "porcelain.jpg" ||
        !LoadTexture "holo.jpg" || !LoadTexture "mosaic.jpg" || !LoadTexture "purple.jpg" ||
        !LoadTexture "PatternDiffuseSpecular.dds" || !LoadTexture "PatternNormal.dds" ||
        !LoadTexture "PatternDiffuseSpecular.dds" || !LoadTexture "PatternNormalHeight.dds" ||
        !LoadTexture "StoneDiffuseSpecular.dds" || !LoadTexture "Glass.jpg" ||
        !LoadTexture "FireAdd.png" || !LoadTexture "wizard.png" || !LoadTexture "secret.png" ||
        !LoadTexture "beach.dds" || !LoadTexture "PatternDiffuseSpecular.dds" ||
        !LoadTexture "PatternDiffuseSpecular.dds" ||
        !LoadTexture "PatternYellowDiffuseSpecular.dds" || !LoadTexture "PatternNormal.dds" ||
        !LoadTexture "Flare.jpg") then
      (false, "Error loading textures")
    else if FAILED hrShadowTexture then (false, "Error creating shadow map texture")
    else if FAILED hrShadowDepthStencil then
      (false, "Error creating shadow map depth stencil view")
    else if FAILED hrShadowSRV then
      (false, "Error creating shadow map shader resource view")
    else if !CreateStates then (false, "Error creating states")
    else (true, gLastError)

/-- Function `InitScene` of `Assignment/Scene.cpp`: it creates the models, the
lights and the camera and returns true. -/
def InitScene (gLastError : String) : Bool × String :=
  (true, gLastError)

end Assignment

/-! ## Float arithmetic

The labs compute in `float`.  The definitions above read the arithmetic of the
source exactly, in a field; the definitions of this section read it in IEEE 754
binary32: a `float` is the rational number it stands for, and each operation
rounds its exact result to the nearest binary32 value, ties to the even
significand.  Infinities, NaN, the sign of zero and subnormal numbers are left
out: the values met in the statements are normal numbers. -/

namespace Binary32

/-- The whole part of the binary logarithm of `n`, by halving at most `fuel`
times. -/
def floorLog2 : Nat → Nat → Nat
  | 0, _ => 0
  | fuel + 1, n => if 2 ≤ n then floorLog2 fuel (n / 2) + 1 else 0

/-- The binary32 value nearest to `n / d`, ties to even, for positive `n` and
`d`, as `(k, a, b)`: the value is `k * 2 ^ a / 2 ^ b`, where `k` is the
significand of 24 bits and `a - b` is the exponent less 23. -/
def roundParts (n d : Nat) : Nat × Nat × Nat :=
  -- `e₀` is the exponent of `n / d` or one more
  let e₀ : Int := (floorLog2 n n : Int) - (floorLog2 d d : Int)
  let e : Int := if n * 2 ^ (-e₀).toNat < d * 2 ^ e₀.toNat then e₀ - 1 else e₀
  -- `(n / d) / 2 ^ (e - 23) = N / D`, from `2 ^ 23` up to `2 ^ 24`
  let N : Nat := n * 2 ^ (23 - e).toNat
  let D : Nat := d * 2 ^ (e - 23).toNat
  let k : Nat := N / D
  let r : Nat := N % D
  let k : Nat := if D < 2 * r ∨ (2 * r = D ∧ k % 2 = 1) then k + 1 else k
  (k, (e - 23).toNat, (23 - e).toNat)

/-- The binary32 value nearest to `q`, ties to even. -/
def round (q : ℚ) : ℚ :=
  if q = 0 then 0 else
    let p := roundParts q.num.natAbs q.den
    (if q < 0 then -1 else 1) * ((p.1 : ℚ) * 2 ^ p.2.1 / 2 ^ p.2.2)

/-- The sum of two floats. -/
def add (a b : ℚ) : ℚ := round (a + b)

/-- The difference of two floats. -/
def sub (a b : ℚ) : ℚ := round (a - b)

/-- The product of two floats. -/
def mul (a b : ℚ) : ℚ := round (a * b)

/-- The quotient of two floats, for a divisor that is not zero. -/
def div (a b : ℚ) : ℚ := round (a / b)

/-- Modelled from the spec: `operator+` of `CVector3` (not among the sources)
in float arithmetic, the componentwise sum. -/
def addVector (a b : CVector3 ℚ) : CVector3 ℚ :=
  { x := add a.x b.x, y := add a.y b.y, z := add a.z b.z }

end Binary32

namespace DirectXTutorial3

namespace Float32

/-- Constant `PI`: the literal `3.14159265359f`. -/
def PI : ℚ := Binary32.round (314159265359 / 100000000000)

/-- Function `ToRadians(d)` in float arithmetic. -/
def ToRadians (d : ℚ) : ℚ := Binary32.div (Binary32.mul d PI) 180

/-- Function `MakeProjectionMatrix(aspectRatio, FOVx, nearClip, farClip)` of
`DirectXTutorial3/Utility/MathHelpers.h` in float arithmetic, for a tangent that
is not zero and `farClip` other than `nearClip`. -/
def MakeProjectionMatrix (m : CMath ℚ) (aspectRatio FOVx nearClip farClip : ℚ) : CMatrix4x4 ℚ :=
  let tanFOVx := m.tan (Binary32.mul FOVx (1 / 2))
  let scaleX := Binary32.div 1 tanFOVx
  let scaleY := Binary32.div aspectRatio tanFOVx
  let scaleZa := Binary32.div farClip (Binary32.sub farClip nearClip)
  let scaleZb := Binary32.mul (-nearClip) scaleZa
  { e00 := scaleX, e01 := 0, e02 := 0, e03 := 0
    e10 := 0, e11 := scaleY, e12 := 0, e13 := 0
    e20 := 0, e21 := 0, e22 := scaleZa, e23 := 1
    e30 := 0, e31 := 0, e32 := scaleZb, e33 := 0 }

/-- The call `MakeProjectionMatrix()` with the default arguments of the header:
aspect ratio `4.0f / 3.0f`, `FOVx = ToRadians(90)`, `nearClip = 0.1f`,
`farClip = 10000.0f`. -/
def MakeProjectionMatrixDefault (m : CMath ℚ) : CMatrix4x4 ℚ :=
  MakeProjectionMatrix m (Binary32.div 4 3) (ToRadians 90) (Binary32.round (1 / 10)) 10000

end Float32

end DirectXTutorial3

namespace PixelLighting

namespace Float32

/-- Function `UpdateLight(frameTime)` in float arithmetic.  The product
`MatrixScaling(gLight1Strength) * MatrixTranslation(gLight1Position)` only
multiplies by 0 and 1 and adds 0, which no rounding changes, so it is taken
from the exact matrix product. -/
def UpdateLight (m : CMath ℚ) (frameTime : ℚ) (g : Scene ℚ) : Scene ℚ :=
  let rotate := g.rotate
  let gLight1Position := Binary32.addVector g.gCubePosition
    { x := Binary32.mul (m.cos rotate) gLightOrbit, y := 0
      z := Binary32.mul (m.sin rotate) gLightOrbit }
  let rotate := Binary32.sub rotate (Binary32.mul gLightOrbitSpeed frameTime)
  let gLight1WorldMatrix := MatrixScalingUniform g.gLight1Strength *
    MatrixTranslation gLight1Position
  { g with
    gLight1Position := gLight1Position
    gLight1WorldMatrix := gLight1WorldMatrix
    rotate := rotate }

end Float32

end PixelLighting

/-! ## Auxiliary notions used in the statements -/

section Aux

variable {F : Type} [Field F]

/-- Modelled from the spec: a homogeneous point `(x, y, z, w)` of the pipeline
(the vertex shaders are not among the sources). -/
@[ext]
structure CVector4 (F : Type) where
  x : F
  y : F
  z : F
  w : F
deriving DecidableEq, Repr

/-- Modelled from the spec: "row-vector multiplication" of a point by a matrix,
as the vertex shaders (not among the sources) apply the world, view and
projection matrices. -/
def CVector4.mulMatrix (v : CVector4 F) (a : CMatrix4x4 F) : CVector4 F :=
  { x := v.x * a.e00 + v.y * a.e10 + v.z * a.e20 + v.w * a.e30
    y := v.x * a.e01 + v.y * a.e11 + v.z * a.e21 + v.w * a.e31
    z := v.x * a.e02 + v.y * a.e12 + v.z * a.e22 + v.w * a.e32
    w := v.x * a.e03 + v.y * a.e13 + v.z * a.e23 + v.w * a.e33 }

/-- Modelled from the spec: the clip-space depth of the view-space point
`(x, y, z, 1)` under a projection matrix: the point is multiplied by the matrix
and the resulting `z` is divided by the resulting `w` (the division is done by
the graphics pipeline, not by the sources). -/
def clipDepth (projection : CMatrix4x4 F) (x y z : F) : F :=
  (CVector4.mulMatrix { x := x, y := y, z := z, w := 1 } projection).z /
    (CVector4.mulMatrix { x := x, y := y, z := z, w := 1 } projection).w

/-- The set of held keys in which exactly the keys of `keys` are held. -/
def heldExactly (keys : List KeyCode) : KeyCode → Bool :=
  fun k => decide (k ∈ keys)

/-- The net direction asked for by a pair of opposite keys: `1` when only the
first is held, `-1` when only the second is, `0` otherwise. -/
def keySign (KeyHeld : KeyCode → Bool) (plus minus : KeyCode) : F :=
  (if KeyHeld plus then 1 else 0) - (if KeyHeld minus then 1 else 0)

/-- The rotation keys of the Review lab's `UpdateCube`. -/
def rotationKeys : List KeyCode :=
  [.Key_K, .Key_I, .Key_L, .Key_J, .Key_U, .Key_O]

/-- The movement keys of the Review lab's `UpdateCube`. -/
def movementKeys : List KeyCode :=
  [.Key_H, .Key_F, .Key_R, .Key_Y, .Key_T, .Key_G]

/-- A single directional input of the Review lab's `UpdateCube`: one rotation
key, or one movement key with the Z modifier (world movement), or one movement
key with no modifier (local movement). -/
inductive SingleDirectionalInput : (KeyCode → Bool) → Prop where
  | rotation (k : KeyCode) (hk : k ∈ rotationKeys) : SingleDirectionalInput (heldExactly [k])
  | worldMovement (k : KeyCode) (hk : k ∈ movementKeys) :
      SingleDirectionalInput (heldExactly [.Key_Z, k])
  | localMovement (k : KeyCode) (hk : k ∈ movementKeys) :
      SingleDirectionalInput (heldExactly [k])

/-- The held keys ask for local movement: neither modifier is held and a
movement key is. -/
def UsesLocalAxes (KeyHeld : KeyCode → Bool) : Prop :=
  KeyHeld .Key_X = false ∧ KeyHeld .Key_Z = false ∧ ∃ k ∈ movementKeys, KeyHeld k = true

/-- A rotation-and-translation matrix: the last column is `(0, 0, 0, 1)` and
the rows of the upper-left 3x3 block are orthonormal. -/
structure IsRigid (a : CMatrix4x4 F) : Prop where
  col0 : a.e03 = 0
  col1 : a.e13 = 0
  col2 : a.e23 = 0
  col3 : a.e33 = 1
  row00 : a.e00 * a.e00 + a.e01 * a.e01 + a.e02 * a.e02 = 1
  row11 : a.e10 * a.e10 + a.e11 * a.e11 + a.e12 * a.e12 = 1
  row22 : a.e20 * a.e20 + a.e21 * a.e21 + a.e22 * a.e22 = 1
  row01 : a.e00 * a.e10 + a.e01 * a.e11 + a.e02 * a.e12 = 0
  row02 : a.e00 * a.e20 + a.e01 * a.e21 + a.e02 * a.e22 = 0
  row12 : a.e10 * a.e20 + a.e11 * a.e21 + a.e12 * a.e22 = 0

/-- A loop over the pixels of a `Width` by `Height` block, column by column, that
sets the viewport pixel at offset `(X, Y)` from the block pixel `(x, y)` when
`sel x y` holds, to the colour `col x y v` made from the colour `v` found there:
the common shape of the sprite drawing functions. -/
def plotLoop (X Y : Int) (Width Height : Nat) (sel : Nat → Nat → Bool)
    (col : Nat → Nat → Color → Color) (vp : Viewport) : Viewport :=
  Nat.fold (fun x vp =>
    Nat.fold (fun y vp =>
      if sel x y = true then
        SetViewportPixel vp (x + X) (y + Y) (col x y (vp.pixels (x + X) (y + Y)))
      else vp) Height vp) Width vp

/-- The colour of the viewport pixel `(a, b)` after `plotLoop` on a viewport
whose pixels were `p`. -/
def plotted (X Y : Int) (Width Height : Nat) (sel : Nat → Nat → Bool)
    (col : Nat → Nat → Color → Color) (p : Int → Int → Color) (a b : Int) : Color :=
  if 0 ≤ a - X ∧ a - X < Width ∧ 0 ≤ b - Y ∧ b - Y < Height ∧
      sel (a - X).toNat (b - Y).toNat = true then
    col (a - X).toNat (b - Y).toNat (p a b)
  else p a b

/-- The `SetViewportPixel` calls of `plotLoop` on a viewport whose pixels were
`p`, in the order in which they are made. -/
def plotWrites (X Y : Int) (Width Height : Nat) (sel : Nat → Nat → Bool)
    (col : Nat → Nat → Color → Color) (p : Int → Int → Color) : List (Int × Int × Color) :=
  (List.range Width).flatMap fun x =>
    ((List.range Height).filter fun y => sel x y).map fun (y : Nat) =>
      ((x : Int) + X, (y : Int) + Y, col x y (p (x + X) (y + Y)))

/-- The outline of the rectangle with top-left `(X, Y)`, `Width` pixels wide and
`Height` pixels high: the pixels of the rectangle that lie on its first or last
column or row. -/
def onOutline (X Y Width Height a b : Int) : Prop :=
  X ≤ a ∧ a ≤ X + Width - 1 ∧ Y ≤ b ∧ b ≤ Y + Height - 1 ∧
    (a = X ∨ a = X + Width - 1 ∨ b = Y ∨ b = Y + Height - 1)

/-- The name has at least four bytes and its last four are `.dds` in either
case of the letters: `.` is 46, `d` and `D` are 100 and 68, `s` and `S` are 115
and 83. -/
def EndsWithDds (filename : List Nat) : Prop :=
  4 ≤ filename.length ∧
    ∃ (stem : List Nat) (c₁ c₂ c₃ c₄ : Nat), filename = stem ++ [c₁, c₂, c₃, c₄] ∧
      c₁ = 46 ∧ (c₂ = 100 ∨ c₂ = 68) ∧ (c₃ = 100 ∨ c₃ = 68) ∧ (c₄ = 115 ∨ c₄ = 83)

/-- The states of the hue cycle of the Assignment lab: the start, red with all
increments 0, and the six edges of the colour cube, each walked in one
direction by its increment. -/
def HueCycleState (r g b dr dg db : ℤ) : Prop :=
  (r = 255 ∧ g = 0 ∧ b = 0 ∧ dr = 0 ∧ dg = 0 ∧ db = 0) ∨
  (r = 255 ∧ 0 ≤ g ∧ g < 255 ∧ b = 0 ∧ dr = 0 ∧ dg = 1 ∧ db = 0) ∨
  (0 < r ∧ r ≤ 255 ∧ g = 255 ∧ b = 0 ∧ dr = -1 ∧ dg = 0 ∧ db = 0) ∨
  (r = 0 ∧ g = 255 ∧ 0 ≤ b ∧ b < 255 ∧ dr = 0 ∧ dg = 0 ∧ db = 1) ∨
  (r = 0 ∧ 0 < g ∧ g ≤ 255 ∧ b = 255 ∧ dr = 0 ∧ dg = -1 ∧ db = 0) ∨
  (0 ≤ r ∧ r < 255 ∧ g = 0 ∧ b = 255 ∧ dr = 1 ∧ dg = 0 ∧ db = 0) ∨
  (r = 255 ∧ g = 0 ∧ 0 < b ∧ b ≤ 255 ∧ dr = 0 ∧ dg = 0 ∧ db = -1)

/-- The six edges red-yellow, yellow-green, green-cyan, cyan-blue, blue-magenta
and magenta-red of the colour cube with side 255. -/
def OnHueEdge (r g b : ℤ) : Prop :=
  (r = 255 ∧ b = 0) ∨ (g = 255 ∧ b = 0) ∨ (r = 0 ∧ g = 255) ∨
  (r = 0 ∧ b = 255) ∨ (g = 0 ∧ b = 255) ∨ (r = 255 ∧ g = 0)

/-- An initialisation call reports its failure in `gLastError`: when it returns
false from some earlier content of `gLastError`, it returns false with that same
final content from every earlier content, so the final content was assigned
during the call. -/
def ReportsFailure (f : String → Bool × String) : Prop :=
  ∀ s, (f s).1 = false → ∀ t, f t = (false, (f s).2)

end Aux

/-! ## Lemmas on the matrix primitives -/

section MatrixLemmas

variable {F : Type} [Field F]

theorem CMatrix4x4.mul_def (a b : CMatrix4x4 F) :
    a * b =
    { e00 := a.e00 * b.e00 + a.e01 * b.e10 + a.e02 * b.e20 + a.e03 * b.e30
      e01 := a.e00 * b.e01 + a.e01 * b.e11 + a.e02 * b.e21 + a.e03 * b.e31
      e02 := a.e00 * b.e02 + a.e01 * b.e12 + a.e02 * b.e22 + a.e03 * b.e32
      e03 := a.e00 * b.e03 + a.e01 * b.e13 + a.e02 * b.e23 + a.e03 * b.e33
      e10 := a.e10 * b.e00 + a.e11 * b.e10 + a.e12 * b.e20 + a.e13 * b.e30
      e11 := a.e10 * b.e01 + a.e11 * b.e11 + a.e12 * b.e21 + a.e13 * b.e31
      e12 := a.e10 * b.e02 + a.e11 * b.e12 + a.e12 * b.e22 + a.e13 * b.e32
      e13 := a.e10 * b.e03 + a.e11 * b.e13 + a.e12 * b.e23 + a.e13 * b.e33
      e20 := a.e20 * b.e00 + a.e21 * b.e10 + a.e22 * b.e20 + a.e23 * b.e30
      e21 := a.e20 * b.e01 + a.e21 * b.e11 + a.e22 * b.e21 + a.e23 * b.e31
      e22 := a.e20 * b.e02 + a.e21 * b.e12 + a.e22 * b.e22 + a.e23 * b.e32
      e23 := a.e20 * b.e03 + a.e21 * b.e13 + a.e22 * b.e23 + a.e23 * b.e33
      e30 := a.e30 * b.e00 + a.e31 * b.e10 + a.e32 * b.e20 + a.e33 * b.e30
      e31 := a.e30 * b.e01 + a.e31 * b.e11 + a.e32 * b.e21 + a.e33 * b.e31
      e32 := a.e30 * b.e02 + a.e31 * b.e12 + a.e32 * b.e22 + a.e33 * b.e32
      e33 := a.e30 * b.e03 + a.e31 * b.e13 + a.e32 * b.e23 + a.e33 * b.e33 } := rfl

/-- A rigid matrix times its affine inverse is the identity. -/
theorem IsRigid.mul_InverseAffine {a : CMatrix4x4 F} (h : IsRigid a) :
    a * InverseAffine a = MatrixIdentity := by
  obtain ⟨c0, c1, c2, c3, r00, r11, r22, r01, r02, r12⟩ := h
  rw [CMatrix4x4.mul_def]
  ext <;> simp only [InverseAffine, MatrixIdentity, c0, c1, c2, c3]
  · linear_combination r00
  · linear_combination r01
  · linear_combination r02
  · ring
  · linear_combination r01
  · linear_combination r11
  · linear_combination r12
  · ring
  · linear_combination r02
  · linear_combination r12
  · linear_combination r22
  · ring
  · ring
  · ring
  · ring
  · ring

/-- The product of two rigid matrices is rigid. -/
theorem IsRigid.mul {a b : CMatrix4x4 F} (ha : IsRigid a) (hb : IsRigid b) :
    IsRigid (a * b) := by
  obtain ⟨a0, a1, a2, a3, a00, a11, a22, a01, a02, a12⟩ := ha
  obtain ⟨b0, b1, b2, b3, b00, b11, b22, b01, b02, b12⟩ := hb
  rw [CMatrix4x4.mul_def]
  constructor <;> simp only [a0, a1, a2, a3, b0, b1, b2, b3]
  · ring
  · ring
  · ring
  · ring
  · linear_combination a00 + a.e00 * a.e00 * b00 + a.e01 * a.e01 * b11 + a.e02 * a.e02 * b22 +
      2 * a.e00 * a.e01 * b01 + 2 * a.e00 * a.e02 * b02 + 2 * a.e01 * a.e02 * b12
  · linear_combination a11 + a.e10 * a.e10 * b00 + a.e11 * a.e11 * b11 + a.e12 * a.e12 * b22 +
      2 * a.e10 * a.e11 * b01 + 2 * a.e10 * a.e12 * b02 + 2 * a.e11 * a.e12 * b12
  · linear_combination a22 + a.e20 * a.e20 * b00 + a.e21 * a.e21 * b11 + a.e22 * a.e22 * b22 +
      2 * a.e20 * a.e21 * b01 + 2 * a.e20 * a.e22 * b02 + 2 * a.e21 * a.e22 * b12
  · linear_combination a01 + a.e00 * a.e10 * b00 + a.e01 * a.e11 * b11 + a.e02 * a.e12 * b22 +
      (a.e00 * a.e11 + a.e01 * a.e10) * b01 + (a.e00 * a.e12 + a.e02 * a.e10) * b02 +
      (a.e01 * a.e12 + a.e02 * a.e11) * b12
  · linear_combination a02 + a.e00 * a.e20 * b00 + a.e01 * a.e21 * b11 + a.e02 * a.e22 * b22 +
      (a.e00 * a.e21 + a.e01 * a.e20) * b01 + (a.e00 * a.e22 + a.e02 * a.e20) * b02 +
      (a.e01 * a.e22 + a.e02 * a.e21) * b12
  · linear_combination a12 + a.e10 * a.e20 * b00 + a.e11 * a.e21 * b11 + a.e12 * a.e22 * b22 +
      (a.e10 * a.e21 + a.e11 * a.e20) * b01 + (a.e10 * a.e22 + a.e12 * a.e20) * b02 +
      (a.e11 * a.e22 + a.e12 * a.e21) * b12

/-- A translation matrix is rigid. -/
theorem isRigid_MatrixTranslation (t : CVector3 F) : IsRigid (MatrixTranslation t) := by
  constructor <;> simp [MatrixTranslation]

/-- A rotation about X is rigid when `sin` and `cos` lie on the unit circle. -/
theorem isRigid_MatrixRotationX (m : CMath F) (x : F)
    (h : m.sin x * m.sin x + m.cos x * m.cos x = 1) : IsRigid (MatrixRotationX m x) := by
  constructor <;> simp only [MatrixRotationX] <;> first | ring1 | linear_combination h

/-- A rotation about Y is rigid when `sin` and `cos` lie on the unit circle. -/
theorem isRigid_MatrixRotationY (m : CMath F) (y : F)
    (h : m.sin y * m.sin y + m.cos y * m.cos y = 1) : IsRigid (MatrixRotationY m y) := by
  constructor <;> simp only [MatrixRotationY] <;> first | ring1 | linear_combination h

/-- A rotation about Z is rigid when `sin` and `cos` lie on the unit circle. -/
theorem isRigid_MatrixRotationZ (m : CMath F) (z : F)
    (h : m.sin z * m.sin z + m.cos z * m.cos z = 1) : IsRigid (MatrixRotationZ m z) := by
  constructor <;> simp only [MatrixRotationZ] <;> first | ring1 | linear_combination h

/-- The real `sin` and `cos` lie on the unit circle. -/
theorem CMath.IsReal.sin_sq_add_cos_sq {m : CMath ℝ} (hm : m.IsReal) (a : ℝ) :
    m.sin a * m.sin a + m.cos a * m.cos a = 1 := by
  obtain ⟨hs, hc, -, -⟩ := hm
  rw [hs, hc]
  have := Real.sin_sq_add_cos_sq a
  nlinarith [this]

/-- The camera world matrix `RotZ * RotX * RotY * Translation` is rigid. -/
theorem isRigid_cameraWorld {m : CMath ℝ} (hm : m.IsReal) (position rotation : CVector3 ℝ) :
    IsRigid (MatrixRotationZ m rotation.z * MatrixRotationX m rotation.x *
      MatrixRotationY m rotation.y * MatrixTranslation position) :=
  (((isRigid_MatrixRotationZ m _ (hm.sin_sq_add_cos_sq _)).mul
    (isRigid_MatrixRotationX m _ (hm.sin_sq_add_cos_sq _))).mul
    (isRigid_MatrixRotationY m _ (hm.sin_sq_add_cos_sq _))).mul
    (isRigid_MatrixTranslation position)

end MatrixLemmas

/-! ## The world matrix and the view matrix -/

/-- C1: in the Review and PixelLighting labs, for every set of held keys and
every frame time, the cube world matrix left by `UpdateCube` is
`MatrixScaling(scale) * MatrixRotationZ(rotation.z) * MatrixRotationX(rotation.x) *
MatrixRotationY(rotation.y) * MatrixTranslation(position)` on the position,
rotation and scale that the same call leaves. -/
theorem UpdateCube_worldMatrix_current (m : CMath ℝ)
    (KeyHeld : KeyCode → Bool) (frameTime : ℝ)
    (review : Review.Scene ℝ) (pixelLighting : PixelLighting.Scene ℝ) :
    (Review.UpdateCube m KeyHeld frameTime review).gCubeWorldMatrix =
        MatrixScaling (Review.UpdateCube m KeyHeld frameTime review).gCubeScale *
        MatrixRotationZ m (Review.UpdateCube m KeyHeld frameTime review).gCubeRotation.z *
        MatrixRotationX m (Review.UpdateCube m KeyHeld frameTime review).gCubeRotation.x *
        MatrixRotationY m (Review.UpdateCube m KeyHeld frameTime review).gCubeRotation.y *
        MatrixTranslation (Review.UpdateCube m KeyHeld frameTime review).gCubePosition ∧
    (PixelLighting.UpdateCube m KeyHeld frameTime pixelLighting).gCubeWorldMatrix =
        MatrixScaling (PixelLighting.UpdateCube m KeyHeld frameTime pixelLighting).gCubeScale *
        MatrixRotationZ m
          (PixelLighting.UpdateCube m KeyHeld frameTime pixelLighting).gCubeRotation.z *
        MatrixRotationX m
          (PixelLighting.UpdateCube m KeyHeld frameTime pixelLighting).gCubeRotation.x *
        MatrixRotationY m
          (PixelLighting.UpdateCube m KeyHeld frameTime pixelLighting).gCubeRotation.y *
        MatrixTranslation
          (PixelLighting.UpdateCube m KeyHeld frameTime pixelLighting).gCubePosition := by
  constructor
  · simp only [Review.UpdateCube]
  · simp only [PixelLighting.UpdateCube]

/-- C2: for every camera position and rotation, the camera world matrix
`RotZ * RotX * RotY * Translation(position)` times its `InverseAffine` is the
identity, and so is, in the Review and PixelLighting labs, the camera world
matrix left by `UpdateCamera` times the view matrix left by the same call. -/
theorem UpdateCamera_world_mul_view (m : CMath ℝ) (hm : m.IsReal)
    (position rotation : CVector3 ℝ) (projection : CMatrix4x4 ℝ)
    (KeyHeld : KeyCode → Bool) (frameTime : ℝ)
    (review : Review.Scene ℝ) (pixelLighting : PixelLighting.Scene ℝ) :
    (MatrixRotationZ m rotation.z * MatrixRotationX m rotation.x *
        MatrixRotationY m rotation.y * MatrixTranslation position) *
      InverseAffine (MatrixRotationZ m rotation.z * MatrixRotationX m rotation.x *
        MatrixRotationY m rotation.y * MatrixTranslation position) = MatrixIdentity ∧
    (Review.UpdateCamera m projection KeyHeld frameTime review).gCameraWorldMatrix *
      (Review.UpdateCamera m projection KeyHeld frameTime review).gCameraViewMatrix =
        MatrixIdentity ∧
    (PixelLighting.UpdateCamera m projection KeyHeld frameTime pixelLighting).gCameraWorldMatrix *
      (PixelLighting.UpdateCamera m projection KeyHeld frameTime pixelLighting).gCameraViewMatrix =
        MatrixIdentity := by
  refine ⟨(isRigid_cameraWorld hm position rotation).mul_InverseAffine, ?_, ?_⟩
  · simp only [Review.UpdateCamera]
    exact (isRigid_cameraWorld hm _ _).mul_InverseAffine
  · simp only [PixelLighting.UpdateCamera]
    exact (isRigid_cameraWorld hm _ _).mul_InverseAffine

/-- Witness of C2: the real maths library, the Review and PixelLighting labs in
their initial state, no key held. -/
theorem UpdateCamera_world_mul_view_witness :
    (Review.UpdateCamera ⟨Real.sin, Real.cos, Real.tan, fun a b => a ^ b⟩ MatrixIdentity
        (heldExactly []) (1 / 60) Review.initialScene).gCameraWorldMatrix *
      (Review.UpdateCamera ⟨Real.sin, Real.cos, Real.tan, fun a b => a ^ b⟩ MatrixIdentity
        (heldExactly []) (1 / 60) Review.initialScene).gCameraViewMatrix = MatrixIdentity :=
  (UpdateCamera_world_mul_view ⟨Real.sin, Real.cos, Real.tan, fun a b => a ^ b⟩
    ⟨rfl, rfl, rfl, fun _ _ => rfl⟩ ⟨0, 5, -8⟩ ⟨3 / 10, 0, 0⟩ MatrixIdentity (heldExactly [])
    (1 / 60) Review.initialScene PixelLighting.initialScene).2.1

/-! ## The projection matrix -/

/-- C3: when `tan(FOVx/2) ≠ 0` and `farClip ≠ nearClip`, `MakeProjectionMatrix`
returns the matrix with rows `(scaleX,0,0,0)`, `(0,scaleY,0,0)`, `(0,0,scaleZa,1)`,
`(0,0,scaleZb,0)` where `scaleX = 1/tan(FOVx/2)`, `scaleY = aspectRatio/tan(FOVx/2)`,
`scaleZa = farClip/(farClip-nearClip)` and `scaleZb = -nearClip*scaleZa`, and the
three copies of the function return the same matrix. -/
theorem MakeProjectionMatrix_eq (m : CMath ℝ) (hm : m.IsReal)
    (aspectRatio FOVx nearClip farClip : ℝ)
    (_htan : Real.tan (FOVx / 2) ≠ 0) (_hclip : farClip ≠ nearClip) :
    DirectXTutorial3.MakeProjectionMatrix m aspectRatio FOVx nearClip farClip =
      { e00 := 1 / Real.tan (FOVx / 2), e01 := 0, e02 := 0, e03 := 0
        e10 := 0, e11 := aspectRatio / Real.tan (FOVx / 2), e12 := 0, e13 := 0
        e20 := 0, e21 := 0, e22 := farClip / (farClip - nearClip), e23 := 1
        e30 := 0, e31 := 0, e32 := -nearClip * (farClip / (farClip - nearClip)), e33 := 0 } ∧
    PixelShaders.MakeProjectionMatrix m aspectRatio FOVx nearClip farClip =
      DirectXTutorial3.MakeProjectionMatrix m aspectRatio FOVx nearClip farClip ∧
    PixelLighting.MakeProjectionMatrix m aspectRatio FOVx nearClip farClip =
      DirectXTutorial3.MakeProjectionMatrix m aspectRatio FOVx nearClip farClip := by
  obtain ⟨-, -, ht, -⟩ := hm
  refine ⟨?_, rfl, rfl⟩
  have h2 : FOVx * (1 / 2) = FOVx / 2 := by ring
  simp only [DirectXTutorial3.MakeProjectionMatrix, ht, h2]

/-- Witness of C3: the real maths library, aspect ratio 4/3, `FOVx = π/2`,
`nearClip = 0.1`, `farClip = 10000`. -/
theorem MakeProjectionMatrix_eq_witness :
    DirectXTutorial3.MakeProjectionMatrix ⟨Real.sin, Real.cos, Real.tan, fun a b => a ^ b⟩
        (4 / 3) (Real.pi / 2) (1 / 10) 10000 =
      { e00 := 1 / Real.tan (Real.pi / 2 / 2), e01 := 0, e02 := 0, e03 := 0
        e10 := 0, e11 := 4 / 3 / Real.tan (Real.pi / 2 / 2), e12 := 0, e13 := 0
        e20 := 0, e21 := 0, e22 := 10000 / (10000 - 1 / 10), e23 := 1
        e30 := 0, e31 := 0, e32 := -(1 / 10) * (10000 / (10000 - 1 / 10)), e33 := 0 } :=
  (MakeProjectionMatrix_eq ⟨Real.sin, Real.cos, Real.tan, fun a b => a ^ b⟩
    ⟨rfl, rfl, rfl, fun _ _ => rfl⟩ (4 / 3) (Real.pi / 2) (1 / 10) 10000
    (by
      rw [show Real.pi / 2 / 2 = Real.pi / 4 by ring, Real.tan_pi_div_four]
      exact one_ne_zero)
    (by norm_num)).1

/-- The clip-space depth of a view-space point at distance `z` under
`MakeProjectionMatrix`, in closed form. -/
theorem clipDepth_MakeProjectionMatrix (m : CMath ℝ) (aspectRatio FOVx nearClip farClip : ℝ)
    (x y z : ℝ) (hz : z ≠ 0) (hclip : farClip - nearClip ≠ 0) :
    clipDepth (DirectXTutorial3.MakeProjectionMatrix m aspectRatio FOVx nearClip farClip) x y z =
      farClip * (z - nearClip) / ((farClip - nearClip) * z) := by
  simp only [clipDepth, CVector4.mulMatrix, DirectXTutorial3.MakeProjectionMatrix]
  field_simp
  ring

/-- C4, as amended: over the reals, for `0 < nearClip < farClip` and a view-space
point `(x, y, z, 1)` with `nearClip ≤ z ≤ farClip`, the clip-space depth under
`MakeProjectionMatrix` lies in `[0, 1]`, is 0 exactly when `z = nearClip` and 1
exactly when `z = farClip`, and is strictly increasing in `z` on
`[nearClip, farClip]`. -/
theorem MakeProjectionMatrix_depth (m : CMath ℝ) (aspectRatio FOVx nearClip farClip : ℝ)
    (hnear : 0 < nearClip) (hfar : nearClip < farClip)
    (x y z : ℝ) (hz₁ : nearClip ≤ z) (hz₂ : z ≤ farClip) :
    0 ≤ clipDepth (DirectXTutorial3.MakeProjectionMatrix m aspectRatio FOVx nearClip farClip)
        x y z ∧
    clipDepth (DirectXTutorial3.MakeProjectionMatrix m aspectRatio FOVx nearClip farClip)
        x y z ≤ 1 ∧
    (clipDepth (DirectXTutorial3.MakeProjectionMatrix m aspectRatio FOVx nearClip farClip)
        x y z = 0 ↔ z = nearClip) ∧
    (clipDepth (DirectXTutorial3.MakeProjectionMatrix m aspectRatio FOVx nearClip farClip)
        x y z = 1 ↔ z = farClip) ∧
    ∀ x' y' z' : ℝ, z < z' → z' ≤ farClip →
      clipDepth (DirectXTutorial3.MakeProjectionMatrix m aspectRatio FOVx nearClip farClip)
          x y z <
        clipDepth (DirectXTutorial3.MakeProjectionMatrix m aspectRatio FOVx nearClip farClip)
          x' y' z' := by
  have hz : 0 < z := lt_of_lt_of_le hnear hz₁
  have hd : 0 < farClip - nearClip := sub_pos.mpr hfar
  have hf : 0 < farClip := hnear.trans hfar
  have hden : 0 < (farClip - nearClip) * z := mul_pos hd hz
  rw [clipDepth_MakeProjectionMatrix m aspectRatio FOVx nearClip farClip x y z hz.ne' hd.ne']
  refine ⟨?_, ?_, ?_, ?_, ?_⟩
  · exact div_nonneg (mul_nonneg hf.le (sub_nonneg.mpr hz₁)) hden.le
  · rw [div_le_one hden]
    nlinarith
  · rw [div_eq_zero_iff]
    constructor
    · rintro (h | h)
      · rcases mul_eq_zero.mp h with h | h
        · exact absurd h hf.ne'
        · linarith
      · exact absurd h hden.ne'
    · intro h
      left
      rw [h, sub_self, mul_zero]
  · rw [div_eq_one_iff_eq hden.ne']
    constructor
    · intro h
      have : nearClip * (farClip - z) = 0 := by linarith
      rcases mul_eq_zero.mp this with h | h
      · exact absurd h hnear.ne'
      · linarith
    · intro h
      rw [h]
      ring
  · intro x' y' z' hlt _
    have hz' : 0 < z' := hz.trans hlt
    rw [clipDepth_MakeProjectionMatrix m aspectRatio FOVx nearClip farClip x' y' z' hz'.ne' hd.ne']
    rw [div_lt_div_iff₀ hden (mul_pos hd hz')]
    have h1 : 0 < farClip * nearClip * (farClip - nearClip) := mul_pos (mul_pos hf hnear) hd
    nlinarith

/-- Witness of C4: over the reals, the projection with `nearClip = 1/10` and
`farClip = 10000`: the point `(0, 0, 1/10, 1)` on the near plane has depth 0 and
the point `(0, 0, 10000, 1)` on the far plane has depth 1. -/
theorem MakeProjectionMatrix_depth_witness :
    (0 : ℝ) < 1 / 10 ∧ (1 / 10 : ℝ) < 10000 ∧
    clipDepth (DirectXTutorial3.MakeProjectionMatrix
      ⟨Real.sin, Real.cos, Real.tan, fun a b => a ^ b⟩
      (4 / 3) (DirectXTutorial3.ToRadians 90) (1 / 10) 10000) 0 0 (1 / 10) = 0 ∧
    clipDepth (DirectXTutorial3.MakeProjectionMatrix
      ⟨Real.sin, Real.cos, Real.tan, fun a b => a ^ b⟩
      (4 / 3) (DirectXTutorial3.ToRadians 90) (1 / 10) 10000) 0 0 10000 = 1 :=
  ⟨by norm_num, by norm_num,
    (MakeProjectionMatrix_depth ⟨Real.sin, Real.cos, Real.tan, fun a b => a ^ b⟩
      (4 / 3) (DirectXTutorial3.ToRadians 90) (1 / 10) 10000 (by norm_num) (by norm_num)
      0 0 (1 / 10) le_rfl (by norm_num)).2.2.1.mpr rfl,
    (MakeProjectionMatrix_depth ⟨Real.sin, Real.cos, Real.tan, fun a b => a ^ b⟩
      (4 / 3) (DirectXTutorial3.ToRadians 90) (1 / 10) 10000 (by norm_num) (by norm_num)
      0 0 10000 (by norm_num) le_rfl).2.2.2.1.mpr rfl⟩

/-! ## The input updates of the Review lab -/

/-- With no key held `UpdateCube` changes neither the cube's position, rotation
and scale nor the camera's position and rotation. -/
theorem Review.UpdateCube_noKey (m : CMath ℝ) (frameTime : ℝ) (g : Review.Scene ℝ) :
    (Review.UpdateCube m (fun _ => false) frameTime g).gCubePosition = g.gCubePosition ∧
    (Review.UpdateCube m (fun _ => false) frameTime g).gCubeRotation = g.gCubeRotation ∧
    (Review.UpdateCube m (fun _ => false) frameTime g).gCubeScale = g.gCubeScale ∧
    (Review.UpdateCube m (fun _ => false) frameTime g).gCameraPosition = g.gCameraPosition ∧
    (Review.UpdateCube m (fun _ => false) frameTime g).gCameraRotation = g.gCameraRotation := by
  simp [Review.UpdateCube]

/-- With no key held `UpdateCamera` changes neither the cube's position,
rotation and scale nor the camera's position and rotation. -/
theorem Review.UpdateCamera_noKey (m : CMath ℝ) (projection : CMatrix4x4 ℝ) (frameTime : ℝ)
    (g : Review.Scene ℝ) :
    (Review.UpdateCamera m projection (fun _ => false) frameTime g).gCubePosition =
      g.gCubePosition ∧
    (Review.UpdateCamera m projection (fun _ => false) frameTime g).gCubeRotation =
      g.gCubeRotation ∧
    (Review.UpdateCamera m projection (fun _ => false) frameTime g).gCubeScale =
      g.gCubeScale ∧
    (Review.UpdateCamera m projection (fun _ => false) frameTime g).gCameraPosition =
      g.gCameraPosition ∧
    (Review.UpdateCamera m projection (fun _ => false) frameTime g).gCameraRotation =
      g.gCameraRotation := by
  simp [Review.UpdateCamera]

/-- C5: in the Review lab, whatever the frame times and the starting state, a
run of any number of frames (`UpdateCamera` then `UpdateCube` in each) with no
key held leaves the cube's position, rotation and scale and the camera's
position and rotation unchanged; the bound `dt ≥ 0` is not needed. -/
theorem Review.UpdateScene_noKey_unchanged (m : CMath ℝ) (projection : CMatrix4x4 ℝ)
    (frameTimes : List ℝ) (g : Review.Scene ℝ) :
    (Review.UpdateSceneFrames m projection (fun _ => false) frameTimes g).gCubePosition =
      g.gCubePosition ∧
    (Review.UpdateSceneFrames m projection (fun _ => false) frameTimes g).gCubeRotation =
      g.gCubeRotation ∧
    (Review.UpdateSceneFrames m projection (fun _ => false) frameTimes g).gCubeScale =
      g.gCubeScale ∧
    (Review.UpdateSceneFrames m projection (fun _ => false) frameTimes g).gCameraPosition =
      g.gCameraPosition ∧
    (Review.UpdateSceneFrames m projection (fun _ => false) frameTimes g).gCameraRotation =
      g.gCameraRotation := by
  induction frameTimes generalizing g with
  | nil => simp [Review.UpdateSceneFrames]
  | cons frameTime rest ih =>
    obtain ⟨h1, h2, h3, h4, h5⟩ :=
      ih (Review.UpdateScene m projection (fun _ => false) frameTime g)
    obtain ⟨c1, c2, c3, c4, c5⟩ := Review.UpdateCamera_noKey m projection frameTime g
    obtain ⟨u1, u2, u3, u4, u5⟩ := Review.UpdateCube_noKey m frameTime
      (Review.UpdateCamera m projection (fun _ => false) frameTime g)
    simp only [Review.UpdateSceneFrames, List.foldl_cons] at h1 h2 h3 h4 h5 ⊢
    simp only [Review.UpdateScene] at h1 h2 h3 h4 h5 ⊢
    exact ⟨h1.trans (u1.trans c1), h2.trans (u2.trans c2), h3.trans (u3.trans c3),
      h4.trans (u4.trans c4), h5.trans (u5.trans c5)⟩

/-- The `x` component of the cube position after a local-movement call. -/
theorem Review.UpdateCube_localStep_x (m : CMath ℝ) (KeyHeld : KeyCode → Bool)
    (frameTime : ℝ) (g : Review.Scene ℝ)
    (hX : KeyHeld .Key_X = false) (hZ : KeyHeld .Key_Z = false) :
    (Review.UpdateCube m KeyHeld frameTime g).gCubePosition.x =
      g.gCubePosition.x +
        keySign KeyHeld .Key_H .Key_F *
          (Review.kMovementSpeed * frameTime * g.gCubeWorldMatrix.e00) +
        keySign KeyHeld .Key_R .Key_Y *
          (Review.kMovementSpeed * frameTime * g.gCubeWorldMatrix.e10) +
        keySign KeyHeld .Key_T .Key_G *
          (Review.kMovementSpeed * frameTime * g.gCubeWorldMatrix.e20) := by
  simp only [Review.UpdateCube, hX, hZ, keySign]
  cases KeyHeld .Key_H <;> cases KeyHeld .Key_F <;> cases KeyHeld .Key_R <;>
    cases KeyHeld .Key_Y <;> cases KeyHeld .Key_T <;> cases KeyHeld .Key_G <;>
    simp <;> ring

/-- The `y` component of the cube position after a local-movement call. -/
theorem Review.UpdateCube_localStep_y (m : CMath ℝ) (KeyHeld : KeyCode → Bool)
    (frameTime : ℝ) (g : Review.Scene ℝ)
    (hX : KeyHeld .Key_X = false) (hZ : KeyHeld .Key_Z = false) :
    (Review.UpdateCube m KeyHeld frameTime g).gCubePosition.y =
      g.gCubePosition.y +
        keySign KeyHeld .Key_H .Key_F *
          (Review.kMovementSpeed * frameTime * g.gCubeWorldMatrix.e01) +
        keySign KeyHeld .Key_R .Key_Y *
          (Review.kMovementSpeed * frameTime * g.gCubeWorldMatrix.e11) +
        keySign KeyHeld .Key_T .Key_G *
          (Review.kMovementSpeed * frameTime * g.gCubeWorldMatrix.e21) := by
  simp only [Review.UpdateCube, hX, hZ, keySign]
  cases KeyHeld .Key_H <;> cases KeyHeld .Key_F <;> cases KeyHeld .Key_R <;>
    cases KeyHeld .Key_Y <;> cases KeyHeld .Key_T <;> cases KeyHeld .Key_G <;>
    simp <;> ring

/-- The `z` component of the cube position after a local-movement call. -/
theorem Review.UpdateCube_localStep_z (m : CMath ℝ) (KeyHeld : KeyCode → Bool)
    (frameTime : ℝ) (g : Review.Scene ℝ)
    (hX : KeyHeld .Key_X = false) (hZ : KeyHeld .Key_Z = false) :
    (Review.UpdateCube m KeyHeld frameTime g).gCubePosition.z =
      g.gCubePosition.z +
        keySign KeyHeld .Key_H .Key_F *
          (Review.kMovementSpeed * frameTime * g.gCubeWorldMatrix.e02) +
        keySign KeyHeld .Key_R .Key_Y *
          (Review.kMovementSpeed * frameTime * g.gCubeWorldMatrix.e12) +
        keySign KeyHeld .Key_T .Key_G *
          (Review.kMovementSpeed * frameTime * g.gCubeWorldMatrix.e22) := by
  simp only [Review.UpdateCube, hX, hZ, keySign]
  cases KeyHeld .Key_H <;> cases KeyHeld .Key_F <;> cases KeyHeld .Key_R <;>
    cases KeyHeld .Key_Y <;> cases KeyHeld .Key_T <;> cases KeyHeld .Key_G <;>
    simp <;> ring

/-- C7: in the Review lab's `UpdateCube` with neither the X nor the Z modifier
held, the cube position moves by `kMovementSpeed * frameTime` times the first
three entries of row 0 (H/F), row 1 (R/Y) and row 2 (T/G) of `gCubeWorldMatrix`
as it was on entry to the call, with sign `+` for H, R, T and `-` for F, Y, G,
whatever rotation keys are held in the same call. -/
theorem Review.UpdateCube_local_movement (m : CMath ℝ) (KeyHeld : KeyCode → Bool)
    (frameTime : ℝ) (g : Review.Scene ℝ)
    (hX : KeyHeld .Key_X = false) (hZ : KeyHeld .Key_Z = false) :
    (Review.UpdateCube m KeyHeld frameTime g).gCubePosition =
      { x := g.gCubePosition.x +
          keySign KeyHeld .Key_H .Key_F * (Review.kMovementSpeed * frameTime * g.gCubeWorldMatrix.e00) +
          keySign KeyHeld .Key_R .Key_Y * (Review.kMovementSpeed * frameTime * g.gCubeWorldMatrix.e10) +
          keySign KeyHeld .Key_T .Key_G * (Review.kMovementSpeed * frameTime * g.gCubeWorldMatrix.e20)
        y := g.gCubePosition.y +
          keySign KeyHeld .Key_H .Key_F * (Review.kMovementSpeed * frameTime * g.gCubeWorldMatrix.e01) +
          keySign KeyHeld .Key_R .Key_Y * (Review.kMovementSpeed * frameTime * g.gCubeWorldMatrix.e11) +
          keySign KeyHeld .Key_T .Key_G * (Review.kMovementSpeed * frameTime * g.gCubeWorldMatrix.e21)
        z := g.gCubePosition.z +
          keySign KeyHeld .Key_H .Key_F * (Review.kMovementSpeed * frameTime * g.gCubeWorldMatrix.e02) +
          keySign KeyHeld .Key_R .Key_Y * (Review.kMovementSpeed * frameTime * g.gCubeWorldMatrix.e12) +
          keySign KeyHeld .Key_T .Key_G * (Review.kMovementSpeed * frameTime * g.gCubeWorldMatrix.e22) } := by
  ext
  · exact Review.UpdateCube_localStep_x m KeyHeld frameTime g hX hZ
  · exact Review.UpdateCube_localStep_y m KeyHeld frameTime g hX hZ
  · exact Review.UpdateCube_localStep_z m KeyHeld frameTime g hX hZ

/-- The rows of the world matrix that the first call builds from the initial
position, rotation and scale of the cube. -/
theorem Review.UpdateCube_initial_worldMatrix :
    (Review.UpdateCube (⟨Real.sin, Real.cos, Real.tan, fun a b => a ^ b⟩ : CMath ℝ)
        (fun _ => false) (1 / 60) Review.initialScene) =
      { (Review.initialScene : Review.Scene ℝ) with
        gCubeWorldMatrix :=
          { e00 := 1, e01 := 0, e02 := 0, e03 := 0
            e10 := 0, e11 := 1, e12 := 0, e13 := 0
            e20 := 0, e21 := 0, e22 := 1, e23 := 0
            e30 := 0, e31 := 3, e32 := 0, e33 := 1 } } := by
  simp [Review.UpdateCube, Review.initialScene, CMatrix4x4.mul_def, MatrixScaling,
    MatrixRotationZ, MatrixRotationX, MatrixRotationY, MatrixTranslation]

/-- Witness of C7: the second frame of a run, H and the rotation key L held.
The first frame, with no key held, has built the world matrix from the initial
state, so its row 0 is (1, 0, 0); in the second frame the cube moves by
`kMovementSpeed * frameTime = 1/6` along that row while L turns it by
`kRotationSpeed * frameTime = 1/15` about Y in the same call. -/
theorem Review.UpdateCube_local_movement_witness :
    heldExactly [.Key_H, .Key_L] .Key_X = false ∧
    heldExactly [.Key_H, .Key_L] .Key_Z = false ∧
    (Review.UpdateCube (⟨Real.sin, Real.cos, Real.tan, fun a b => a ^ b⟩ : CMath ℝ)
        (heldExactly [.Key_H, .Key_L]) (1 / 60)
        (Review.UpdateCube ⟨Real.sin, Real.cos, Real.tan, fun a b => a ^ b⟩
          (fun _ => false) (1 / 60) Review.initialScene)).gCubeRotation =
      { x := 0, y := 1 / 15, z := 0 } ∧
    (Review.UpdateCube (⟨Real.sin, Real.cos, Real.tan, fun a b => a ^ b⟩ : CMath ℝ)
        (heldExactly [.Key_H, .Key_L]) (1 / 60)
        (Review.UpdateCube ⟨Real.sin, Real.cos, Real.tan, fun a b => a ^ b⟩
          (fun _ => false) (1 / 60) Review.initialScene)).gCubePosition =
      { x := 1 / 6, y := 3, z := 0 } := by
  refine ⟨by decide, by decide, ?_, ?_⟩
  · rw [Review.UpdateCube_initial_worldMatrix]
    simp [Review.UpdateCube, Review.initialScene, heldExactly, Review.kRotationSpeed]
    norm_num
  · refine (Review.UpdateCube_local_movement ⟨Real.sin, Real.cos, Real.tan, fun a b => a ^ b⟩
      (heldExactly [.Key_H, .Key_L]) (1 / 60) _ (by decide) (by decide)).trans ?_
    rw [Review.UpdateCube_initial_worldMatrix]
    simp [Review.initialScene, heldExactly, keySign, Review.kMovementSpeed]
    norm_num

/-- The cube position after a world-movement call, component by component. -/
theorem Review.UpdateCube_worldStep_position (m : CMath ℝ) (KeyHeld : KeyCode → Bool)
    (frameTime : ℝ) (g : Review.Scene ℝ)
    (hX : KeyHeld .Key_X = false) (hZ : KeyHeld .Key_Z = true) :
    (Review.UpdateCube m KeyHeld frameTime g).gCubePosition =
      { x := g.gCubePosition.x +
          keySign KeyHeld .Key_H .Key_F * (Review.kMovementSpeed * frameTime)
        y := g.gCubePosition.y +
          keySign KeyHeld .Key_R .Key_Y * (Review.kMovementSpeed * frameTime)
        z := g.gCubePosition.z +
          keySign KeyHeld .Key_T .Key_G * (Review.kMovementSpeed * frameTime) } := by
  simp only [Review.UpdateCube, hX, hZ, keySign]
  cases KeyHeld .Key_H <;> cases KeyHeld .Key_F <;> cases KeyHeld .Key_R <;>
    cases KeyHeld .Key_Y <;> cases KeyHeld .Key_T <;> cases KeyHeld .Key_G <;>
    ext <;> simp <;> ring1

/-- C9: in the Review lab's `UpdateCube` with the Z modifier held and X not
held, the held movement keys change the matching world-axis component of the
cube position by `± kMovementSpeed * frameTime` (H: +x, F: -x, R: +y, Y: -y,
T: +z, G: -z), the scale is unchanged and, when no rotation key is held, so is
the rotation. -/
theorem Review.UpdateCube_world_movement (m : CMath ℝ) (KeyHeld : KeyCode → Bool)
    (frameTime : ℝ) (g : Review.Scene ℝ)
    (hX : KeyHeld .Key_X = false) (hZ : KeyHeld .Key_Z = true) :
    (Review.UpdateCube m KeyHeld frameTime g).gCubePosition =
      { x := g.gCubePosition.x +
          keySign KeyHeld .Key_H .Key_F * (Review.kMovementSpeed * frameTime)
        y := g.gCubePosition.y +
          keySign KeyHeld .Key_R .Key_Y * (Review.kMovementSpeed * frameTime)
        z := g.gCubePosition.z +
          keySign KeyHeld .Key_T .Key_G * (Review.kMovementSpeed * frameTime) } ∧
    (Review.UpdateCube m KeyHeld frameTime g).gCubeScale = g.gCubeScale ∧
    ((∀ k ∈ rotationKeys, KeyHeld k = false) →
      (Review.UpdateCube m KeyHeld frameTime g).gCubeRotation = g.gCubeRotation) := by
  refine ⟨Review.UpdateCube_worldStep_position m KeyHeld frameTime g hX hZ, ?_, ?_⟩
  · simp only [Review.UpdateCube, hX]
    rfl
  · intro h
    simp only [rotationKeys, List.mem_cons, List.mem_singleton, forall_eq_or_imp, forall_eq,
      List.not_mem_nil, false_implies, implies_true, and_true] at h
    obtain ⟨hK, hI, hL, hJ, hU, hO⟩ := h
    simp [Review.UpdateCube, hK, hI, hL, hJ, hU, hO]

/-- Witness of C9: Z and H held, a frame of 1/60 s, from the initial state: the
cube moves by 10/60 along the world X axis. -/
theorem Review.UpdateCube_world_movement_witness :
    (Review.UpdateCube ⟨Real.sin, Real.cos, Real.tan, fun a b => a ^ b⟩
        (heldExactly [.Key_Z, .Key_H]) (1 / 60) Review.initialScene).gCubePosition =
      { x := Review.initialScene.gCubePosition.x +
          keySign (heldExactly [.Key_Z, .Key_H]) .Key_H .Key_F *
            (Review.kMovementSpeed * (1 / 60))
        y := Review.initialScene.gCubePosition.y +
          keySign (heldExactly [.Key_Z, .Key_H]) .Key_R .Key_Y *
            (Review.kMovementSpeed * (1 / 60))
        z := Review.initialScene.gCubePosition.z +
          keySign (heldExactly [.Key_Z, .Key_H]) .Key_T .Key_G *
            (Review.kMovementSpeed * (1 / 60)) } :=
  (Review.UpdateCube_world_movement ⟨Real.sin, Real.cos, Real.tan, fun a b => a ^ b⟩
    (heldExactly [.Key_Z, .Key_H]) (1 / 60) Review.initialScene (by decide) (by decide)).1

/-- With X and H held and no other key, one `UpdateCube` call multiplies
`scale.x` by `powf(kScaleSpeed, frameTime)`. -/
theorem Review.UpdateCube_scale_up (m : CMath ℝ) (frameTime : ℝ) (g : Review.Scene ℝ) :
    (Review.UpdateCube m (heldExactly [.Key_X, .Key_H]) frameTime g).gCubeScale.x =
      g.gCubeScale.x * m.powf Review.kScaleSpeed frameTime := by
  simp [Review.UpdateCube, heldExactly]

/-- With X and F held and no other key, one `UpdateCube` call divides
`scale.x` by `powf(kScaleSpeed, frameTime)`. -/
theorem Review.UpdateCube_scale_down (m : CMath ℝ) (frameTime : ℝ) (g : Review.Scene ℝ) :
    (Review.UpdateCube m (heldExactly [.Key_X, .Key_F]) frameTime g).gCubeScale.x =
      g.gCubeScale.x / m.powf Review.kScaleSpeed frameTime := by
  simp [Review.UpdateCube, heldExactly]

/-- With X and H held, a sequence of `UpdateCube` calls multiplies `scale.x` by
2 to the power of the total time. -/
theorem Review.UpdateCubeFrames_scale_up (m : CMath ℝ) (hm : m.IsReal)
    (frameTimes : List ℝ) (g : Review.Scene ℝ) :
    (Review.UpdateCubeFrames m (heldExactly [.Key_X, .Key_H]) frameTimes g).gCubeScale.x =
      g.gCubeScale.x * (2 : ℝ) ^ frameTimes.sum := by
  induction frameTimes generalizing g with
  | nil => simp [Review.UpdateCubeFrames]
  | cons frameTime rest ih =>
    have h := ih (Review.UpdateCube m (heldExactly [.Key_X, .Key_H]) frameTime g)
    simp only [Review.UpdateCubeFrames, List.foldl_cons, List.sum_cons] at h ⊢
    rw [h, Review.UpdateCube_scale_up, hm.2.2.2, Review.kScaleSpeed,
      Real.rpow_add (by norm_num : (0 : ℝ) < 2), mul_assoc]

/-- With X and F held, a sequence of `UpdateCube` calls divides `scale.x` by
2 to the power of the total time. -/
theorem Review.UpdateCubeFrames_scale_down (m : CMath ℝ) (hm : m.IsReal)
    (frameTimes : List ℝ) (g : Review.Scene ℝ) :
    (Review.UpdateCubeFrames m (heldExactly [.Key_X, .Key_F]) frameTimes g).gCubeScale.x =
      g.gCubeScale.x / (2 : ℝ) ^ frameTimes.sum := by
  induction frameTimes generalizing g with
  | nil => simp [Review.UpdateCubeFrames]
  | cons frameTime rest ih =>
    have h := ih (Review.UpdateCube m (heldExactly [.Key_X, .Key_F]) frameTime g)
    simp only [Review.UpdateCubeFrames, List.foldl_cons, List.sum_cons] at h ⊢
    rw [h, Review.UpdateCube_scale_down, hm.2.2.2, Review.kScaleSpeed,
      Real.rpow_add (by norm_num : (0 : ℝ) < 2), div_div]

/-- C8: in the Review lab, with X and H held and no other key, after any
sequence of `UpdateCube` calls whose frame times sum to 1 second the cube's
`scale.x` is exactly 2 times its starting value, however the second is split
into frames; with X and F held it is exactly one half of it.  (That the frame
times are non-negative is not needed.) -/
theorem Review.UpdateCube_scale_one_second (m : CMath ℝ) (hm : m.IsReal)
    (frameTimes : List ℝ) (hsum : frameTimes.sum = 1) (g : Review.Scene ℝ) :
    (Review.UpdateCubeFrames m (heldExactly [.Key_X, .Key_H]) frameTimes g).gCubeScale.x =
      2 * g.gCubeScale.x ∧
    (Review.UpdateCubeFrames m (heldExactly [.Key_X, .Key_F]) frameTimes g).gCubeScale.x =
      g.gCubeScale.x / 2 := by
  rw [Review.UpdateCubeFrames_scale_up m hm, Review.UpdateCubeFrames_scale_down m hm, hsum,
    Real.rpow_one]
  exact ⟨mul_comm _ _, rfl⟩

/-- Witness of C8: one second split into frames of 1/4, 1/4 and 1/2 s, from the
initial state, whose `scale.x` is 1. -/
theorem Review.UpdateCube_scale_one_second_witness :
    (Review.UpdateCubeFrames ⟨Real.sin, Real.cos, Real.tan, fun a b => a ^ b⟩
        (heldExactly [.Key_X, .Key_H]) [1 / 4, 1 / 4, 1 / 2] Review.initialScene).gCubeScale.x =
      2 * Review.initialScene.gCubeScale.x ∧
    (Review.UpdateCubeFrames ⟨Real.sin, Real.cos, Real.tan, fun a b => a ^ b⟩
        (heldExactly [.Key_X, .Key_F]) [1 / 4, 1 / 4, 1 / 2] Review.initialScene).gCubeScale.x =
      Review.initialScene.gCubeScale.x / 2 :=
  Review.UpdateCube_scale_one_second ⟨Real.sin, Real.cos, Real.tan, fun a b => a ^ b⟩
    ⟨rfl, rfl, rfl, fun _ _ => rfl⟩ [1 / 4, 1 / 4, 1 / 2] (by norm_num) Review.initialScene

/-! ## The orbiting light of the PixelLighting lab -/

/-- C10, as amended: over the reals (exact arithmetic, the real `cos` and
`sin`), in the PixelLighting lab's `UpdateLight`, with `a` the orbit angle on
entry, the light position set by the call is
`cubePosition + (cos(a) * gLightOrbit, 0, sin(a) * gLightOrbit)`, its distance
from the cube in the XZ plane is `gLightOrbit = 5`, its height is the cube's,
and the angle left by the call is `a - gLightOrbitSpeed * frameTime`. -/
theorem PixelLighting.UpdateLight_orbit (m : CMath ℝ) (hm : m.IsReal) (frameTime : ℝ)
    (g : PixelLighting.Scene ℝ) :
    (PixelLighting.UpdateLight m frameTime g).gLight1Position =
      g.gCubePosition +
        { x := Real.cos g.rotate * PixelLighting.gLightOrbit, y := 0
          z := Real.sin g.rotate * PixelLighting.gLightOrbit } ∧
    Real.sqrt
      (((PixelLighting.UpdateLight m frameTime g).gLight1Position.x - g.gCubePosition.x) ^ 2 +
       ((PixelLighting.UpdateLight m frameTime g).gLight1Position.z - g.gCubePosition.z) ^ 2) =
      PixelLighting.gLightOrbit ∧
    (PixelLighting.gLightOrbit : ℝ) = 5 ∧
    (PixelLighting.UpdateLight m frameTime g).gLight1Position.y = g.gCubePosition.y ∧
    (PixelLighting.UpdateLight m frameTime g).gCubePosition = g.gCubePosition ∧
    (PixelLighting.UpdateLight m frameTime g).rotate =
      g.rotate - PixelLighting.gLightOrbitSpeed * frameTime := by
  obtain ⟨hs, hc, -, -⟩ := hm
  have hadd : ∀ a b : CVector3 ℝ, a + b = { x := a.x + b.x, y := a.y + b.y, z := a.z + b.z } :=
    fun _ _ => rfl
  refine ⟨?_, ?_, rfl, ?_, rfl, rfl⟩
  · simp only [PixelLighting.UpdateLight, hs, hc]
  · simp only [PixelLighting.UpdateLight, hs, hc, hadd, PixelLighting.gLightOrbit]
    have h : (g.gCubePosition.x + Real.cos g.rotate * 5 - g.gCubePosition.x) ^ 2 +
        (g.gCubePosition.z + Real.sin g.rotate * 5 - g.gCubePosition.z) ^ 2 = 5 ^ 2 := by
      have := Real.sin_sq_add_cos_sq g.rotate
      nlinarith [this]
    rw [h]
    exact Real.sqrt_sq (by norm_num)
  · simp only [PixelLighting.UpdateLight, hadd, add_zero]

/-- Witness of C10: the real maths library, a frame of 1/60 s, from the initial
state of the lab: the orbit angle goes from 0 to `-gLightOrbitSpeed * (1/60)`. -/
theorem PixelLighting.UpdateLight_orbit_witness :
    (PixelLighting.UpdateLight ⟨Real.sin, Real.cos, Real.tan, fun a b => a ^ b⟩ (1 / 60)
        PixelLighting.initialScene).rotate =
      PixelLighting.initialScene.rotate - PixelLighting.gLightOrbitSpeed * (1 / 60) :=
  (PixelLighting.UpdateLight_orbit ⟨Real.sin, Real.cos, Real.tan, fun a b => a ^ b⟩
    ⟨rfl, rfl, rfl, fun _ _ => rfl⟩ (1 / 60) PixelLighting.initialScene).2.2.2.2.2

/-! ## Linearity in the frame time -/

/-- The first three entries of the first three rows of the composed world
matrix do not depend on the position. -/
theorem worldMatrix_rows_position (m : CMath ℝ) (scale rotation p q : CVector3 ℝ) :
    let a := MatrixScaling scale * MatrixRotationZ m rotation.z *
      MatrixRotationX m rotation.x * MatrixRotationY m rotation.y * MatrixTranslation p
    let b := MatrixScaling scale * MatrixRotationZ m rotation.z *
      MatrixRotationX m rotation.x * MatrixRotationY m rotation.y * MatrixTranslation q
    a.e00 = b.e00 ∧ a.e01 = b.e01 ∧ a.e02 = b.e02 ∧
    a.e10 = b.e10 ∧ a.e11 = b.e11 ∧ a.e12 = b.e12 ∧
    a.e20 = b.e20 ∧ a.e21 = b.e21 ∧ a.e22 = b.e22 := by
  simp [CMatrix4x4.mul_def, MatrixScaling, MatrixRotationZ, MatrixRotationX, MatrixRotationY,
    MatrixTranslation]

/-- A call of `UpdateCube` with neither modifier held and no rotation key held
leaves the rotation and the scale as they were and leaves a world matrix whose
rotation-and-scale block is that of the matrix composed on entry. -/
theorem Review.UpdateCube_local_rows (m : CMath ℝ) (KeyHeld : KeyCode → Bool)
    (frameTime : ℝ) (g : Review.Scene ℝ) (hW : Review.WorldMatrixBuilt m g)
    (hX : KeyHeld .Key_X = false)
    (hK : KeyHeld .Key_K = false) (hI : KeyHeld .Key_I = false)
    (hL : KeyHeld .Key_L = false) (hJ : KeyHeld .Key_J = false)
    (hU : KeyHeld .Key_U = false) (hO : KeyHeld .Key_O = false) :
    (Review.UpdateCube m KeyHeld frameTime g).gCubeRotation = g.gCubeRotation ∧
    (Review.UpdateCube m KeyHeld frameTime g).gCubeWorldMatrix.e00 = g.gCubeWorldMatrix.e00 ∧
    (Review.UpdateCube m KeyHeld frameTime g).gCubeWorldMatrix.e01 = g.gCubeWorldMatrix.e01 ∧
    (Review.UpdateCube m KeyHeld frameTime g).gCubeWorldMatrix.e02 = g.gCubeWorldMatrix.e02 ∧
    (Review.UpdateCube m KeyHeld frameTime g).gCubeWorldMatrix.e10 = g.gCubeWorldMatrix.e10 ∧
    (Review.UpdateCube m KeyHeld frameTime g).gCubeWorldMatrix.e11 = g.gCubeWorldMatrix.e11 ∧
    (Review.UpdateCube m KeyHeld frameTime g).gCubeWorldMatrix.e12 = g.gCubeWorldMatrix.e12 ∧
    (Review.UpdateCube m KeyHeld frameTime g).gCubeWorldMatrix.e20 = g.gCubeWorldMatrix.e20 ∧
    (Review.UpdateCube m KeyHeld frameTime g).gCubeWorldMatrix.e21 = g.gCubeWorldMatrix.e21 ∧
    (Review.UpdateCube m KeyHeld frameTime g).gCubeWorldMatrix.e22 = g.gCubeWorldMatrix.e22 := by
  have hrot : (Review.UpdateCube m KeyHeld frameTime g).gCubeRotation = g.gCubeRotation := by
    simp [Review.UpdateCube, hK, hI, hL, hJ, hU, hO]
  have hscale : (Review.UpdateCube m KeyHeld frameTime g).gCubeScale = g.gCubeScale := by
    simp [Review.UpdateCube, hX]
  have hbuilt : (Review.UpdateCube m KeyHeld frameTime g).gCubeWorldMatrix =
      MatrixScaling (Review.UpdateCube m KeyHeld frameTime g).gCubeScale *
      MatrixRotationZ m (Review.UpdateCube m KeyHeld frameTime g).gCubeRotation.z *
      MatrixRotationX m (Review.UpdateCube m KeyHeld frameTime g).gCubeRotation.x *
      MatrixRotationY m (Review.UpdateCube m KeyHeld frameTime g).gCubeRotation.y *
      MatrixTranslation (Review.UpdateCube m KeyHeld frameTime g).gCubePosition := by
    simp only [Review.UpdateCube]
  rw [hbuilt, hrot, hscale, hW]
  exact ⟨rfl, worldMatrix_rows_position m _ _ _ _⟩

/-- Two local-movement calls in a row move the cube as one call with the sum of
the frame times does, when the stored world matrix is built and no rotation
key is held. -/
theorem Review.UpdateCube_local_linear (m : CMath ℝ) (KeyHeld : KeyCode → Bool)
    (t₁ t₂ : ℝ) (g : Review.Scene ℝ) (hW : Review.WorldMatrixBuilt m g)
    (hX : KeyHeld .Key_X = false) (hZ : KeyHeld .Key_Z = false)
    (hK : KeyHeld .Key_K = false) (hI : KeyHeld .Key_I = false)
    (hL : KeyHeld .Key_L = false) (hJ : KeyHeld .Key_J = false)
    (hU : KeyHeld .Key_U = false) (hO : KeyHeld .Key_O = false) :
    (Review.UpdateCube m KeyHeld t₂ (Review.UpdateCube m KeyHeld t₁ g)).gCubePosition =
      (Review.UpdateCube m KeyHeld (t₁ + t₂) g).gCubePosition ∧
    (Review.UpdateCube m KeyHeld t₂ (Review.UpdateCube m KeyHeld t₁ g)).gCubeRotation =
      (Review.UpdateCube m KeyHeld (t₁ + t₂) g).gCubeRotation := by
  have hrot : ∀ (t : ℝ) (s : Review.Scene ℝ),
      (Review.UpdateCube m KeyHeld t s).gCubeRotation = s.gCubeRotation := by
    intro t s
    simp [Review.UpdateCube, hK, hI, hL, hJ, hU, hO]
  obtain ⟨-, r00, r01, r02, r10, r11, r12, r20, r21, r22⟩ :=
    Review.UpdateCube_local_rows m KeyHeld t₁ g hW hX hK hI hL hJ hU hO
  refine ⟨?_, by rw [hrot, hrot, hrot]⟩
  ext
  · rw [Review.UpdateCube_localStep_x m KeyHeld t₂ _ hX hZ,
      Review.UpdateCube_localStep_x m KeyHeld t₁ _ hX hZ,
      Review.UpdateCube_localStep_x m KeyHeld (t₁ + t₂) _ hX hZ, r00, r10, r20]
    ring
  · rw [Review.UpdateCube_localStep_y m KeyHeld t₂ _ hX hZ,
      Review.UpdateCube_localStep_y m KeyHeld t₁ _ hX hZ,
      Review.UpdateCube_localStep_y m KeyHeld (t₁ + t₂) _ hX hZ, r01, r11, r21]
    ring
  · rw [Review.UpdateCube_localStep_z m KeyHeld t₂ _ hX hZ,
      Review.UpdateCube_localStep_z m KeyHeld t₁ _ hX hZ,
      Review.UpdateCube_localStep_z m KeyHeld (t₁ + t₂) _ hX hZ, r02, r12, r22]
    ring

/-- C6, as the code has it: in the Review lab, for every single held
directional key of `UpdateCube`, all `t₁`, `t₂` and every starting state whose
stored `gCubeWorldMatrix` is the matrix composed from its scale, rotation and
position when the key is a local-movement key (any state at all for a rotation
key or a world-movement key), calling `UpdateCube` with frame time `t₁` and then
with `t₂` yields the same cube position and rotation as calling it once with
`t₁ + t₂`. -/
theorem Review.UpdateCube_linear (m : CMath ℝ) (KeyHeld : KeyCode → Bool)
    (hk : SingleDirectionalInput KeyHeld) (t₁ t₂ : ℝ) (g : Review.Scene ℝ)
    (hW : UsesLocalAxes KeyHeld → Review.WorldMatrixBuilt m g) :
    (Review.UpdateCube m KeyHeld t₂ (Review.UpdateCube m KeyHeld t₁ g)).gCubePosition =
      (Review.UpdateCube m KeyHeld (t₁ + t₂) g).gCubePosition ∧
    (Review.UpdateCube m KeyHeld t₂ (Review.UpdateCube m KeyHeld t₁ g)).gCubeRotation =
      (Review.UpdateCube m KeyHeld (t₁ + t₂) g).gCubeRotation := by
  rcases hk with ⟨k, hk⟩ | ⟨k, hk⟩ | ⟨k, hk⟩
  · simp only [rotationKeys, List.mem_cons, List.mem_singleton, List.not_mem_nil, or_false] at hk
    rcases hk with rfl | rfl | rfl | rfl | rfl | rfl <;>
      constructor <;> ext <;> simp [Review.UpdateCube, heldExactly] <;> ring1
  · simp only [movementKeys, List.mem_cons, List.mem_singleton, List.not_mem_nil, or_false] at hk
    rcases hk with rfl | rfl | rfl | rfl | rfl | rfl <;>
      constructor <;> ext <;> simp [Review.UpdateCube, heldExactly] <;> ring1
  · have hmem := hk
    simp only [movementKeys, List.mem_cons, List.mem_singleton, List.not_mem_nil, or_false] at hk
    have hbuilt : Review.WorldMatrixBuilt m g := by
      apply hW
      refine ⟨?_, ?_, k, hmem, ?_⟩
      · rcases hk with rfl | rfl | rfl | rfl | rfl | rfl <;> simp [heldExactly]
      · rcases hk with rfl | rfl | rfl | rfl | rfl | rfl <;> simp [heldExactly]
      · simp [heldExactly]
    rcases hk with rfl | rfl | rfl | rfl | rfl | rfl <;>
      exact Review.UpdateCube_local_linear m _ t₁ t₂ g hbuilt (by simp [heldExactly])
        (by simp [heldExactly]) (by simp [heldExactly]) (by simp [heldExactly])
        (by simp [heldExactly]) (by simp [heldExactly]) (by simp [heldExactly])
        (by simp [heldExactly])

/-- Witness of C6 as amended: only H held, two frames of 1 s, from the state
that one `UpdateCube` call with no key held leaves after the initial state. -/
theorem Review.UpdateCube_linear_witness :
    (Review.UpdateCube ⟨Real.sin, Real.cos, Real.tan, fun a b => a ^ b⟩ (heldExactly [.Key_H]) 1
      (Review.UpdateCube ⟨Real.sin, Real.cos, Real.tan, fun a b => a ^ b⟩ (heldExactly [.Key_H]) 1
        (Review.UpdateCube ⟨Real.sin, Real.cos, Real.tan, fun a b => a ^ b⟩ (heldExactly []) 0
          Review.initialScene))).gCubePosition =
    (Review.UpdateCube ⟨Real.sin, Real.cos, Real.tan, fun a b => a ^ b⟩ (heldExactly [.Key_H])
      (1 + 1)
      (Review.UpdateCube ⟨Real.sin, Real.cos, Real.tan, fun a b => a ^ b⟩ (heldExactly []) 0
        Review.initialScene)).gCubePosition :=
  (Review.UpdateCube_linear ⟨Real.sin, Real.cos, Real.tan, fun a b => a ^ b⟩
    (heldExactly [.Key_H]) (SingleDirectionalInput.localMovement .Key_H (by decide)) 1 1
    (Review.UpdateCube ⟨Real.sin, Real.cos, Real.tan, fun a b => a ^ b⟩ (heldExactly []) 0
      Review.initialScene)
    (fun _ => by simp only [Review.WorldMatrixBuilt, Review.UpdateCube])).1

/-- C6 fails as stated: from the program's initial state, whose
`gCubeWorldMatrix` is not built yet, with only the local-movement key H held,
two `UpdateCube` calls of 1 s each move the cube to `x = 10`, and one call of
2 s leaves it at `x = 0`. -/
theorem Review.UpdateCube_local_not_linear_initial :
    (Review.UpdateCube ⟨Real.sin, Real.cos, Real.tan, fun a b => a ^ b⟩ (heldExactly [.Key_H]) 1
      (Review.UpdateCube ⟨Real.sin, Real.cos, Real.tan, fun a b => a ^ b⟩ (heldExactly [.Key_H]) 1
        Review.initialScene)).gCubePosition.x = 10 ∧
    (Review.UpdateCube ⟨Real.sin, Real.cos, Real.tan, fun a b => a ^ b⟩ (heldExactly [.Key_H])
      (1 + 1) Review.initialScene).gCubePosition.x = 0 ∧
    (Review.UpdateCube ⟨Real.sin, Real.cos, Real.tan, fun a b => a ^ b⟩ (heldExactly [.Key_H]) 1
      (Review.UpdateCube ⟨Real.sin, Real.cos, Real.tan, fun a b => a ^ b⟩ (heldExactly [.Key_H]) 1
        Review.initialScene)).gCubePosition ≠
    (Review.UpdateCube ⟨Real.sin, Real.cos, Real.tan, fun a b => a ^ b⟩ (heldExactly [.Key_H])
      (1 + 1) Review.initialScene).gCubePosition := by
  have h0 : (0 : CMatrix4x4 ℝ) = ⟨0, 0, 0, 0, 0, 0, 0, 0, 0, 0, 0, 0, 0, 0, 0, 0⟩ := rfl
  have h1 : (Review.UpdateCube ⟨Real.sin, Real.cos, Real.tan, fun a b => a ^ b⟩
      (heldExactly [.Key_H]) 1
      (Review.UpdateCube ⟨Real.sin, Real.cos, Real.tan, fun a b => a ^ b⟩ (heldExactly [.Key_H]) 1
        Review.initialScene)).gCubePosition.x = 10 := by
    simp [Review.UpdateCube, heldExactly, Review.initialScene, h0, CMatrix4x4.mul_def,
      MatrixScaling, MatrixRotationZ, MatrixRotationX, MatrixRotationY, MatrixTranslation,
      Review.kMovementSpeed]
  have h2 : (Review.UpdateCube ⟨Real.sin, Real.cos, Real.tan, fun a b => a ^ b⟩
      (heldExactly [.Key_H]) (1 + 1) Review.initialScene).gCubePosition.x = 0 := by
    simp [Review.UpdateCube, heldExactly, Review.initialScene, h0]
  refine ⟨h1, h2, fun h => ?_⟩
  have hx := congrArg CVector3.x h
  rw [h1, h2] at hx
  norm_num at hx

/-! ## The orbit angle of the Assignment lab -/

/-- C11, as the code has it: in the Assignment lab, a call of
`UpdateScene(frameTime)` made while the static flag `go` is true leaves the
orbit angle `rotate` at its value before the call minus
`gLightOrbitSpeed * frameTime`; a call made while `go` is false leaves `rotate`
unchanged; and the call flips `go` exactly when key 1 was hit. -/
theorem Assignment.UpdateScene_rotate (m : CMath ℝ) (KeyHit : KeyCode → Bool)
    (frameTime : ℝ) (s : Assignment.Scene ℝ) :
    (Assignment.UpdateScene m KeyHit frameTime s).rotate =
      (if s.go then s.rotate - Assignment.gLightOrbitSpeed * frameTime else s.rotate) ∧
    (Assignment.UpdateScene m KeyHit frameTime s).go =
      (if KeyHit .Key_1 then !s.go else s.go) := by
  simp only [Assignment.UpdateScene, and_self]

/-- C11 fails as stated: after a frame in which key 1 was hit, the next call of
`UpdateScene` with a frame time of 1 s leaves `rotate` at the `-7/10` it had
before the call, not at `-7/10 - gLightOrbitSpeed * 1`. -/
theorem Assignment.UpdateScene_rotate_paused :
    (Assignment.UpdateScene ⟨Real.sin, Real.cos, Real.tan, fun a b => a ^ b⟩
        (heldExactly [.Key_1]) 1
        (Assignment.initialScene ⟨Real.sin, Real.cos, Real.tan, fun a b => a ^ b⟩)).rotate =
      -(7 / 10) ∧
    (Assignment.UpdateScene ⟨Real.sin, Real.cos, Real.tan, fun a b => a ^ b⟩ (heldExactly []) 1
      (Assignment.UpdateScene ⟨Real.sin, Real.cos, Real.tan, fun a b => a ^ b⟩
        (heldExactly [.Key_1]) 1
        (Assignment.initialScene ⟨Real.sin, Real.cos, Real.tan, fun a b => a ^ b⟩))).rotate =
      -(7 / 10) ∧
    (Assignment.UpdateScene ⟨Real.sin, Real.cos, Real.tan, fun a b => a ^ b⟩ (heldExactly []) 1
      (Assignment.UpdateScene ⟨Real.sin, Real.cos, Real.tan, fun a b => a ^ b⟩
        (heldExactly [.Key_1]) 1
        (Assignment.initialScene ⟨Real.sin, Real.cos, Real.tan, fun a b => a ^ b⟩))).rotate ≠
    (Assignment.UpdateScene ⟨Real.sin, Real.cos, Real.tan, fun a b => a ^ b⟩
        (heldExactly [.Key_1]) 1
        (Assignment.initialScene ⟨Real.sin, Real.cos, Real.tan, fun a b => a ^ b⟩)).rotate -
      Assignment.gLightOrbitSpeed * 1 := by
  simp only [Assignment.UpdateScene, Assignment.initialScene, heldExactly,
    Assignment.gLightOrbitSpeed]
  norm_num

/-! ## Composition order -/

/-- The world matrix that `UpdateCube` composes from scale `(1,1,1)`, rotation
`(0, π/2, 0)` and position `(1,0,0)`. -/
theorem worldMatrix_quarter_turn_Y (m : CMath ℝ) (hm : m.IsReal) :
    MatrixScaling ({ x := 1, y := 1, z := 1 } : CVector3 ℝ) * MatrixRotationZ m 0 *
      MatrixRotationX m 0 * MatrixRotationY m (Real.pi / 2) *
      MatrixTranslation ({ x := 1, y := 0, z := 0 } : CVector3 ℝ) =
    ({ e00 := 0, e01 := 0, e02 := -1, e03 := 0
       e10 := 0, e11 := 1, e12 := 0, e13 := 0
       e20 := 1, e21 := 0, e22 := 0, e23 := 0
       e30 := 1, e31 := 0, e32 := 0, e33 := 1 } : CMatrix4x4 ℝ) := by
  obtain ⟨hs, hc, -, -⟩ := hm
  simp [CMatrix4x4.mul_def, MatrixScaling, MatrixRotationZ, MatrixRotationX, MatrixRotationY,
    MatrixTranslation, hs, hc]

/-- C12: with scale `(1,1,1)`, rotation `(0, 90°, 0)` and position `(1,0,0)`
and no key held, the world matrix that `UpdateCube` leaves maps the origin
`(0,0,0,1)` to `(1,0,0)` and the point `(1,0,0,1)` to `(1,0,-1)`. -/
theorem Review.UpdateCube_quarter_turn_Y (m : CMath ℝ) (hm : m.IsReal) (frameTime : ℝ)
    (g : Review.Scene ℝ)
    (hscale : g.gCubeScale = { x := 1, y := 1, z := 1 })
    (hrot : g.gCubeRotation = { x := 0, y := Real.pi / 2, z := 0 })
    (hpos : g.gCubePosition = { x := 1, y := 0, z := 0 }) :
    CVector4.mulMatrix ({ x := 0, y := 0, z := 0, w := 1 } : CVector4 ℝ)
        (Review.UpdateCube m (fun _ => false) frameTime g).gCubeWorldMatrix =
      ({ x := 1, y := 0, z := 0, w := 1 } : CVector4 ℝ) ∧
    CVector4.mulMatrix ({ x := 1, y := 0, z := 0, w := 1 } : CVector4 ℝ)
        (Review.UpdateCube m (fun _ => false) frameTime g).gCubeWorldMatrix =
      ({ x := 1, y := 0, z := -1, w := 1 } : CVector4 ℝ) := by
  have hW : (Review.UpdateCube m (fun _ => false) frameTime g).gCubeWorldMatrix =
      MatrixScaling ({ x := 1, y := 1, z := 1 } : CVector3 ℝ) * MatrixRotationZ m 0 *
        MatrixRotationX m 0 * MatrixRotationY m (Real.pi / 2) *
        MatrixTranslation ({ x := 1, y := 0, z := 0 } : CVector3 ℝ) := by
    simp [Review.UpdateCube, hscale, hrot, hpos]
  rw [hW, worldMatrix_quarter_turn_Y m hm]
  constructor <;> simp [CVector4.mulMatrix]

/-- Witness of C12: the real maths library, a frame of 1/60 s, the initial state
with the rotation and position of the example. -/
theorem Review.UpdateCube_quarter_turn_Y_witness :
    CVector4.mulMatrix ({ x := 1, y := 0, z := 0, w := 1 } : CVector4 ℝ)
        (Review.UpdateCube ⟨Real.sin, Real.cos, Real.tan, fun a b => a ^ b⟩ (fun _ => false)
          (1 / 60)
          { Review.initialScene with
            gCubeRotation := { x := 0, y := Real.pi / 2, z := 0 }
            gCubePosition := { x := 1, y := 0, z := 0 } }).gCubeWorldMatrix =
      ({ x := 1, y := 0, z := -1, w := 1 } : CVector4 ℝ) :=
  (Review.UpdateCube_quarter_turn_Y ⟨Real.sin, Real.cos, Real.tan, fun a b => a ^ b⟩
    ⟨rfl, rfl, rfl, fun _ _ => rfl⟩ (1 / 60)
    { Review.initialScene with
      gCubeRotation := { x := 0, y := Real.pi / 2, z := 0 }
      gCubePosition := { x := 1, y := 0, z := 0 } } rfl rfl rfl).2

/-! ## The 3DMatrices lab -/

/-- C13, as the code has it: in the 3DMatrices lab the cube world matrix left by
`UpdateScene` is `MatrixScaling(scaleX) * MatrixRotationZ(rotationZ) *
MatrixRotationY(rotationY) * MatrixRotationX(rotationX) *
MatrixTranslation(translate)` on the values the call leaves: the rotations are
applied in the order Z, then Y, then X. -/
theorem Matrices3D.UpdateScene_cubeMatrix (m : CMath ℝ) (ToRadians : ℝ → ℝ)
    (projection : CMatrix4x4 ℝ) (KeyHeld : KeyCode → Bool) (frameTime : ℝ)
    (s : Matrices3D.Scene ℝ) :
    (Matrices3D.UpdateScene m ToRadians projection KeyHeld frameTime s).gCubeMatrix =
      MatrixScaling (Matrices3D.UpdateScene m ToRadians projection KeyHeld frameTime s).scaleX *
      MatrixRotationZ m
        (Matrices3D.UpdateScene m ToRadians projection KeyHeld frameTime s).rotationZ *
      MatrixRotationY m
        (Matrices3D.UpdateScene m ToRadians projection KeyHeld frameTime s).rotationY *
      MatrixRotationX m
        (Matrices3D.UpdateScene m ToRadians projection KeyHeld frameTime s).rotationX *
      MatrixTranslation
        (Matrices3D.UpdateScene m ToRadians projection KeyHeld frameTime s).translate := by
  simp only [Matrices3D.UpdateScene]

/-- C13 fails as stated: with `rotationX = rotationY = π/2`, no scaling, no
translation and no key held, the entry `e01` of the cube world matrix left by
`UpdateScene` is 1, and that of `Scale * RotZ * RotX * RotY * Translate` is 0. -/
theorem Matrices3D.UpdateScene_cubeMatrix_not_ZXY :
    (Matrices3D.UpdateScene ⟨Real.sin, Real.cos, Real.tan, fun a b => a ^ b⟩
      DirectXTutorial3.ToRadians MatrixIdentity (heldExactly []) 0
      { Matrices3D.initialScene with
        rotationX := Real.pi / 2, rotationY := Real.pi / 2 }).gCubeMatrix.e01 = 1 ∧
    (MatrixScaling ({ x := 1, y := 1, z := 1 } : CVector3 ℝ) *
      MatrixRotationZ ⟨Real.sin, Real.cos, Real.tan, fun a b => a ^ b⟩ 0 *
      MatrixRotationX ⟨Real.sin, Real.cos, Real.tan, fun a b => a ^ b⟩ (Real.pi / 2) *
      MatrixRotationY ⟨Real.sin, Real.cos, Real.tan, fun a b => a ^ b⟩ (Real.pi / 2) *
      MatrixTranslation ({ x := 0, y := 0, z := 0 } : CVector3 ℝ)).e01 = 0 ∧
    (Matrices3D.UpdateScene ⟨Real.sin, Real.cos, Real.tan, fun a b => a ^ b⟩
      DirectXTutorial3.ToRadians MatrixIdentity (heldExactly []) 0
      { Matrices3D.initialScene with
        rotationX := Real.pi / 2, rotationY := Real.pi / 2 }).gCubeMatrix ≠
    MatrixScaling ({ x := 1, y := 1, z := 1 } : CVector3 ℝ) *
      MatrixRotationZ ⟨Real.sin, Real.cos, Real.tan, fun a b => a ^ b⟩ 0 *
      MatrixRotationX ⟨Real.sin, Real.cos, Real.tan, fun a b => a ^ b⟩ (Real.pi / 2) *
      MatrixRotationY ⟨Real.sin, Real.cos, Real.tan, fun a b => a ^ b⟩ (Real.pi / 2) *
      MatrixTranslation ({ x := 0, y := 0, z := 0 } : CVector3 ℝ) := by
  have h1 : (Matrices3D.UpdateScene ⟨Real.sin, Real.cos, Real.tan, fun a b => a ^ b⟩
      DirectXTutorial3.ToRadians MatrixIdentity (heldExactly []) 0
      { Matrices3D.initialScene with
        rotationX := Real.pi / 2, rotationY := Real.pi / 2 }).gCubeMatrix.e01 = 1 := by
    simp [Matrices3D.UpdateScene, Matrices3D.initialScene, heldExactly, CMatrix4x4.mul_def,
      MatrixScaling, MatrixRotationZ, MatrixRotationX, MatrixRotationY, MatrixTranslation]
  have h2 : (MatrixScaling ({ x := 1, y := 1, z := 1 } : CVector3 ℝ) *
      MatrixRotationZ ⟨Real.sin, Real.cos, Real.tan, fun a b => a ^ b⟩ 0 *
      MatrixRotationX ⟨Real.sin, Real.cos, Real.tan, fun a b => a ^ b⟩ (Real.pi / 2) *
      MatrixRotationY ⟨Real.sin, Real.cos, Real.tan, fun a b => a ^ b⟩ (Real.pi / 2) *
      MatrixTranslation ({ x := 0, y := 0, z := 0 } : CVector3 ℝ)).e01 = 0 := by
    simp [CMatrix4x4.mul_def, MatrixScaling, MatrixRotationZ, MatrixRotationX, MatrixRotationY,
      MatrixTranslation]
  refine ⟨h1, h2, fun h => ?_⟩
  have h3 := congrArg CMatrix4x4.e01 h
  rw [h1, h2] at h3
  exact one_ne_zero h3

/-- The view matrix that `UpdateScene` leaves is the translation by the camera
position itself. -/
theorem Matrices3D.UpdateScene_viewMatrix_eq (m : CMath ℝ) (ToRadians : ℝ → ℝ)
    (projection : CMatrix4x4 ℝ) (KeyHeld : KeyCode → Bool) (frameTime : ℝ)
    (s : Matrices3D.Scene ℝ) :
    (Matrices3D.UpdateScene m ToRadians projection KeyHeld frameTime s).viewMatrix =
      MatrixTranslation
        { x := (Matrices3D.UpdateScene m ToRadians projection KeyHeld frameTime s).posx
          y := (Matrices3D.UpdateScene m ToRadians projection KeyHeld frameTime s).posy
          z := (Matrices3D.UpdateScene m ToRadians projection KeyHeld frameTime s).posz } := by
  simp only [Matrices3D.UpdateScene]

/-- C14 fails on the code: from the initial state with no key held, the camera
position left by `UpdateScene` is `(0, 0, -5)`, the view matrix left is
`MatrixTranslation(cameraPos)` and not its affine inverse, and
`MatrixTranslation(cameraPos) * viewMatrix` is the translation by `(0, 0, -10)`,
not the identity. -/
theorem Matrices3D.UpdateScene_view_not_inverse :
    (Matrices3D.UpdateScene ⟨Real.sin, Real.cos, Real.tan, fun a b => a ^ b⟩
      DirectXTutorial3.ToRadians MatrixIdentity (heldExactly []) (1 / 60)
      Matrices3D.initialScene).viewMatrix =
        MatrixTranslation ({ x := 0, y := 0, z := -5 } : CVector3 ℝ) ∧
    MatrixTranslation ({ x := 0, y := 0, z := -5 } : CVector3 ℝ) *
      (Matrices3D.UpdateScene ⟨Real.sin, Real.cos, Real.tan, fun a b => a ^ b⟩
        DirectXTutorial3.ToRadians MatrixIdentity (heldExactly []) (1 / 60)
        Matrices3D.initialScene).viewMatrix =
        MatrixTranslation ({ x := 0, y := 0, z := -10 } : CVector3 ℝ) ∧
    MatrixTranslation ({ x := 0, y := 0, z := -5 } : CVector3 ℝ) *
      (Matrices3D.UpdateScene ⟨Real.sin, Real.cos, Real.tan, fun a b => a ^ b⟩
        DirectXTutorial3.ToRadians MatrixIdentity (heldExactly []) (1 / 60)
        Matrices3D.initialScene).viewMatrix ≠ MatrixIdentity := by
  have h1 : (Matrices3D.UpdateScene ⟨Real.sin, Real.cos, Real.tan, fun a b => a ^ b⟩
      DirectXTutorial3.ToRadians MatrixIdentity (heldExactly []) (1 / 60)
      Matrices3D.initialScene).viewMatrix =
        MatrixTranslation ({ x := 0, y := 0, z := -5 } : CVector3 ℝ) := by
    simp [Matrices3D.UpdateScene, Matrices3D.initialScene, heldExactly]
  have h2 : MatrixTranslation ({ x := 0, y := 0, z := -5 } : CVector3 ℝ) *
      MatrixTranslation ({ x := 0, y := 0, z := -5 } : CVector3 ℝ) =
        MatrixTranslation ({ x := 0, y := 0, z := -10 } : CVector3 ℝ) := by
    simp [CMatrix4x4.mul_def, MatrixTranslation]
    norm_num
  refine ⟨h1, by rw [h1, h2], fun h => ?_⟩
  rw [h1, h2] at h
  have h3 := congrArg CMatrix4x4.e32 h
  simp [MatrixTranslation, MatrixIdentity] at h3

/-! ## The `int` sums of the plotters -/

/-- A value in the range of `int` is not changed by the wrap. -/
theorem wrapInt_of_range (n : Int) (h1 : -2147483648 ≤ n) (h2 : n ≤ 2147483647) :
    wrapInt n = n := by
  unfold wrapInt
  omega

/-- The `int` expression `n - 1` for an `int` sum `n` whose exact value less 1
is in range. -/
theorem wrapInt_sub_one (n : Int) (h1 : -2147483648 ≤ n - 1) (h2 : n - 1 ≤ 2147483647) :
    wrapInt (wrapInt n - 1) = n - 1 := by
  unfold wrapInt
  omega

/-- Two loops whose passes agree make the same viewport. -/
theorem fold_congr {α : Type} (f g : Nat → α → α) (n : Nat)
    (h : ∀ i, i < n → ∀ a, f i a = g i a) (a : α) : Nat.fold f n a = Nat.fold g n a := by
  induction n with
  | zero => rfl
  | succ n ih =>
    have hf : Nat.fold f (n + 1) a = f n (Nat.fold f n a) := rfl
    have hg : Nat.fold g (n + 1) a = g n (Nat.fold g n a) := rfl
    rw [hf, hg, ih (fun i hi => h i (Nat.lt_succ_of_lt hi)), h n (Nat.lt_succ_self n)]

/-! ## The sprite plotter -/

/-- The colour of a pixel after `SetViewportPixel`. -/
theorem SetViewportPixel_pixels (vp : Viewport) (X Y : Int) (colour : Color) (a b : Int) :
    (SetViewportPixel vp X Y colour).pixels a b =
      if a = X ∧ b = Y then colour else vp.pixels a b := rfl

/-- The calls made so far after `SetViewportPixel`. -/
theorem SetViewportPixel_written (vp : Viewport) (X Y : Int) (colour : Color) :
    (SetViewportPixel vp X Y colour).written = vp.written ++ [(X, Y, colour)] := rfl

/-- One column of `plotLoop`: the pixels and the calls after the first `n` rows. -/
theorem plotLoop_column (X Y : Int) (x : Nat) (sel : Nat → Nat → Bool)
    (col : Nat → Nat → Color → Color) (vp : Viewport) (n : Nat) :
    (∀ a b : Int, (Nat.fold (fun y vp =>
        if sel x y = true then
          SetViewportPixel vp (x + X) (y + Y) (col x y (vp.pixels (x + X) (y + Y)))
        else vp) n vp).pixels a b =
      if a = x + X ∧ 0 ≤ b - Y ∧ b - Y < n ∧ sel x (b - Y).toNat = true then
        col x (b - Y).toNat (vp.pixels a b) else vp.pixels a b) ∧
    (Nat.fold (fun y vp =>
        if sel x y = true then
          SetViewportPixel vp (x + X) (y + Y) (col x y (vp.pixels (x + X) (y + Y)))
        else vp) n vp).written =
      vp.written ++ ((List.range n).filter fun y => sel x y).map fun (y : Nat) =>
        ((x : Int) + X, (y : Int) + Y, col x y (vp.pixels (x + X) (y + Y))) := by
  induction n with
  | zero =>
    refine ⟨fun a b => ?_, by simp [Nat.fold]⟩
    have : ¬ (a = x + X ∧ 0 ≤ b - Y ∧ b - Y < ((0 : Nat) : Int) ∧
        sel x (b - Y).toNat = true) := by
      rintro ⟨-, h1, h2, -⟩
      omega
    rw [if_neg this]
    rfl
  | succ n ih =>
    obtain ⟨ihp, ihw⟩ := ih
    have hfold : ∀ (f : Nat → Viewport → Viewport), Nat.fold f (n + 1) vp =
        f n (Nat.fold f n vp) := fun _ => rfl
    rw [hfold]
    have hcur : (Nat.fold (fun y vp =>
        if sel x y = true then
          SetViewportPixel vp (x + X) (y + Y) (col x y (vp.pixels (x + X) (y + Y)))
        else vp) n vp).pixels (x + X) (n + Y) = vp.pixels (x + X) (n + Y) := by
      rw [ihp]
      apply if_neg
      rintro ⟨-, -, h2, -⟩
      omega
    have hstep : ∀ a b : Int,
        (a = x + X ∧ 0 ≤ b - Y ∧ b - Y < ((n + 1 : Nat) : Int) ∧ sel x (b - Y).toNat = true) ↔
        ((a = x + X ∧ b = n + Y ∧ sel x n = true) ∨
          (a = x + X ∧ 0 ≤ b - Y ∧ b - Y < n ∧ sel x (b - Y).toNat = true)) := by
      intro a b
      constructor
      · rintro ⟨h1, h2, h3, h4⟩
        by_cases hb : b - Y < n
        · exact Or.inr ⟨h1, h2, hb, h4⟩
        · have e : (b - Y).toNat = n := by omega
          rw [e] at h4
          exact Or.inl ⟨h1, by omega, h4⟩
      · rintro (⟨h1, h2, h3⟩ | ⟨h1, h2, h3, h4⟩)
        · have e : (b - Y).toNat = n := by omega
          exact ⟨h1, by omega, by omega, by rw [e]; exact h3⟩
        · exact ⟨h1, h2, by omega, h4⟩
    by_cases hs : sel x n = true
    · rw [if_pos hs]
      constructor
      · intro a b
        by_cases hab : a = x + X ∧ b = n + Y
        · have hc : a = x + X ∧ 0 ≤ b - Y ∧ b - Y < ((n + 1 : Nat) : Int) ∧
              sel x (b - Y).toNat = true := (hstep a b).mpr (Or.inl ⟨hab.1, hab.2, hs⟩)
          have e : (b - Y).toNat = n := by omega
          rw [if_pos hc, e, SetViewportPixel_pixels, if_pos hab, hcur, hab.1, hab.2]
        · rw [SetViewportPixel_pixels, if_neg hab, ihp]
          by_cases hc : a = x + X ∧ 0 ≤ b - Y ∧ b - Y < n ∧ sel x (b - Y).toNat = true
          · rw [if_pos hc, if_pos ((hstep a b).mpr (Or.inr hc))]
          · have : ¬ (a = x + X ∧ 0 ≤ b - Y ∧ b - Y < ((n + 1 : Nat) : Int) ∧
                sel x (b - Y).toNat = true) := by
              intro h
              rcases (hstep a b).mp h with ⟨h1, h2, -⟩ | h
              · exact hab ⟨h1, h2⟩
              · exact hc h
            rw [if_neg hc, if_neg this]
      · rw [SetViewportPixel_written, hcur, ihw]
        simp only [List.range_succ, List.filter_append, List.map_append, List.filter_cons,
          List.filter_nil, hs, if_true, List.map_cons, List.map_nil, List.append_assoc]
    · rw [if_neg hs]
      have hs' : sel x n = false := by simpa using hs
      constructor
      · intro a b
        rw [ihp]
        by_cases hc : a = x + X ∧ 0 ≤ b - Y ∧ b - Y < n ∧ sel x (b - Y).toNat = true
        · rw [if_pos hc, if_pos ((hstep a b).mpr (Or.inr hc))]
        · have : ¬ (a = x + X ∧ 0 ≤ b - Y ∧ b - Y < ((n + 1 : Nat) : Int) ∧
              sel x (b - Y).toNat = true) := by
            intro h
            rcases (hstep a b).mp h with ⟨-, -, h3⟩ | h
            · exact hs h3
            · exact hc h
          rw [if_neg hc, if_neg this]
      · simp only [ihw, List.range_succ, List.filter_append, List.map_append, List.filter_cons,
          List.filter_nil, hs', List.map_nil, List.append_nil, Bool.false_eq_true, if_false]

/-- What `plotLoop` leaves: the pixels are `plotted` from the pixels on entry,
and the calls made are `plotWrites`, with the colours made from the pixels on
entry. -/
theorem plotLoop_spec (X Y : Int) (Height : Nat) (sel : Nat → Nat → Bool)
    (col : Nat → Nat → Color → Color) (vp : Viewport) (Width : Nat) :
    (∀ a b : Int, (plotLoop X Y Width Height sel col vp).pixels a b =
      plotted X Y Width Height sel col vp.pixels a b) ∧
    (plotLoop X Y Width Height sel col vp).written =
      vp.written ++ plotWrites X Y Width Height sel col vp.pixels := by
  induction Width with
  | zero =>
    refine ⟨fun a b => ?_, by simp [plotLoop, plotWrites, Nat.fold]⟩
    have : ¬ (0 ≤ a - X ∧ a - X < ((0 : Nat) : Int) ∧ 0 ≤ b - Y ∧ b - Y < (Height : Int) ∧
        sel (a - X).toNat (b - Y).toNat = true) := by
      rintro ⟨h1, h2, -⟩
      omega
    rw [plotted, if_neg this]
    rfl
  | succ n ih =>
    obtain ⟨ihp, ihw⟩ := ih
    have hfold : plotLoop X Y (n + 1) Height sel col vp =
        Nat.fold (fun y vp' =>
          if sel n y = true then
            SetViewportPixel vp' (n + X) (y + Y) (col n y (vp'.pixels (n + X) (y + Y)))
          else vp') Height (plotLoop X Y n Height sel col vp) := rfl
    obtain ⟨cp, cw⟩ := plotLoop_column X Y n sel col (plotLoop X Y n Height sel col vp) Height
    have hcol : ∀ b : Int, (plotLoop X Y n Height sel col vp).pixels (n + X) b =
        vp.pixels (n + X) b := by
      intro b
      rw [ihp, plotted]
      apply if_neg
      rintro ⟨-, h2, -⟩
      omega
    rw [hfold]
    constructor
    · intro a b
      rw [cp, ihp]
      by_cases ha : a = n + X
      · subst ha
        have e : ((n : Int) + X - X).toNat = n := by omega
        have hn : ¬ (0 ≤ (n : Int) + X - X ∧ (n : Int) + X - X < (n : Int) ∧ 0 ≤ b - Y ∧
            b - Y < (Height : Int) ∧ sel ((n : Int) + X - X).toNat (b - Y).toNat = true) := by
          rintro ⟨-, h2, -⟩
          omega
        by_cases hc : 0 ≤ b - Y ∧ b - Y < (Height : Int) ∧ sel n (b - Y).toNat = true
        · have h1 : ((n : Int) + X = n + X ∧ 0 ≤ b - Y ∧ b - Y < (Height : Int) ∧
              sel n (b - Y).toNat = true) := ⟨rfl, hc⟩
          have h2 : (0 ≤ (n : Int) + X - X ∧ (n : Int) + X - X < ((n + 1 : Nat) : Int) ∧
              0 ≤ b - Y ∧ b - Y < (Height : Int) ∧
              sel ((n : Int) + X - X).toNat (b - Y).toNat = true) :=
            ⟨by omega, by omega, hc.1, hc.2.1, by rw [e]; exact hc.2.2⟩
          rw [if_pos h1, plotted, if_neg hn, plotted, if_pos h2, e]
        · have h1 : ¬ ((n : Int) + X = n + X ∧ 0 ≤ b - Y ∧ b - Y < (Height : Int) ∧
              sel n (b - Y).toNat = true) := fun h => hc h.2
          have h2 : ¬ (0 ≤ (n : Int) + X - X ∧ (n : Int) + X - X < ((n + 1 : Nat) : Int) ∧
              0 ≤ b - Y ∧ b - Y < (Height : Int) ∧
              sel ((n : Int) + X - X).toNat (b - Y).toNat = true) := by
            rintro ⟨-, -, h3, h4, h5⟩
            rw [e] at h5
            exact hc ⟨h3, h4, h5⟩
          rw [if_neg h1, plotted, if_neg hn, plotted, if_neg h2]
      · have h1 : ¬ (a = n + X ∧ 0 ≤ b - Y ∧ b - Y < (Height : Int) ∧
            sel n (b - Y).toNat = true) := fun h => ha h.1
        rw [if_neg h1, plotted, plotted]
        by_cases hc : 0 ≤ a - X ∧ a - X < (n : Int) ∧ 0 ≤ b - Y ∧ b - Y < (Height : Int) ∧
            sel (a - X).toNat (b - Y).toNat = true
        · have h2 : 0 ≤ a - X ∧ a - X < ((n + 1 : Nat) : Int) ∧ 0 ≤ b - Y ∧
              b - Y < (Height : Int) ∧ sel (a - X).toNat (b - Y).toNat = true :=
            ⟨hc.1, by omega, hc.2.2⟩
          rw [if_pos hc, if_pos h2]
        · have h2 : ¬ (0 ≤ a - X ∧ a - X < ((n + 1 : Nat) : Int) ∧ 0 ≤ b - Y ∧
              b - Y < (Height : Int) ∧ sel (a - X).toNat (b - Y).toNat = true) := by
            rintro ⟨h3, h4, h5⟩
            exact hc ⟨h3, by omega, h5⟩
          rw [if_neg hc, if_neg h2]
    · rw [cw, ihw]
      simp only [plotWrites, List.range_succ, List.flatMap_append, List.flatMap_cons,
        List.flatMap_nil, List.append_nil, List.append_assoc, hcol]

/-- While no sum leaves the range of `int`, `DrawSprite` is `plotLoop` on the
pixels of non-zero alpha, with the bitmap's colour. -/
theorem SpritePlotter.DrawSprite_eq_plotLoop (X Y : Int) (SrcBitmap : Bitmap) (vp : Viewport)
    (hX : -2147483648 ≤ X) (hXW : X + SrcBitmap.Width - 1 ≤ 2147483647)
    (hY : -2147483648 ≤ Y) (hYH : Y + SrcBitmap.Height - 1 ≤ 2147483647) :
    SpritePlotter.DrawSprite X Y SrcBitmap vp =
      plotLoop X Y SrcBitmap.Width SrcBitmap.Height
        (fun x y => decide ((SrcBitmap.GetPixel x y).A ≠ 0))
        (fun x y _ => SrcBitmap.GetPixel x y) vp := by
  unfold SpritePlotter.DrawSprite plotLoop
  apply fold_congr
  intro x hx vp
  apply fold_congr
  intro y hy vp
  rw [wrapInt_of_range (x + X) (by omega) (by omega),
    wrapInt_of_range (y + Y) (by omega) (by omega)]
  simp only [decide_eq_true_eq]

/-- The function `DrawSpriteAlpha` is `plotLoop` on every pixel, with the blend of
the bitmap's colour and the colour found in the viewport. -/
theorem SpritePlotter.DrawSpriteAlpha_eq_plotLoop (X Y : Int) (SrcBitmap : Bitmap)
    (vp : Viewport) :
    SpritePlotter.DrawSpriteAlpha X Y SrcBitmap vp =
      plotLoop X Y SrcBitmap.Width SrcBitmap.Height (fun _ _ => true)
        (fun x y v => Color.FromArgb
          (((SrcBitmap.GetPixel x y).R * (SrcBitmap.GetPixel x y).A +
            v.R * (255 - (SrcBitmap.GetPixel x y).A)) / 255)
          (((SrcBitmap.GetPixel x y).G * (SrcBitmap.GetPixel x y).A +
            v.G * (255 - (SrcBitmap.GetPixel x y).A)) / 255)
          (((SrcBitmap.GetPixel x y).B * (SrcBitmap.GetPixel x y).A +
            v.B * (255 - (SrcBitmap.GetPixel x y).A)) / 255)) vp := by
  simp only [SpritePlotter.DrawSpriteAlpha, plotLoop, GetViewportPixel, if_true]

/-- The calls of `plotLoop`, one by one. -/
theorem mem_plotWrites (X Y : Int) (Width Height : Nat) (sel : Nat → Nat → Bool)
    (col : Nat → Nat → Color → Color) (p : Int → Int → Color) (a b : Int) (c : Color) :
    (a, b, c) ∈ plotWrites X Y Width Height sel col p ↔
      ∃ x y : Nat, x < Width ∧ y < Height ∧ sel x y = true ∧ a = x + X ∧ b = y + Y ∧
        c = col x y (p (x + X) (y + Y)) := by
  simp only [plotWrites, List.mem_flatMap, List.mem_map, List.mem_filter, List.mem_range,
    Prod.mk.injEq]
  constructor
  · rintro ⟨x, hx, y, ⟨hy, hs⟩, h1, h2, h3⟩
    exact ⟨x, y, hx, hy, hs, h1.symm, h2.symm, h3.symm⟩
  · rintro ⟨x, y, hx, hy, hs, h1, h2, h3⟩
    exact ⟨x, hx, y, ⟨hy, hs⟩, h1.symm, h2.symm, h3.symm⟩

/-- A blended channel lies between the two channels it is blended from. -/
theorem blend_between (s v A : Nat) (hA : A ≤ 255) :
    (s * A + v * (255 - A)) / 255 ≥ min s v ∧ (s * A + v * (255 - A)) / 255 ≤ max s v := by
  obtain ⟨B, hB⟩ : ∃ B, 255 - A = B ∧ A + B = 255 := ⟨255 - A, rfl, by omega⟩
  rw [hB.1]
  constructor
  · rw [ge_iff_le, Nat.le_div_iff_mul_le (by norm_num)]
    have h1 : min s v ≤ s := min_le_left _ _
    have h2 : min s v ≤ v := min_le_right _ _
    calc min s v * 255 = min s v * A + min s v * B := by rw [← hB.2, Nat.mul_add]
      _ ≤ s * A + v * B := Nat.add_le_add (Nat.mul_le_mul_right _ h1) (Nat.mul_le_mul_right _ h2)
  · apply Nat.div_le_of_le_mul
    have h1 : s ≤ max s v := le_max_left _ _
    have h2 : v ≤ max s v := le_max_right _ _
    calc s * A + v * B ≤ max s v * A + max s v * B :=
          Nat.add_le_add (Nat.mul_le_mul_right _ h1) (Nat.mul_le_mul_right _ h2)
      _ = 255 * max s v := by rw [← Nat.mul_add, hB.2, Nat.mul_comm]

/-- C16, as amended: for an offset `(X, Y)` and a bitmap whose sums `x + X` and
`y + Y` stay in the range of `int`, `DrawSprite` makes a `SetViewportPixel` call
for the viewport pixel `(X + x, Y + y)` with the bitmap's colour at `(x, y)`
exactly for the bitmap coordinates whose alpha is not zero; those viewport
pixels end with the bitmap's colour, and every other viewport pixel, under a
bitmap pixel of alpha 0 or outside the bitmap's rectangle, keeps its previous
colour. -/
theorem SpritePlotter.DrawSprite_cutout (X Y : Int) (SrcBitmap : Bitmap) (vp : Viewport)
    (hX : -2147483648 ≤ X) (hXW : X + SrcBitmap.Width - 1 ≤ 2147483647)
    (hY : -2147483648 ≤ Y) (hYH : Y + SrcBitmap.Height - 1 ≤ 2147483647) :
    ∃ calls : List (Int × Int × Color),
      (SpritePlotter.DrawSprite X Y SrcBitmap vp).written = vp.written ++ calls ∧
      (∀ (a b : Int) (c : Color), (a, b, c) ∈ calls ↔
        ∃ x y : Nat, x < SrcBitmap.Width ∧ y < SrcBitmap.Height ∧
          (SrcBitmap.GetPixel x y).A ≠ 0 ∧ a = x + X ∧ b = y + Y ∧
          c = SrcBitmap.GetPixel x y) ∧
      (∀ x y : Nat, x < SrcBitmap.Width → y < SrcBitmap.Height →
        (SrcBitmap.GetPixel x y).A ≠ 0 →
        (SpritePlotter.DrawSprite X Y SrcBitmap vp).pixels (x + X) (y + Y) =
          SrcBitmap.GetPixel x y) ∧
      (∀ a b : Int,
        (∀ x y : Nat, x < SrcBitmap.Width → y < SrcBitmap.Height → a = x + X → b = y + Y →
          (SrcBitmap.GetPixel x y).A = 0) →
        (SpritePlotter.DrawSprite X Y SrcBitmap vp).pixels a b = vp.pixels a b) := by
  obtain ⟨hp, hw⟩ := plotLoop_spec X Y SrcBitmap.Height
    (fun x y => decide ((SrcBitmap.GetPixel x y).A ≠ 0))
    (fun x y _ => SrcBitmap.GetPixel x y) vp SrcBitmap.Width
  rw [SpritePlotter.DrawSprite_eq_plotLoop X Y SrcBitmap vp hX hXW hY hYH]
  refine ⟨_, hw, ?_, ?_, ?_⟩
  · intro a b c
    rw [mem_plotWrites]
    simp only [decide_eq_true_eq]
  · intro x y hx hy hA
    rw [hp, plotted]
    have e1 : ((x : Int) + X - X).toNat = x := by omega
    have e2 : ((y : Int) + Y - Y).toNat = y := by omega
    rw [if_pos ⟨by omega, by omega, by omega, by omega, by rw [e1, e2]; exact decide_eq_true hA⟩,
      e1, e2]
  · intro a b h
    rw [hp, plotted]
    apply if_neg
    rintro ⟨h1, h2, h3, h4, h5⟩
    have := h (a - X).toNat (b - Y).toNat (by omega) (by omega) (by omega) (by omega)
    exact (of_decide_eq_true h5) this

/-- Witness of C16: a sprite of 2 by 1 pixels, the first transparent and the
second opaque yellow, drawn at `(10, 20)` on a black viewport: the pixel
`(11, 20)` is set to the sprite's colour. -/
theorem SpritePlotter.DrawSprite_cutout_witness :
    (-2147483648 : Int) ≤ 10 ∧ (10 : Int) + (2 : Nat) - 1 ≤ 2147483647 ∧
    (-2147483648 : Int) ≤ 20 ∧ (20 : Int) + (1 : Nat) - 1 ≤ 2147483647 ∧
    (SpritePlotter.DrawSprite 10 20
        { Width := 2, Height := 1
          GetPixel := fun x _ => if x = 0 then ⟨0, 0, 0, 0⟩ else ⟨255, 255, 255, 0⟩ }
        { pixels := fun _ _ => ⟨255, 0, 0, 0⟩, written := [] }).pixels ((1 : Nat) + 10)
        ((0 : Nat) + 20) = ⟨255, 255, 255, 0⟩ := by
  refine ⟨by decide, by decide, by decide, by decide, ?_⟩
  obtain ⟨-, -, -, h, -⟩ := SpritePlotter.DrawSprite_cutout 10 20
    { Width := 2, Height := 1
      GetPixel := fun x _ => if x = 0 then ⟨0, 0, 0, 0⟩ else ⟨255, 255, 255, 0⟩ }
    { pixels := fun _ _ => ⟨255, 0, 0, 0⟩, written := [] }
    (by decide) (by decide) (by decide) (by decide)
  exact h 1 0 (by decide) (by decide) (by decide)

/-- Counterexample for C16: an opaque yellow sprite of 2 by 1 pixels drawn at
`(2147483647, 0)` on a black viewport.  The sum `1 + 2147483647` wraps round:
the second pixel is written at `(-2147483648, 0)`, and the viewport pixel
`(2147483648, 0)` of the claim keeps its black. -/
theorem SpritePlotter.DrawSprite_wraps :
    (SpritePlotter.DrawSprite 2147483647 0
        { Width := 2, Height := 1, GetPixel := fun _ _ => ⟨255, 255, 255, 0⟩ }
        { pixels := fun _ _ => ⟨255, 0, 0, 0⟩, written := [] }).written =
      [(2147483647, 0, ⟨255, 255, 255, 0⟩), (-2147483648, 0, ⟨255, 255, 255, 0⟩)] ∧
    (SpritePlotter.DrawSprite 2147483647 0
        { Width := 2, Height := 1, GetPixel := fun _ _ => ⟨255, 255, 255, 0⟩ }
        { pixels := fun _ _ => ⟨255, 0, 0, 0⟩, written := [] }).pixels (1 + 2147483647) 0 =
      ⟨255, 0, 0, 0⟩ := by
  constructor
  · decide
  · decide

/-- C15: for a bitmap and a viewport whose channels are bytes, `DrawSpriteAlpha`
makes one `SetViewportPixel` call for every pixel of the bitmap, and each colour
channel it writes is `(s * A + v * (255 - A)) / 255` with integer division,
where `s` is the bitmap's value of that channel, `A` the bitmap's alpha and `v`
the value of that channel of the viewport pixel before the call; the result
lies between `min s v` and `max s v`, so the colour written has byte channels. -/
theorem SpritePlotter.DrawSpriteAlpha_blend (X Y : Int) (SrcBitmap : Bitmap) (vp : Viewport)
    (hsrc : ∀ x y : Nat, (SrcBitmap.GetPixel x y).Valid)
    (hvp : ∀ a b : Int, (vp.pixels a b).Valid) :
    ∃ calls : List (Int × Int × Color),
      (SpritePlotter.DrawSpriteAlpha X Y SrcBitmap vp).written = vp.written ++ calls ∧
      (∀ x y : Nat, x < SrcBitmap.Width → y < SrcBitmap.Height →
        ∃ c : Color, ((x : Int) + X, (y : Int) + Y, c) ∈ calls) ∧
      ∀ (a b : Int) (c : Color), (a, b, c) ∈ calls →
        ∃ x y : Nat, x < SrcBitmap.Width ∧ y < SrcBitmap.Height ∧ a = x + X ∧ b = y + Y ∧
          c = (SpritePlotter.DrawSpriteAlpha X Y SrcBitmap vp).pixels a b ∧ c.Valid ∧
          c.R = ((SrcBitmap.GetPixel x y).R * (SrcBitmap.GetPixel x y).A +
            (vp.pixels a b).R * (255 - (SrcBitmap.GetPixel x y).A)) / 255 ∧
          c.G = ((SrcBitmap.GetPixel x y).G * (SrcBitmap.GetPixel x y).A +
            (vp.pixels a b).G * (255 - (SrcBitmap.GetPixel x y).A)) / 255 ∧
          c.B = ((SrcBitmap.GetPixel x y).B * (SrcBitmap.GetPixel x y).A +
            (vp.pixels a b).B * (255 - (SrcBitmap.GetPixel x y).A)) / 255 ∧
          min (SrcBitmap.GetPixel x y).R (vp.pixels a b).R ≤ c.R ∧
          c.R ≤ max (SrcBitmap.GetPixel x y).R (vp.pixels a b).R ∧
          min (SrcBitmap.GetPixel x y).G (vp.pixels a b).G ≤ c.G ∧
          c.G ≤ max (SrcBitmap.GetPixel x y).G (vp.pixels a b).G ∧
          min (SrcBitmap.GetPixel x y).B (vp.pixels a b).B ≤ c.B ∧
          c.B ≤ max (SrcBitmap.GetPixel x y).B (vp.pixels a b).B := by
  obtain ⟨hp, hw⟩ := plotLoop_spec X Y SrcBitmap.Height (fun _ _ => true)
    (fun x y v => Color.FromArgb
      (((SrcBitmap.GetPixel x y).R * (SrcBitmap.GetPixel x y).A +
        v.R * (255 - (SrcBitmap.GetPixel x y).A)) / 255)
      (((SrcBitmap.GetPixel x y).G * (SrcBitmap.GetPixel x y).A +
        v.G * (255 - (SrcBitmap.GetPixel x y).A)) / 255)
      (((SrcBitmap.GetPixel x y).B * (SrcBitmap.GetPixel x y).A +
        v.B * (255 - (SrcBitmap.GetPixel x y).A)) / 255)) vp SrcBitmap.Width
  rw [SpritePlotter.DrawSpriteAlpha_eq_plotLoop]
  refine ⟨_, hw, ?_, ?_⟩
  · intro x y hx hy
    exact ⟨_, (mem_plotWrites _ _ _ _ _ _ _ _ _ _).mpr ⟨x, y, hx, hy, rfl, rfl, rfl, rfl⟩⟩
  · intro a b c hc
    obtain ⟨x, y, hx, hy, -, ha, hb, hcol⟩ := (mem_plotWrites _ _ _ _ _ _ _ _ _ _).mp hc
    subst ha hb
    have e1 : ((x : Int) + X - X).toNat = x := by omega
    have e2 : ((y : Int) + Y - Y).toNat = y := by omega
    have hA : (SrcBitmap.GetPixel x y).A ≤ 255 := (hsrc x y).1
    obtain ⟨-, sR, sG, sB⟩ := hsrc x y
    obtain ⟨-, vR, vG, vB⟩ := hvp ((x : Int) + X) ((y : Int) + Y)
    refine ⟨x, y, hx, hy, rfl, rfl, ?_, ?_, ?_, ?_, ?_, ?_, ?_, ?_, ?_, ?_, ?_⟩
    · rw [hp, plotted, if_pos ⟨by omega, by omega, by omega, by omega, rfl⟩, e1, e2]
      exact hcol
    · rw [hcol]
      exact ⟨le_refl _, ((blend_between _ _ _ hA).2).trans (max_le sR vR),
        ((blend_between _ _ _ hA).2).trans (max_le sG vG),
        ((blend_between _ _ _ hA).2).trans (max_le sB vB)⟩
    · rw [hcol]; rfl
    · rw [hcol]; rfl
    · rw [hcol]; rfl
    · rw [hcol]; exact (blend_between _ _ _ hA).1
    · rw [hcol]; exact (blend_between _ _ _ hA).2
    · rw [hcol]; exact (blend_between _ _ _ hA).1
    · rw [hcol]; exact (blend_between _ _ _ hA).2
    · rw [hcol]; exact (blend_between _ _ _ hA).1
    · rw [hcol]; exact (blend_between _ _ _ hA).2

/-- Witness of C15: a bitmap of one half-transparent pixel drawn at `(3, 4)` on
a black viewport. -/
theorem SpritePlotter.DrawSpriteAlpha_blend_witness :
    ∃ calls : List (Int × Int × Color),
      (SpritePlotter.DrawSpriteAlpha 3 4
        { Width := 1, Height := 1, GetPixel := fun _ _ => ⟨128, 200, 100, 0⟩ }
        { pixels := fun _ _ => ⟨255, 0, 0, 0⟩, written := [] }).written = [] ++ calls ∧
      ∃ c : Color, ((3 : Int), (4 : Int), c) ∈ calls := by
  obtain ⟨calls, h1, h2, -⟩ := SpritePlotter.DrawSpriteAlpha_blend 3 4
    { Width := 1, Height := 1, GetPixel := fun _ _ => ⟨128, 200, 100, 0⟩ }
    { pixels := fun _ _ => ⟨255, 0, 0, 0⟩, written := [] }
    (fun _ _ => by simp [Color.Valid]) (fun _ _ => by simp [Color.Valid])
  exact ⟨calls, h1, by simpa using h2 0 0 (by decide) (by decide)⟩

/-! ## The pixel plotter -/

/-- The calls of a loop whose every pass adds the calls `w i`. -/
theorem fold_written (body : Nat → Viewport → Viewport) (w : Nat → List (Int × Int × Color))
    (h : ∀ i vp, (body i vp).written = vp.written ++ w i) (n : Nat) (vp : Viewport) :
    (Nat.fold body n vp).written = vp.written ++ (List.range n).flatMap w := by
  induction n with
  | zero => simp [Nat.fold]
  | succ n ih =>
    have hfold : Nat.fold body (n + 1) vp = body n (Nat.fold body n vp) := rfl
    rw [hfold, h, ih, List.range_succ, List.flatMap_append]
    simp

/-- The pixels after a loop whose pass `i` sets the pixels of `P i` to one
colour and leaves the others. -/
theorem fold_pixels (body : Nat → Viewport → Viewport) (P : Nat → Int → Int → Prop) (c : Color)
    (h : ∀ i vp a b, (P i a b → (body i vp).pixels a b = c) ∧
      (¬ P i a b → (body i vp).pixels a b = vp.pixels a b))
    (n : Nat) (vp : Viewport) (a b : Int) :
    ((∃ i, i < n ∧ P i a b) → (Nat.fold body n vp).pixels a b = c) ∧
    ((¬ ∃ i, i < n ∧ P i a b) → (Nat.fold body n vp).pixels a b = vp.pixels a b) := by
  induction n with
  | zero =>
    refine ⟨?_, fun _ => rfl⟩
    rintro ⟨i, hi, -⟩
    omega
  | succ n ih =>
    have hfold : Nat.fold body (n + 1) vp = body n (Nat.fold body n vp) := rfl
    rw [hfold]
    by_cases hP : P n a b
    · refine ⟨fun _ => (h n _ a b).1 hP, fun hn => ?_⟩
      exact absurd ⟨n, Nat.lt_succ_self n, hP⟩ hn
    · rw [(h n _ a b).2 hP]
      constructor
      · rintro ⟨i, hi, hPi⟩
        apply ih.1
        refine ⟨i, ?_, hPi⟩
        rcases Nat.lt_succ_iff_lt_or_eq.mp hi with hlt | heq
        · exact hlt
        · subst heq
          exact absurd hPi hP
      · intro hn
        apply ih.2
        rintro ⟨i, hi, hPi⟩
        exact hn ⟨i, Nat.lt_succ_of_lt hi, hPi⟩

/-- The function `DrawRectangle` makes its two loops with the exact sums while
the rectangle lies in the range of `int`. -/
theorem PixelPlotter.DrawRectangle_eq_loops (X Y Width Height : Int) (PixelColour : Color)
    (vp : Viewport)
    (hX : -2147483648 ≤ X) (hXW : X + Width - 1 ≤ 2147483647)
    (hY : -2147483648 ≤ Y) (hYH : Y + Height - 1 ≤ 2147483647)
    (hW : 1 ≤ Width) (hH : 1 ≤ Height) :
    PixelPlotter.DrawRectangle X Y Width Height PixelColour vp =
      Nat.fold (fun i vp =>
        SetViewportPixel (SetViewportPixel vp X (Y + i) PixelColour)
          (X + Width - 1) (Y + i) PixelColour) Height.toNat
        (Nat.fold (fun i vp =>
          SetViewportPixel (SetViewportPixel vp (X + i) Y PixelColour)
            (X + i) (Y + Height - 1) PixelColour) Width.toNat vp) := by
  unfold PixelPlotter.DrawRectangle
  have e1 : Nat.fold (fun i vp =>
      SetViewportPixel (SetViewportPixel vp (wrapInt (X + i)) Y PixelColour)
        (wrapInt (X + i)) (wrapInt (wrapInt (Y + Height) - 1)) PixelColour) Width.toNat vp =
      Nat.fold (fun i vp =>
        SetViewportPixel (SetViewportPixel vp (X + i) Y PixelColour)
          (X + i) (Y + Height - 1) PixelColour) Width.toNat vp := by
    apply fold_congr
    intro i hi vp
    rw [wrapInt_of_range (X + i) (by omega) (by omega),
      wrapInt_sub_one (Y + Height) (by omega) (by omega)]
  simp only [e1]
  apply fold_congr
  intro i hi vp
  rw [wrapInt_of_range (Y + i) (by omega) (by omega),
    wrapInt_sub_one (X + Width) (by omega) (by omega)]

/-- C17, as amended: for `Width ≥ 1` and `Height ≥ 1` and a rectangle whose
corners `(X, Y)` and `(X + Width - 1, Y + Height - 1)` lie in the range of `int`,
the `SetViewportPixel` calls of `DrawRectangle` are made with `PixelColour` on
exactly the pixels of the outline of the rectangle with top-left `(X, Y)`; after
the call the outline pixels have `PixelColour` and every other pixel, inside or
outside, has its previous colour. -/
theorem PixelPlotter.DrawRectangle_outline (X Y Width Height : Int) (PixelColour : Color)
    (vp : Viewport) (hW : 1 ≤ Width) (hH : 1 ≤ Height)
    (hX : -2147483648 ≤ X) (hXW : X + Width - 1 ≤ 2147483647)
    (hY : -2147483648 ≤ Y) (hYH : Y + Height - 1 ≤ 2147483647) :
    ∃ calls : List (Int × Int × Color),
      (PixelPlotter.DrawRectangle X Y Width Height PixelColour vp).written =
        vp.written ++ calls ∧
      (∀ (a b : Int) (c : Color), (a, b, c) ∈ calls ↔
        c = PixelColour ∧ onOutline X Y Width Height a b) ∧
      (∀ a b : Int, onOutline X Y Width Height a b →
        (PixelPlotter.DrawRectangle X Y Width Height PixelColour vp).pixels a b =
          PixelColour) ∧
      (∀ a b : Int, ¬ onOutline X Y Width Height a b →
        (PixelPlotter.DrawRectangle X Y Width Height PixelColour vp).pixels a b =
          vp.pixels a b) := by
  rw [PixelPlotter.DrawRectangle_eq_loops X Y Width Height PixelColour vp hX hXW hY hYH hW hH]
  -- the two loops
  have hw1 := fold_written
    (fun i vp => SetViewportPixel (SetViewportPixel vp (X + i) Y PixelColour)
      (X + i) (Y + Height - 1) PixelColour)
    (fun i => [(X + i, Y, PixelColour), (X + i, Y + Height - 1, PixelColour)])
    (fun i vp => by simp [SetViewportPixel_written])
  have hw2 := fold_written
    (fun i vp => SetViewportPixel (SetViewportPixel vp X (Y + i) PixelColour)
      (X + Width - 1) (Y + i) PixelColour)
    (fun i => [(X, Y + i, PixelColour), (X + Width - 1, Y + i, PixelColour)])
    (fun i vp => by simp [SetViewportPixel_written])
  have hp1 := fold_pixels
    (fun i vp => SetViewportPixel (SetViewportPixel vp (X + i) Y PixelColour)
      (X + i) (Y + Height - 1) PixelColour)
    (fun i a b => a = X + i ∧ (b = Y ∨ b = Y + Height - 1)) PixelColour
    (fun i vp a b => by
      simp only [SetViewportPixel_pixels]
      constructor
      · rintro ⟨h1, h2 | h2⟩
        · by_cases h3 : a = X + i ∧ b = Y + Height - 1
          · rw [if_pos h3]
          · rw [if_neg h3, if_pos ⟨h1, h2⟩]
        · rw [if_pos ⟨h1, h2⟩]
      · intro hn
        rw [if_neg (fun h => hn ⟨h.1, Or.inr h.2⟩), if_neg (fun h => hn ⟨h.1, Or.inl h.2⟩)])
  have hp2 := fold_pixels
    (fun i vp => SetViewportPixel (SetViewportPixel vp X (Y + i) PixelColour)
      (X + Width - 1) (Y + i) PixelColour)
    (fun i a b => b = Y + i ∧ (a = X ∨ a = X + Width - 1)) PixelColour
    (fun i vp a b => by
      simp only [SetViewportPixel_pixels]
      constructor
      · rintro ⟨h1, h2 | h2⟩
        · by_cases h3 : a = X + Width - 1 ∧ b = Y + i
          · rw [if_pos h3]
          · rw [if_neg h3, if_pos ⟨h2, h1⟩]
        · rw [if_pos ⟨h2, h1⟩]
      · intro hn
        rw [if_neg (fun h => hn ⟨h.2, Or.inr h.1⟩), if_neg (fun h => hn ⟨h.2, Or.inl h.1⟩)])
  -- the pixels of the outline, by the loop that reaches them
  have hrow : ∀ a b : Int, (∃ i : Nat, i < Width.toNat ∧ (a = X + i ∧ (b = Y ∨ b = Y + Height - 1))) ↔
      (X ≤ a ∧ a ≤ X + Width - 1 ∧ (b = Y ∨ b = Y + Height - 1)) := by
    intro a b
    constructor
    · rintro ⟨i, hi, h1, h2⟩
      exact ⟨by omega, by omega, h2⟩
    · rintro ⟨h1, h2, h3⟩
      exact ⟨(a - X).toNat, by omega, by omega, h3⟩
  have hcolumn : ∀ a b : Int,
      (∃ i : Nat, i < Height.toNat ∧ (b = Y + i ∧ (a = X ∨ a = X + Width - 1))) ↔
      (Y ≤ b ∧ b ≤ Y + Height - 1 ∧ (a = X ∨ a = X + Width - 1)) := by
    intro a b
    constructor
    · rintro ⟨i, hi, h1, h2⟩
      exact ⟨by omega, by omega, h2⟩
    · rintro ⟨h1, h2, h3⟩
      exact ⟨(b - Y).toNat, by omega, by omega, h3⟩
  have hout : ∀ a b : Int, onOutline X Y Width Height a b ↔
      ((X ≤ a ∧ a ≤ X + Width - 1 ∧ (b = Y ∨ b = Y + Height - 1)) ∨
        (Y ≤ b ∧ b ≤ Y + Height - 1 ∧ (a = X ∨ a = X + Width - 1))) := by
    intro a b
    unfold onOutline
    constructor
    · rintro ⟨h1, h2, h3, h4, h5 | h5 | h5 | h5⟩
      · exact Or.inr ⟨h3, h4, Or.inl h5⟩
      · exact Or.inr ⟨h3, h4, Or.inr h5⟩
      · exact Or.inl ⟨h1, h2, Or.inl h5⟩
      · exact Or.inl ⟨h1, h2, Or.inr h5⟩
    · rintro (⟨h1, h2, h3 | h3⟩ | ⟨h1, h2, h3 | h3⟩)
      · exact ⟨h1, h2, by omega, by omega, Or.inr (Or.inr (Or.inl h3))⟩
      · exact ⟨h1, h2, by omega, by omega, Or.inr (Or.inr (Or.inr h3))⟩
      · exact ⟨by omega, by omega, h1, h2, Or.inl h3⟩
      · exact ⟨by omega, by omega, h1, h2, Or.inr (Or.inl h3)⟩
  refine ⟨((List.range Width.toNat).flatMap fun (i : Nat) =>
      [(X + i, Y, PixelColour), (X + i, Y + Height - 1, PixelColour)]) ++
    ((List.range Height.toNat).flatMap fun (i : Nat) =>
      [(X, Y + i, PixelColour), (X + Width - 1, Y + i, PixelColour)]), ?_, ?_, ?_, ?_⟩
  · show (Nat.fold _ Height.toNat (Nat.fold _ Width.toNat vp)).written = _
    rw [hw2, hw1, List.append_assoc]
  · intro a b c
    rw [hout, ← hrow, ← hcolumn]
    simp only [List.mem_append, List.mem_flatMap, List.mem_range, List.mem_cons,
      List.mem_singleton, Prod.mk.injEq, List.not_mem_nil, or_false]
    constructor
    · rintro (⟨i, hi, ⟨h1, h2, h3⟩ | ⟨h1, h2, h3⟩⟩ | ⟨i, hi, ⟨h1, h2, h3⟩ | ⟨h1, h2, h3⟩⟩)
      · exact ⟨h3, Or.inl ⟨i, hi, h1, Or.inl h2⟩⟩
      · exact ⟨h3, Or.inl ⟨i, hi, h1, Or.inr h2⟩⟩
      · exact ⟨h3, Or.inr ⟨i, hi, h2, Or.inl h1⟩⟩
      · exact ⟨h3, Or.inr ⟨i, hi, h2, Or.inr h1⟩⟩
    · rintro ⟨hc, ⟨i, hi, h1, h2 | h2⟩ | ⟨i, hi, h1, h2 | h2⟩⟩
      · exact Or.inl ⟨i, hi, Or.inl ⟨h1, h2, hc⟩⟩
      · exact Or.inl ⟨i, hi, Or.inr ⟨h1, h2, hc⟩⟩
      · exact Or.inr ⟨i, hi, Or.inl ⟨h2, h1, hc⟩⟩
      · exact Or.inr ⟨i, hi, Or.inr ⟨h2, h1, hc⟩⟩
  · intro a b h
    show (Nat.fold _ Height.toNat (Nat.fold _ Width.toNat vp)).pixels a b = _
    by_cases h2 : ∃ i : Nat, i < Height.toNat ∧ (b = Y + i ∧ (a = X ∨ a = X + Width - 1))
    · exact (hp2 _ _ a b).1 h2
    · rw [(hp2 _ _ a b).2 h2]
      apply (hp1 _ _ a b).1
      rw [hrow]
      rcases (hout a b).mp h with h3 | h3
      · exact h3
      · exact absurd ((hcolumn a b).mpr h3) h2
  · intro a b h
    show (Nat.fold _ Height.toNat (Nat.fold _ Width.toNat vp)).pixels a b = _
    have h1 : ¬ ∃ i : Nat, i < Width.toNat ∧ (a = X + i ∧ (b = Y ∨ b = Y + Height - 1)) :=
      fun h' => h ((hout a b).mpr (Or.inl ((hrow a b).mp h')))
    have h2 : ¬ ∃ i : Nat, i < Height.toNat ∧ (b = Y + i ∧ (a = X ∨ a = X + Width - 1)) :=
      fun h' => h ((hout a b).mpr (Or.inr ((hcolumn a b).mp h')))
    rw [(hp2 _ _ a b).2 h2, (hp1 _ _ a b).2 h1]

/-- Witness of C17: a rectangle of 4 by 3 pixels at `(10, 20)` on a black
viewport with no call made yet; its corner `(13, 22)` is set. -/
theorem PixelPlotter.DrawRectangle_outline_witness :
    (1 : Int) ≤ 4 ∧ (1 : Int) ≤ 3 ∧ (-2147483648 : Int) ≤ 10 ∧ (10 : Int) + 4 - 1 ≤ 2147483647 ∧
    (-2147483648 : Int) ≤ 20 ∧ (20 : Int) + 3 - 1 ≤ 2147483647 ∧
    (PixelPlotter.DrawRectangle 10 20 4 3 ⟨255, 255, 0, 0⟩
      { pixels := fun _ _ => ⟨255, 0, 0, 0⟩, written := [] }).pixels 13 22 =
      ⟨255, 255, 0, 0⟩ := by
  refine ⟨by decide, by decide, by decide, by decide, by decide, by decide, ?_⟩
  obtain ⟨-, -, -, h, -⟩ := PixelPlotter.DrawRectangle_outline 10 20 4 3 ⟨255, 255, 0, 0⟩
    { pixels := fun _ _ => ⟨255, 0, 0, 0⟩, written := [] } (by decide) (by decide)
    (by decide) (by decide) (by decide) (by decide)
  exact h 13 22 (by unfold onOutline; omega)

/-- Counterexample for C17: the rectangle of 2 by 1 pixels at `(2147483647, 0)`.
The sum `X + 1` wraps round and `DrawRectangle` writes the pixel
`(-2147483648, 0)`, which is not on the outline (it lies left of `X`). -/
theorem PixelPlotter.DrawRectangle_wraps :
    (-2147483648, 0, (⟨255, 255, 0, 0⟩ : Color)) ∈
      (PixelPlotter.DrawRectangle 2147483647 0 2 1 ⟨255, 255, 0, 0⟩
        { pixels := fun _ _ => ⟨255, 0, 0, 0⟩, written := [] }).written ∧
    ¬ onOutline 2147483647 0 2 1 (-2147483648) 0 := by
  constructor
  · decide
  · unfold onOutline
    omega

/-- C18 fails on the code: for the vertical line from `(0, 0)` to `(0, 10)`
`MaxDist` is `0 - 10`, the loop makes no pass and `DrawLine` makes no
`SetViewportPixel` call at all, so neither endpoint is written. -/
theorem PixelPlotter.DrawLine_vertical_nothing (PixelColour : Color) (vp : Viewport) :
    PixelPlotter.DrawLine ℚ 0 0 0 10 PixelColour vp = vp := by
  simp [PixelPlotter.DrawLine, PixelPlotter.DrawLine.loop]

/-! ## Texture loading and vertex layouts -/

/-- The byte `c` is `.` when `std::tolower` makes it equal to `.`. -/
theorem tolower_eq_dot (c : Nat) :
    (PixelLighting.tolower 46 == PixelLighting.tolower c) = true ↔ c = 46 := by
  simp only [PixelLighting.tolower, beq_iff_eq]
  split_ifs <;> omega

/-- The byte `c` is `d` or `D` when `std::tolower` makes it equal to `d`. -/
theorem tolower_eq_d (c : Nat) :
    (PixelLighting.tolower 100 == PixelLighting.tolower c) = true ↔ (c = 100 ∨ c = 68) := by
  simp only [PixelLighting.tolower, beq_iff_eq]
  split_ifs <;> omega

/-- The byte `c` is `s` or `S` when `std::tolower` makes it equal to `s`. -/
theorem tolower_eq_s (c : Nat) :
    (PixelLighting.tolower 115 == PixelLighting.tolower c) = true ↔ (c = 115 ∨ c = 83) := by
  simp only [PixelLighting.tolower, beq_iff_eq]
  split_ifs <;> omega

/-- The test of `LoadTexture` holds exactly for the names that end in `.dds`
whatever the case. -/
theorem LoadTexture_test_iff (filename : List Nat) :
    (filename.length ≥ 4 ∧
      PixelLighting.equal PixelLighting.dds.reverse filename.reverse
        (fun a b => PixelLighting.tolower a == PixelLighting.tolower b) = true) ↔
    EndsWithDds filename := by
  unfold EndsWithDds
  constructor
  · rintro ⟨hlen, heq⟩
    refine ⟨hlen, ?_⟩
    have hrev : filename = filename.reverse.reverse := (List.reverse_reverse _).symm
    match hr : filename.reverse, heq with
    | c₄ :: c₃ :: c₂ :: c₁ :: rest, heq =>
      refine ⟨rest.reverse, c₁, c₂, c₃, c₄, ?_, ?_⟩
      · rw [hrev, hr]
        simp
      · simp only [PixelLighting.dds, List.reverse_cons, List.reverse_nil, List.nil_append,
          List.cons_append, PixelLighting.equal, Bool.and_eq_true, Bool.and_true] at heq
        obtain ⟨h4, h3, h2, h1⟩ := heq
        exact ⟨(tolower_eq_dot c₁).mp h1, (tolower_eq_d c₂).mp h2, (tolower_eq_d c₃).mp h3,
          (tolower_eq_s c₄).mp h4⟩
    | [], _ =>
      have := congrArg List.length hr
      simp only [List.length_reverse, List.length_cons, List.length_nil] at this
      omega
    | [_], _ =>
      have := congrArg List.length hr
      simp only [List.length_reverse, List.length_cons, List.length_nil] at this
      omega
    | [_, _], _ =>
      have := congrArg List.length hr
      simp only [List.length_reverse, List.length_cons, List.length_nil] at this
      omega
    | [_, _, _], _ =>
      have := congrArg List.length hr
      simp only [List.length_reverse, List.length_cons, List.length_nil] at this
      omega
  · rintro ⟨hlen, stem, c₁, c₂, c₃, c₄, rfl, h1, h2, h3, h4⟩
    refine ⟨hlen, ?_⟩
    simp only [PixelLighting.dds, List.reverse_append, List.reverse_cons, List.reverse_nil,
      List.nil_append, List.cons_append, PixelLighting.equal, Bool.and_eq_true, Bool.and_true]
    exact ⟨(tolower_eq_s c₄).mpr h4, (tolower_eq_d c₃).mpr h3, (tolower_eq_d c₂).mpr h2,
      (tolower_eq_dot c₁).mpr h1⟩

/-- C19: `LoadTexture` calls the DDS loader if and only if the name has at least
four bytes and its last four are `.dds` in either case; it calls the WIC loader
for every other name, among them those shorter than four bytes; and it returns
the success of the loader it called. -/
theorem PixelLighting.LoadTexture_loader
    (CreateDDSTextureFromFile CreateWICTextureFromFile : List Nat → Bool)
    (filename : List Nat) :
    ((PixelLighting.LoadTexture CreateDDSTextureFromFile CreateWICTextureFromFile
        filename).loader = .CreateDDSTextureFromFile ↔ EndsWithDds filename) ∧
    ((PixelLighting.LoadTexture CreateDDSTextureFromFile CreateWICTextureFromFile
        filename).loader = .CreateWICTextureFromFile ↔ ¬ EndsWithDds filename) ∧
    (filename.length < 4 →
      (PixelLighting.LoadTexture CreateDDSTextureFromFile CreateWICTextureFromFile
        filename).loader = .CreateWICTextureFromFile) ∧
    (PixelLighting.LoadTexture CreateDDSTextureFromFile CreateWICTextureFromFile
        filename).result =
      (match (PixelLighting.LoadTexture CreateDDSTextureFromFile CreateWICTextureFromFile
          filename).loader with
        | .CreateDDSTextureFromFile => CreateDDSTextureFromFile filename
        | .CreateWICTextureFromFile => CreateWICTextureFromFile filename) := by
  have hshort : filename.length < 4 → ¬ EndsWithDds filename := by
    rintro h ⟨h', -⟩
    omega
  by_cases h : EndsWithDds filename
  · have ht := (LoadTexture_test_iff filename).mpr h
    simp only [PixelLighting.LoadTexture, if_pos ht, h, true_iff, not_true_eq_false,
      iff_false, reduceCtorEq, not_false_eq_true, and_true, true_and]
    exact fun h' => absurd h (hshort h')
  · have ht : ¬ (filename.length ≥ 4 ∧
        PixelLighting.equal PixelLighting.dds.reverse filename.reverse
          (fun a b => PixelLighting.tolower a == PixelLighting.tolower b) = true) :=
      fun h' => h ((LoadTexture_test_iff filename).mp h')
    simp only [PixelLighting.LoadTexture, if_neg ht, h, reduceCtorEq, iff_false,
      not_false_eq_true, true_iff, implies_true, and_self]

/-- The function `CreateVertexLayout` returns the layout when the signature is
created and `CreateInputLayout` succeeds, and `nullptr` when the signature is
created and `CreateInputLayout` fails. -/
theorem PixelLighting.CreateVertexLayout_signature
    (D3DCompile : String → Option DirectXTutorial2.ID3DBlob)
    (CreateInputLayout : List DirectXTutorial2.D3D11_INPUT_ELEMENT_DESC →
      DirectXTutorial2.ID3DBlob → Option PixelLighting.ID3D11InputLayout)
    (vertexDescData : List DirectXTutorial2.D3D11_INPUT_ELEMENT_DESC)
    (signature : DirectXTutorial2.ID3DBlob)
    (h : DirectXTutorial2.CreateSignatureForVertexLayout D3DCompile vertexDescData =
      some signature) :
    PixelLighting.CreateVertexLayout D3DCompile CreateInputLayout vertexDescData =
      .ok (CreateInputLayout vertexDescData signature) := by
  simp only [PixelLighting.CreateVertexLayout, h]
  cases CreateInputLayout vertexDescData signature <;> rfl

/-- The function `CreateVertexLayout` calls a member of a null signature whenever
`CreateSignatureForVertexLayout` returns `nullptr`. -/
theorem PixelLighting.CreateVertexLayout_null
    (D3DCompile : String → Option DirectXTutorial2.ID3DBlob)
    (CreateInputLayout : List DirectXTutorial2.D3D11_INPUT_ELEMENT_DESC →
      DirectXTutorial2.ID3DBlob → Option PixelLighting.ID3D11InputLayout)
    (vertexDescData : List DirectXTutorial2.D3D11_INPUT_ELEMENT_DESC)
    (h : DirectXTutorial2.CreateSignatureForVertexLayout D3DCompile vertexDescData = none) :
    PixelLighting.CreateVertexLayout D3DCompile CreateInputLayout vertexDescData =
      .error .nullDereference := by
  simp only [PixelLighting.CreateVertexLayout, h]

/-- C20 fails on the code: for a description of one element of the unsupported
format 28 (`DXGI_FORMAT_R8G8B8A8_UNORM`), `CreateSignatureForVertexLayout`
returns `nullptr`, and `CreateVertexLayout` calls `GetBufferPointer` on the null
signature instead of returning `nullptr`. -/
theorem PixelLighting.CreateVertexLayout_unsupported_format :
    DirectXTutorial2.CreateSignatureForVertexLayout (fun _ => some ⟨[]⟩)
      [{ SemanticName := "COLOR", SemanticIndex := 0, Format := .other 28 }] = none ∧
    PixelLighting.CreateVertexLayout (fun _ => some ⟨[]⟩) (fun desc _ => some ⟨desc⟩)
      [{ SemanticName := "COLOR", SemanticIndex := 0, Format := .other 28 }] =
      .error .nullDereference := by
  constructor
  · rfl
  · rfl

/-! ## The Assignment lab: hue cycle, pulsing strength and light colours -/

section AssignmentLemmas

variable {F : Type} [LinearOrderedField F]

theorem Assignment.UpdateScene_hue_r (m : CMath F) (K : KeyCode → Bool) (t : F)
    (s : Assignment.Scene F) :
    (Assignment.UpdateScene m K t s).r = s.r + (s.dr : F) := rfl

theorem Assignment.UpdateScene_hue_g (m : CMath F) (K : KeyCode → Bool) (t : F)
    (s : Assignment.Scene F) :
    (Assignment.UpdateScene m K t s).g = s.g + (s.dg : F) := rfl

theorem Assignment.UpdateScene_hue_b (m : CMath F) (K : KeyCode → Bool) (t : F)
    (s : Assignment.Scene F) :
    (Assignment.UpdateScene m K t s).b = s.b + (s.db : F) := rfl

theorem Assignment.UpdateScene_light2_colour (m : CMath F) (K : KeyCode → Bool) (t : F)
    (s : Assignment.Scene F) :
    ((Assignment.UpdateScene m K t s).gLights 2).colour =
      { x := (s.r + (s.dr : F)) / 255, y := (s.g + (s.dg : F)) / 255,
        z := (s.b + (s.db : F)) / 255 } := by
  simp [Assignment.UpdateScene, Function.update]

theorem Assignment.UpdateScene_light1_strength (m : CMath F) (K : KeyCode → Bool) (t : F)
    (s : Assignment.Scene F) :
    ((Assignment.UpdateScene m K t s).gLights 1).strength =
      if s.strengthIsZero = false then (s.gLights 1).strength - 1 / 10
      else (s.gLights 1).strength + 1 / 10 := by
  simp [Assignment.UpdateScene, Function.update]

theorem Assignment.UpdateScene_light1_scale (m : CMath F) (K : KeyCode → Bool) (t : F)
    (s : Assignment.Scene F) :
    ((Assignment.UpdateScene m K t s).gLights 1).model.scale =
      m.powf ((Assignment.UpdateScene m K t s).gLights 1).strength (7 / 10) := by
  simp [Assignment.UpdateScene, Function.update]

theorem Assignment.UpdateScene_strengthIsZero (m : CMath F) (K : KeyCode → Bool) (t : F)
    (s : Assignment.Scene F) :
    (Assignment.UpdateScene m K t s).strengthIsZero =
      if ((Assignment.UpdateScene m K t s).gLights 1).strength > 40 then false
      else if ((Assignment.UpdateScene m K t s).gLights 1).strength < 0 then true
      else s.strengthIsZero := by
  simp [Assignment.UpdateScene, Function.update]

end AssignmentLemmas

section HueCycle

variable {F : Type} [LinearOrderedField F]

theorem Assignment.cast_eq_255 (x : ℤ) : ((x : F) = 255) ↔ x = 255 := by
  constructor
  · intro h
    have : (x : F) = ((255 : ℤ) : F) := by simpa using h
    exact Int.cast_injective this
  · intro h
    simp [h]

theorem Assignment.cast_eq_0 (x : ℤ) : ((x : F) = 0) ↔ x = 0 := by
  simp

/-- The chain of six tests on whole-number components keeps the hue cycle. -/
theorem Assignment.hue_chain (r g b dr dg db : ℤ)
    (h : HueCycleState r g b dr dg db) :
    HueCycleState (r + dr) (g + dg) (b + db)
      (if r + dr = 255 ∧ g + dg = 0 ∧ b + db = 255 then (0, 0, -1)
        else if r + dr = 0 ∧ g + dg = 0 ∧ b + db = 255 then (1, 0, 0)
        else if r + dr = 0 ∧ g + dg = 255 ∧ b + db = 255 then (0, -1, 0)
        else if r + dr = 0 ∧ g + dg = 255 ∧ b + db = 0 then (0, 0, 1)
        else if r + dr = 255 ∧ g + dg = 255 ∧ b + db = 0 then (-1, 0, 0)
        else if r + dr = 255 ∧ g + dg = 0 ∧ b + db = 0 then (0, 1, 0)
        else (dr, dg, db) : ℤ × ℤ × ℤ).1
      (if r + dr = 255 ∧ g + dg = 0 ∧ b + db = 255 then (0, 0, -1)
        else if r + dr = 0 ∧ g + dg = 0 ∧ b + db = 255 then (1, 0, 0)
        else if r + dr = 0 ∧ g + dg = 255 ∧ b + db = 255 then (0, -1, 0)
        else if r + dr = 0 ∧ g + dg = 255 ∧ b + db = 0 then (0, 0, 1)
        else if r + dr = 255 ∧ g + dg = 255 ∧ b + db = 0 then (-1, 0, 0)
        else if r + dr = 255 ∧ g + dg = 0 ∧ b + db = 0 then (0, 1, 0)
        else (dr, dg, db) : ℤ × ℤ × ℤ).2.1
      (if r + dr = 255 ∧ g + dg = 0 ∧ b + db = 255 then (0, 0, -1)
        else if r + dr = 0 ∧ g + dg = 0 ∧ b + db = 255 then (1, 0, 0)
        else if r + dr = 0 ∧ g + dg = 255 ∧ b + db = 255 then (0, -1, 0)
        else if r + dr = 0 ∧ g + dg = 255 ∧ b + db = 0 then (0, 0, 1)
        else if r + dr = 255 ∧ g + dg = 255 ∧ b + db = 0 then (-1, 0, 0)
        else if r + dr = 255 ∧ g + dg = 0 ∧ b + db = 0 then (0, 1, 0)
        else (dr, dg, db) : ℤ × ℤ × ℤ).2.2 := by
  unfold HueCycleState at h ⊢
  rcases h with ⟨h1, h2, h3, h4, h5, h6⟩ | ⟨h1, h2, h3, h4, h5, h6, h7⟩ |
    ⟨h1, h2, h3, h4, h5, h6, h7⟩ | ⟨h1, h2, h3, h4, h5, h6, h7⟩ |
    ⟨h1, h2, h3, h4, h5, h6, h7⟩ | ⟨h1, h2, h3, h4, h5, h6, h7⟩ |
    ⟨h1, h2, h3, h4, h5, h6, h7⟩
  · subst h1 h2 h3 h4 h5 h6
    simp
  · subst h1 h4 h5 h6 h7
    by_cases hk : g + 1 = 255
    · simp [hk]
    · simp [hk]
      omega
  · subst h3 h4 h5 h6 h7
    by_cases hk : r + -1 = 0
    · simp [hk]
    · simp [hk]
      omega
  · subst h1 h2 h5 h6 h7
    by_cases hk : b + 1 = 255
    · simp [hk]
    · simp [hk]
      omega
  · subst h1 h4 h5 h6 h7
    by_cases hk : g + -1 = 0
    · simp [hk]
    · simp [hk]
      omega
  · subst h3 h4 h5 h6 h7
    by_cases hk : r + 1 = 255
    · simp [hk]
    · simp [hk]
      omega
  · subst h1 h2 h5 h6 h7
    by_cases hk : b + -1 = 0
    · simp [hk]
    · simp [hk]
      omega

/-- One call of `UpdateScene` keeps the hue cycle, for whole-number colour
components. -/
theorem Assignment.UpdateScene_hue_step (m : CMath F) (K : KeyCode → Bool) (t : F)
    (s : Assignment.Scene F) (ri gi bi : ℤ) (hr : s.r = ri) (hg : s.g = gi) (hb : s.b = bi)
    (h : HueCycleState ri gi bi s.dr s.dg s.db) :
    HueCycleState (ri + s.dr) (gi + s.dg) (bi + s.db)
      (Assignment.UpdateScene m K t s).dr (Assignment.UpdateScene m K t s).dg
      (Assignment.UpdateScene m K t s).db := by
  have e1 : s.r + (s.dr : F) = ((ri + s.dr : ℤ) : F) := by rw [hr]; push_cast; rfl
  have e2 : s.g + (s.dg : F) = ((gi + s.dg : ℤ) : F) := by rw [hg]; push_cast; rfl
  have e3 : s.b + (s.db : F) = ((bi + s.db : ℤ) : F) := by rw [hb]; push_cast; rfl
  have key := Assignment.hue_chain ri gi bi s.dr s.dg s.db h
  simp only [Assignment.UpdateScene, e1, e2, e3, Assignment.cast_eq_255, Assignment.cast_eq_0]
  exact key

end HueCycle

section AssignmentRuns

theorem Assignment.UpdateSceneFrames_concat {F : Type} [LinearOrderedField F] (m : CMath F)
    (frames : List ((KeyCode → Bool) × F)) (frame : (KeyCode → Bool) × F)
    (s : Assignment.Scene F) :
    Assignment.UpdateSceneFrames m (frames ++ [frame]) s =
      Assignment.UpdateScene m frame.1 frame.2 (Assignment.UpdateSceneFrames m frames s) := by
  simp [Assignment.UpdateSceneFrames, List.foldl_append]

theorem HueCycleState.onEdge {r g b dr dg db : ℤ} (h : HueCycleState r g b dr dg db) :
    0 ≤ r ∧ r ≤ 255 ∧ 0 ≤ g ∧ g ≤ 255 ∧ 0 ≤ b ∧ b ≤ 255 ∧
      max r (max g b) = 255 ∧ min r (min g b) = 0 ∧ OnHueEdge r g b := by
  unfold HueCycleState at h
  unfold OnHueEdge
  rcases h with ⟨h1, h2, h3, -⟩ | ⟨h1, h2, h3, h4, -⟩ | ⟨h1, h2, h3, h4, -⟩ |
    ⟨h1, h2, h3, h4, -⟩ | ⟨h1, h2, h3, h4, -⟩ | ⟨h1, h2, h3, h4, -⟩ | ⟨h1, h2, h3, h4, -⟩ <;>
  omega

/-- The invariant of the hue cycle along a run of frames from the initial
scene. -/
theorem Assignment.UpdateSceneFrames_hue_invariant (m : CMath ℝ)
    (frames : List ((KeyCode → Bool) × ℝ)) :
    ∃ r g b : ℤ,
      (Assignment.UpdateSceneFrames m frames (Assignment.initialScene m)).r = r ∧
      (Assignment.UpdateSceneFrames m frames (Assignment.initialScene m)).g = g ∧
      (Assignment.UpdateSceneFrames m frames (Assignment.initialScene m)).b = b ∧
      HueCycleState r g b
        (Assignment.UpdateSceneFrames m frames (Assignment.initialScene m)).dr
        (Assignment.UpdateSceneFrames m frames (Assignment.initialScene m)).dg
        (Assignment.UpdateSceneFrames m frames (Assignment.initialScene m)).db ∧
      (frames = [] ∨
        ((Assignment.UpdateSceneFrames m frames (Assignment.initialScene m)).gLights 2).colour =
          ({ x := r / 255, y := g / 255, z := b / 255 } : CVector3 ℝ)) := by
  induction frames using List.reverseRecOn with
  | nil =>
    refine ⟨255, 0, 0, ?_, ?_, ?_, ?_, ?_⟩
    · simp [Assignment.UpdateSceneFrames, Assignment.initialScene]
    · simp [Assignment.UpdateSceneFrames, Assignment.initialScene]
    · simp [Assignment.UpdateSceneFrames, Assignment.initialScene]
    · left
      simp [Assignment.UpdateSceneFrames, Assignment.initialScene]
    · exact Or.inl rfl
  | append_singleton frames frame ih =>
    obtain ⟨r, g, b, hr, hg, hb, h, -⟩ := ih
    rw [Assignment.UpdateSceneFrames_concat]
    refine ⟨r + (Assignment.UpdateSceneFrames m frames (Assignment.initialScene m)).dr,
      g + (Assignment.UpdateSceneFrames m frames (Assignment.initialScene m)).dg,
      b + (Assignment.UpdateSceneFrames m frames (Assignment.initialScene m)).db,
      ?_, ?_, ?_, ?_, ?_⟩
    · rw [Assignment.UpdateScene_hue_r, hr]; push_cast; rfl
    · rw [Assignment.UpdateScene_hue_g, hg]; push_cast; rfl
    · rw [Assignment.UpdateScene_hue_b, hb]; push_cast; rfl
    · exact Assignment.UpdateScene_hue_step m _ _ _ r g b hr hg hb h
    · right
      rw [Assignment.UpdateScene_light2_colour, hr, hg, hb]
      push_cast
      rfl

/-- C22: in the Assignment lab, after any run of `UpdateScene` calls from the
initial scene (red, all increments 0) the components `r`, `g`, `b` are whole
numbers in [0, 255] with maximum 255 and minimum 0, they lie on one of the six
edges red-yellow-green-cyan-blue-magenta, and every component of the colour of
`gLights[2]` is in [0, 1]. -/
theorem Assignment.UpdateSceneFrames_hue_cycle (m : CMath ℝ)
    (frames : List ((KeyCode → Bool) × ℝ)) :
    ∃ r g b : ℤ,
      (Assignment.UpdateSceneFrames m frames (Assignment.initialScene m)).r = r ∧
      (Assignment.UpdateSceneFrames m frames (Assignment.initialScene m)).g = g ∧
      (Assignment.UpdateSceneFrames m frames (Assignment.initialScene m)).b = b ∧
      (0 ≤ r ∧ r ≤ 255 ∧ 0 ≤ g ∧ g ≤ 255 ∧ 0 ≤ b ∧ b ≤ 255) ∧
      max r (max g b) = 255 ∧ min r (min g b) = 0 ∧ OnHueEdge r g b ∧
      (frames = [] ∨
        ((Assignment.UpdateSceneFrames m frames (Assignment.initialScene m)).gLights 2).colour =
          ({ x := r / 255, y := g / 255, z := b / 255 } : CVector3 ℝ)) ∧
      (0 ≤ ((Assignment.UpdateSceneFrames m frames
          (Assignment.initialScene m)).gLights 2).colour.x ∧
        ((Assignment.UpdateSceneFrames m frames
          (Assignment.initialScene m)).gLights 2).colour.x ≤ 1) ∧
      (0 ≤ ((Assignment.UpdateSceneFrames m frames
          (Assignment.initialScene m)).gLights 2).colour.y ∧
        ((Assignment.UpdateSceneFrames m frames
          (Assignment.initialScene m)).gLights 2).colour.y ≤ 1) ∧
      (0 ≤ ((Assignment.UpdateSceneFrames m frames
          (Assignment.initialScene m)).gLights 2).colour.z ∧
        ((Assignment.UpdateSceneFrames m frames
          (Assignment.initialScene m)).gLights 2).colour.z ≤ 1) := by
  obtain ⟨r, g, b, hr, hg, hb, h, hc⟩ := Assignment.UpdateSceneFrames_hue_invariant m frames
  obtain ⟨h1, h2, h3, h4, h5, h6, hmax, hmin, hedge⟩ := h.onEdge
  have c1 : (0 : ℝ) ≤ r := by exact_mod_cast h1
  have c2 : (r : ℝ) ≤ 255 := by exact_mod_cast h2
  have c3 : (0 : ℝ) ≤ g := by exact_mod_cast h3
  have c4 : (g : ℝ) ≤ 255 := by exact_mod_cast h4
  have c5 : (0 : ℝ) ≤ b := by exact_mod_cast h5
  have c6 : (b : ℝ) ≤ 255 := by exact_mod_cast h6
  refine ⟨r, g, b, hr, hg, hb, ⟨h1, h2, h3, h4, h5, h6⟩, hmax, hmin, hedge, hc, ?_⟩
  rcases hc with hc | hc
  · subst hc
    simp [Assignment.UpdateSceneFrames, Assignment.initialScene]
  · rw [hc]
    dsimp only
    refine ⟨⟨by positivity, ?_⟩, ⟨by positivity, ?_⟩, ⟨by positivity, ?_⟩⟩ <;>
        rw [div_le_one (by norm_num)] <;> assumption

end AssignmentRuns

section AssignmentStrength

/-- While the strength of `gLights[1]` has not gone below zero it falls by a
tenth with every call: after `n` calls, `n` at most 400, it is `40 - n / 10` and
`strengthIsZero` is still false. -/
theorem Assignment.UpdateSceneFrames_strength_falling (m : CMath ℝ)
    (frames : List ((KeyCode → Bool) × ℝ)) (h : frames.length ≤ 400) :
    ((Assignment.UpdateSceneFrames m frames (Assignment.initialScene m)).gLights 1).strength =
        40 - (frames.length : ℝ) / 10 ∧
      (Assignment.UpdateSceneFrames m frames (Assignment.initialScene m)).strengthIsZero =
        false := by
  induction frames using List.reverseRecOn with
  | nil => simp [Assignment.UpdateSceneFrames, Assignment.initialScene]
  | append_singleton frames frame ih =>
    rw [List.length_append, List.length_singleton] at h
    obtain ⟨h1, h2⟩ := ih (by omega)
    have hn : ((frames.length : ℝ) + 1) ≤ 400 := by exact_mod_cast h
    have hs : ((Assignment.UpdateScene m frame.1 frame.2
        (Assignment.UpdateSceneFrames m frames (Assignment.initialScene m))).gLights 1).strength =
        40 - ((frames.length : ℝ) + 1) / 10 := by
      rw [Assignment.UpdateScene_light1_strength, h1, h2]
      simp only [if_true]
      ring
    rw [Assignment.UpdateSceneFrames_concat, List.length_append, List.length_singleton]
    refine ⟨by rw [hs]; push_cast; rfl, ?_⟩
    rw [Assignment.UpdateScene_strengthIsZero, hs, h2]
    have p0 : (0 : ℝ) ≤ (frames.length : ℝ) := Nat.cast_nonneg _
    rw [if_neg (by linarith), if_neg (by linarith)]

/-- C23: in the Assignment lab the 401st `UpdateScene` call from the initial
scene lowers the strength of `gLights[1]` from 0 to -1/10 and passes that
negative value to `pow(strength, 0.7f)` for the scale of the light's model; the
flag `strengthIsZero` is set only after that. -/
theorem Assignment.UpdateSceneFrames_strength_negative (m : CMath ℝ)
    (frames : List ((KeyCode → Bool) × ℝ)) (h : frames.length = 401) :
    ((Assignment.UpdateSceneFrames m frames (Assignment.initialScene m)).gLights 1).strength =
        -1 / 10 ∧
      ((Assignment.UpdateSceneFrames m frames (Assignment.initialScene m)).gLights 1).model.scale =
        m.powf (-1 / 10) (7 / 10) ∧
      (Assignment.UpdateSceneFrames m frames (Assignment.initialScene m)).strengthIsZero =
        true := by
  rcases List.eq_nil_or_concat frames with hnil | ⟨init, last, hcat⟩
  · subst hnil
    simp at h
  · subst hcat
    rw [List.concat_eq_append] at h ⊢
    rw [List.length_append, List.length_singleton] at h
    have hlen : init.length = 400 := by omega
    obtain ⟨h1, h2⟩ := Assignment.UpdateSceneFrames_strength_falling m init (by omega)
    have hs : ((Assignment.UpdateScene m last.1 last.2
        (Assignment.UpdateSceneFrames m init (Assignment.initialScene m))).gLights 1).strength =
        -1 / 10 := by
      rw [Assignment.UpdateScene_light1_strength, h1, h2, hlen]
      simp only [if_true]
      norm_num
    rw [Assignment.UpdateSceneFrames_concat]
    refine ⟨hs, ?_, ?_⟩
    · rw [Assignment.UpdateScene_light1_scale, hs]
    · rw [Assignment.UpdateScene_strengthIsZero, hs]
      norm_num

/-- Witness for C23: 401 frames of a sixtieth of a second with no key hit. -/
theorem Assignment.UpdateSceneFrames_strength_negative_witness :
    (List.replicate 401 ((fun _ => false, 1 / 60) : (KeyCode → Bool) × ℝ)).length = 401 ∧
    ((Assignment.UpdateSceneFrames
        (⟨Real.sin, Real.cos, Real.tan, fun a b => a ^ b⟩ : CMath ℝ)
        (List.replicate 401 ((fun _ => false, 1 / 60) : (KeyCode → Bool) × ℝ))
        (Assignment.initialScene ⟨Real.sin, Real.cos, Real.tan, fun a b => a ^ b⟩)).gLights
          1).strength = -1 / 10 :=
  ⟨List.length_replicate _ _,
    (Assignment.UpdateSceneFrames_strength_negative _ _ (List.length_replicate _ _)).1⟩

end AssignmentStrength

section AssignmentRender

theorem CVector3.mul_scalar {F : Type} [Mul F] (v : CVector3 F) (s : F) :
    v * s = { x := v.x * s, y := v.y * s, z := v.z * s } := rfl

/-- C24: in `RenderScene` of the Assignment lab the colour sent for light 5 is
the colour of `gLights[4]` multiplied by the strength of `gLights[3]`, not by
its own: in the scene as `InitScene` leaves it, (8, 8, 15) is sent where the
light's own strength 1 gives (0.8, 0.8, 1.5).  Lights 1 to 4 are sent with
their own strength. -/
theorem Assignment.RenderScene_light5Colour (m : CMath ℝ) :
    (∀ s : Assignment.Scene ℝ,
      (Assignment.RenderScene s).light1Colour = (s.gLights 0).colour * (s.gLights 0).strength ∧
      (Assignment.RenderScene s).light2Colour = (s.gLights 1).colour * (s.gLights 1).strength ∧
      (Assignment.RenderScene s).light3Colour = (s.gLights 2).colour * (s.gLights 2).strength ∧
      (Assignment.RenderScene s).light4Colour = (s.gLights 3).colour * (s.gLights 3).strength ∧
      (Assignment.RenderScene s).light5Colour =
        (s.gLights 4).colour * (s.gLights 3).strength) ∧
    (Assignment.RenderScene (Assignment.initialScene m)).light5Colour =
      ({ x := 8, y := 8, z := 15 } : CVector3 ℝ) ∧
    ((Assignment.initialScene m).gLights 4).colour * ((Assignment.initialScene m).gLights 4).strength =
      ({ x := 8 / 10, y := 8 / 10, z := 15 / 10 } : CVector3 ℝ) ∧
    (Assignment.RenderScene (Assignment.initialScene m)).light5Colour ≠
      ((Assignment.initialScene m).gLights 4).colour *
        ((Assignment.initialScene m).gLights 4).strength := by
  have l3 : ((Assignment.initialScene m).gLights 3).strength = 10 := rfl
  have l4 : ((Assignment.initialScene m).gLights 4).strength = 1 := rfl
  have c4 : ((Assignment.initialScene m).gLights 4).colour =
      ({ x := 8 / 10, y := 8 / 10, z := 15 / 10 } : CVector3 ℝ) := rfl
  have e1 : (Assignment.RenderScene (Assignment.initialScene m)).light5Colour =
      ({ x := 8, y := 8, z := 15 } : CVector3 ℝ) := by
    simp only [Assignment.RenderScene, l3, c4, CVector3.mul_scalar]
    norm_num
  have e2 : ((Assignment.initialScene m).gLights 4).colour *
      ((Assignment.initialScene m).gLights 4).strength =
      ({ x := 8 / 10, y := 8 / 10, z := 15 / 10 } : CVector3 ℝ) := by
    simp only [l4, c4, CVector3.mul_scalar]
    norm_num
  refine ⟨fun s => ⟨rfl, rfl, rfl, rfl, rfl⟩, e1, e2, ?_⟩
  rw [e1, e2]
  intro h
  have := congrArg CVector3.x h
  norm_num at this

end AssignmentRender

/-! ## Initialisation functions and the last-error string -/

section InitFunctions

theorem ReportsFailure.success : ReportsFailure (fun gLastError => (true, gLastError)) := by
  intro s h
  simp at h

theorem ReportsFailure.guard (c : Prop) [Decidable c] (message : String)
    (f : String → Bool × String) (hf : ReportsFailure f) :
    ReportsFailure (fun gLastError => if c then (false, message) else f gLastError) := by
  intro s h t
  by_cases hc : c
  · simp only [if_pos hc]
  · simp only [if_neg hc] at h ⊢
    exact hf s h t

theorem reportsFailure_DirectXTutorial3_LoadShaders (v p : Pointer) :
    ReportsFailure (DirectXTutorial3.LoadShaders v p) := by
  unfold DirectXTutorial3.LoadShaders
  repeat (first | exact ReportsFailure.success | apply ReportsFailure.guard)

theorem reportsFailure_DirectXTutorial3_InitDirect3D (a b c : HRESULT) (v p : Pointer) :
    ReportsFailure (DirectXTutorial3.InitDirect3D a b c v p) := by
  unfold DirectXTutorial3.InitDirect3D
  refine ReportsFailure.guard _ _ _ (ReportsFailure.guard _ _ _ (ReportsFailure.guard _ _ _ ?_))
  intro s h t
  have hs := reportsFailure_DirectXTutorial3_LoadShaders v p s
  have hl : (DirectXTutorial3.LoadShaders v p s).1 = false := by
    by_cases hl : (DirectXTutorial3.LoadShaders v p s).1 = false
    · exact hl
    · simp [hl] at h
  have ht := hs hl t
  simp only [hl, ht]
  rfl

theorem reportsFailure_DirectXTutorial3_InitGeometry (a b : HRESULT) :
    ReportsFailure (DirectXTutorial3.InitGeometry a b) := by
  unfold DirectXTutorial3.InitGeometry
  repeat (first | exact ReportsFailure.success | apply ReportsFailure.guard)

theorem reportsFailure_DirectXTutorial3_InitScene (p : Pointer) (a : HRESULT) :
    ReportsFailure (DirectXTutorial3.InitScene p a) := by
  unfold DirectXTutorial3.InitScene
  repeat (first | exact ReportsFailure.success | apply ReportsFailure.guard)

theorem reportsFailure_TheCube_InitGeometry (a b : HRESULT) :
    ReportsFailure (TheCube.InitGeometry a b) := by
  unfold TheCube.InitGeometry
  repeat (first | exact ReportsFailure.success | apply ReportsFailure.guard)

theorem reportsFailure_TheCube_InitScene (p : Pointer) (a : HRESULT) :
    ReportsFailure (TheCube.InitScene p a) := by
  unfold TheCube.InitScene
  repeat (first | exact ReportsFailure.success | apply ReportsFailure.guard)

theorem reportsFailure_Matrices3D_InitGeometry (a b : HRESULT) :
    ReportsFailure (Matrices3D.InitGeometry a b) := by
  unfold Matrices3D.InitGeometry
  repeat (first | exact ReportsFailure.success | apply ReportsFailure.guard)

theorem reportsFailure_Matrices3D_InitScene (p q : Pointer) (a : HRESULT) :
    ReportsFailure (Matrices3D.InitScene p q a) := by
  unfold Matrices3D.InitScene
  repeat (first | exact ReportsFailure.success | apply ReportsFailure.guard)

theorem reportsFailure_PixelShaders_InitGeometry (a b c d : HRESULT) :
    ReportsFailure (PixelShaders.InitGeometry a b c d) := by
  unfold PixelShaders.InitGeometry
  repeat (first | exact ReportsFailure.success | apply ReportsFailure.guard)

theorem reportsFailure_PixelShaders_InitScene (p q : Pointer) :
    ReportsFailure (PixelShaders.InitScene p q) := by
  unfold PixelShaders.InitScene
  repeat (first | exact ReportsFailure.success | apply ReportsFailure.guard)

theorem reportsFailure_Texturing_InitGeometry (p q u v w : Pointer) (W : String → HRESULT)
    (a : HRESULT) : ReportsFailure (Texturing.InitGeometry p q u v w W a) := by
  unfold Texturing.InitGeometry
  repeat (first | exact ReportsFailure.success | apply ReportsFailure.guard)

theorem reportsFailure_Texturing_InitScene (p q : Pointer) :
    ReportsFailure (Texturing.InitScene p q) := by
  unfold Texturing.InitScene
  repeat (first | exact ReportsFailure.success | apply ReportsFailure.guard)

theorem reportsFailure_Blending_CreateStates (a b c d e f g h i j : HRESULT) :
    ReportsFailure (Blending.CreateStates a b c d e f g h i j) := by
  unfold Blending.CreateStates
  repeat (first | exact ReportsFailure.success | apply ReportsFailure.guard)

theorem reportsFailure_Review_InitGeometry (L : Bool) (p q u v w : Pointer) (W : String → HRESULT)
    (C : Bool) : ReportsFailure (Review.InitGeometry L p q u v w W C) := by
  unfold Review.InitGeometry
  repeat (first | exact ReportsFailure.success | apply ReportsFailure.guard)

theorem reportsFailure_Review_InitScene (p q : Pointer) :
    ReportsFailure (Review.InitScene p q) := by
  unfold Review.InitScene
  repeat (first | exact ReportsFailure.success | apply ReportsFailure.guard)

theorem reportsFailure_PixelLighting_InitGeometry (L : Bool) (p q a b c d e f g : Pointer)
    (T : String → Bool) (C : Bool) :
    ReportsFailure (PixelLighting.InitGeometry L p q a b c d e f g T C) := by
  unfold PixelLighting.InitGeometry
  repeat (first | exact ReportsFailure.success | apply ReportsFailure.guard)

theorem reportsFailure_PixelLighting_InitScene : ReportsFailure PixelLighting.InitScene := by
  exact ReportsFailure.success

theorem reportsFailure_PixelLighting2_InitGeometry (e : Option String) (L : Bool) (p q : Pointer)
    (T : String → Bool) (C : Bool) :
    ReportsFailure (PixelLighting2.InitGeometry e L p q T C) := by
  unfold PixelLighting2.InitGeometry
  cases e <;> simp only
  · repeat (first | exact ReportsFailure.success | apply ReportsFailure.guard)
  · intro s _ t
    rfl

theorem reportsFailure_PixelLighting2_InitScene : ReportsFailure PixelLighting2.InitScene := by
  exact ReportsFailure.success

theorem reportsFailure_NormalMapping_InitGeometry (e : Option String) (L : Bool) (p q : Pointer)
    (T : String → Bool) (C : Bool) :
    ReportsFailure (NormalMapping.InitGeometry e L p q T C) := by
  unfold NormalMapping.InitGeometry
  cases e <;> simp only
  · repeat (first | exact ReportsFailure.success | apply ReportsFailure.guard)
  · intro s _ t
    rfl

theorem reportsFailure_NormalMapping_InitScene : ReportsFailure NormalMapping.InitScene := by
  exact ReportsFailure.success

theorem reportsFailure_ParallaxMapping_InitGeometry (e : Option String) (L : Bool) (p q : Pointer)
    (T : String → Bool) (C : Bool) :
    ReportsFailure (ParallaxMapping.InitGeometry e L p q T C) := by
  unfold ParallaxMapping.InitGeometry
  cases e <;> simp only
  · repeat (first | exact ReportsFailure.success | apply ReportsFailure.guard)
  · intro s _ t
    rfl

theorem reportsFailure_ParallaxMapping_InitScene : ReportsFailure ParallaxMapping.InitScene := by
  exact ReportsFailure.success

theorem reportsFailure_CellShading_InitGeometry (e : Option String) (L : Bool) (p q : Pointer)
    (T : String → Bool) (C : Bool) :
    ReportsFailure (CellShading.InitGeometry e L p q T C) := by
  unfold CellShading.InitGeometry
  cases e <;> simp only
  · repeat (first | exact ReportsFailure.success | apply ReportsFailure.guard)
  · intro s _ t
    rfl

theorem reportsFailure_CellShading_InitScene : ReportsFailure CellShading.InitScene := by
  exact ReportsFailure.success

theorem reportsFailure_Assignment_InitGeometry (e : Option String) (L : Bool) (p q : Pointer)
    (T : String → Bool) (a b c : HRESULT) (C : Bool) :
    ReportsFailure (Assignment.InitGeometry e L p q T a b c C) := by
  unfold Assignment.InitGeometry
  cases e <;> simp only
  · repeat (first | exact ReportsFailure.success | apply ReportsFailure.guard)
  · intro s _ t
    rfl

theorem reportsFailure_Assignment_InitScene : ReportsFailure Assignment.InitScene := by
  exact ReportsFailure.success

/-- C21, as amended: every initialisation function of the labs that declare
`gLastError` (`InitDirect3D`, `LoadShaders`, `InitGeometry`, `InitScene` and
`CreateStates` from DirectXTutorial3 on) reports its failure: on every path on
which it returns false, `gLastError` has been assigned a message during the
call, whatever it held before. -/
theorem init_functions_report_failure :
    (∀ v p, ReportsFailure (DirectXTutorial3.LoadShaders v p)) ∧
    (∀ a b c v p, ReportsFailure (DirectXTutorial3.InitDirect3D a b c v p)) ∧
    (∀ a b, ReportsFailure (DirectXTutorial3.InitGeometry a b)) ∧
    (∀ p a, ReportsFailure (DirectXTutorial3.InitScene p a)) ∧
    (∀ a b, ReportsFailure (TheCube.InitGeometry a b)) ∧
    (∀ p a, ReportsFailure (TheCube.InitScene p a)) ∧
    (∀ a b, ReportsFailure (Matrices3D.InitGeometry a b)) ∧
    (∀ p q a, ReportsFailure (Matrices3D.InitScene p q a)) ∧
    (∀ a b c d, ReportsFailure (PixelShaders.InitGeometry a b c d)) ∧
    (∀ p q, ReportsFailure (PixelShaders.InitScene p q)) ∧
    (∀ p q u v w W a, ReportsFailure (Texturing.InitGeometry p q u v w W a)) ∧
    (∀ p q, ReportsFailure (Texturing.InitScene p q)) ∧
    (∀ a b c d e f g h i j, ReportsFailure (Blending.CreateStates a b c d e f g h i j)) ∧
    (∀ L p q u v w W C, ReportsFailure (Review.InitGeometry L p q u v w W C)) ∧
    (∀ p q, ReportsFailure (Review.InitScene p q)) ∧
    (∀ L p q a b c d e f g T C,
      ReportsFailure (PixelLighting.InitGeometry L p q a b c d e f g T C)) ∧
    ReportsFailure PixelLighting.InitScene ∧
    (∀ e L p q T C, ReportsFailure (PixelLighting2.InitGeometry e L p q T C)) ∧
    ReportsFailure PixelLighting2.InitScene ∧
    (∀ e L p q T C, ReportsFailure (NormalMapping.InitGeometry e L p q T C)) ∧
    ReportsFailure NormalMapping.InitScene ∧
    (∀ e L p q T C, ReportsFailure (ParallaxMapping.InitGeometry e L p q T C)) ∧
    ReportsFailure ParallaxMapping.InitScene ∧
    (∀ e L p q T C, ReportsFailure (CellShading.InitGeometry e L p q T C)) ∧
    ReportsFailure CellShading.InitScene ∧
    (∀ e L p q T a b c C, ReportsFailure (Assignment.InitGeometry e L p q T a b c C)) ∧
    ReportsFailure Assignment.InitScene :=
  ⟨reportsFailure_DirectXTutorial3_LoadShaders, reportsFailure_DirectXTutorial3_InitDirect3D,
    reportsFailure_DirectXTutorial3_InitGeometry, reportsFailure_DirectXTutorial3_InitScene,
    reportsFailure_TheCube_InitGeometry, reportsFailure_TheCube_InitScene,
    reportsFailure_Matrices3D_InitGeometry, reportsFailure_Matrices3D_InitScene,
    reportsFailure_PixelShaders_InitGeometry, reportsFailure_PixelShaders_InitScene,
    reportsFailure_Texturing_InitGeometry, reportsFailure_Texturing_InitScene,
    reportsFailure_Blending_CreateStates, reportsFailure_Review_InitGeometry, reportsFailure_Review_InitScene,
    reportsFailure_PixelLighting_InitGeometry, reportsFailure_PixelLighting_InitScene,
    reportsFailure_PixelLighting2_InitGeometry, reportsFailure_PixelLighting2_InitScene,
    reportsFailure_NormalMapping_InitGeometry, reportsFailure_NormalMapping_InitScene,
    reportsFailure_ParallaxMapping_InitGeometry, reportsFailure_ParallaxMapping_InitScene,
    reportsFailure_CellShading_InitGeometry, reportsFailure_CellShading_InitScene,
    reportsFailure_Assignment_InitGeometry, reportsFailure_Assignment_InitScene⟩

/-- Witness for C21: when the device creation fails with `E_FAIL` and
`gLastError` was empty, `InitDirect3D` of DirectXTutorial3 returns false, and it
returns false with the same `gLastError` from any other earlier content. -/
theorem init_functions_report_failure_witness :
    (DirectXTutorial3.InitDirect3D (-2147467259) 0 0 1 1 "").1 = false ∧
    DirectXTutorial3.InitDirect3D (-2147467259) 0 0 1 1 "stale" =
      (false, (DirectXTutorial3.InitDirect3D (-2147467259) 0 0 1 1 "").2) :=
  ⟨by decide, init_functions_report_failure.2.1 (-2147467259) 0 0 1 1 "" (by decide) "stale"⟩

/-- Counterexample for C21: when the device creation fails with `E_FAIL`,
`InitDirect3D` of DirectXTutorial1 returns false and `gLastError` is what it was
before the call, here empty; the same holds for `InitScene` of DirectXTutorial2
when `CreateBuffer` fails.  Neither reports its failure. -/
theorem DirectXTutorial1.InitDirect3D_silent :
    DirectXTutorial1.InitDirect3D (-2147467259) 0 0 "" = (false, "") ∧
    ¬ ReportsFailure (DirectXTutorial1.InitDirect3D (-2147467259) 0 0) ∧
    DirectXTutorial2.InitScene (-2147467259) "" = (false, "") ∧
    ¬ ReportsFailure (DirectXTutorial2.InitScene (-2147467259)) := by
  refine ⟨by decide, ?_, by decide, ?_⟩
  · intro h
    have := h "" (by decide) "stale"
    revert this
    decide
  · intro h
    have := h "" (by decide) "stale"
    revert this
    decide

end InitFunctions

/-! ## Float arithmetic: the projection depth and the orbit of the light -/

section FloatLemmas

/-- The rounding of a positive fraction in lowest terms. -/
theorem Binary32.round_of_pos (n d : ℕ) (hn : 0 < n) (hd : 0 < d) (h : Nat.Coprime n d) :
    Binary32.round ((n : ℚ) / d) =
      ((Binary32.roundParts n d).1 : ℚ) * 2 ^ (Binary32.roundParts n d).2.1 /
        2 ^ (Binary32.roundParts n d).2.2 := by
  have hq : (0 : ℚ) < (n : ℚ) / d := by positivity
  have h1 : ((n : ℚ) / d).num = n := by
    have := Rat.num_div_eq_of_coprime (a := (n : ℤ)) (b := (d : ℤ)) (by exact_mod_cast hd)
      (by simpa using h)
    simpa using this
  have h2 : ((n : ℚ) / d).den = d := by
    have := Rat.den_div_eq_of_coprime (a := (n : ℤ)) (b := (d : ℤ)) (by exact_mod_cast hd)
      (by simpa using h)
    have h3 : (((n : ℤ) : ℚ) / ((d : ℤ) : ℚ)) = (n : ℚ) / d := by push_cast; rfl
    rw [h3] at this
    exact_mod_cast this
  unfold Binary32.round
  rw [if_neg hq.ne', h1, h2, if_neg (not_lt.mpr hq.le)]
  simp

/-- The rounding of a negative fraction in lowest terms. -/
theorem Binary32.round_of_neg (n d : ℕ) (hn : 0 < n) (hd : 0 < d) (h : Nat.Coprime n d) :
    Binary32.round (-((n : ℚ) / d)) =
      -(((Binary32.roundParts n d).1 : ℚ) * 2 ^ (Binary32.roundParts n d).2.1 /
        2 ^ (Binary32.roundParts n d).2.2) := by
  have hq : (0 : ℚ) < (n : ℚ) / d := by positivity
  have h1 : ((n : ℚ) / d).num = n := by
    have := Rat.num_div_eq_of_coprime (a := (n : ℤ)) (b := (d : ℤ)) (by exact_mod_cast hd)
      (by simpa using h)
    simpa using this
  have h2 : ((n : ℚ) / d).den = d := by
    have := Rat.den_div_eq_of_coprime (a := (n : ℤ)) (b := (d : ℤ)) (by exact_mod_cast hd)
      (by simpa using h)
    have h3 : (((n : ℤ) : ℚ) / ((d : ℤ) : ℚ)) = (n : ℚ) / d := by push_cast; rfl
    rw [h3] at this
    exact_mod_cast this
  unfold Binary32.round
  have hneg : -((n : ℚ) / d) < 0 := by linarith
  rw [if_neg hneg.ne, if_pos hneg, Rat.num_neg_eq_neg_num, Rat.den_neg_eq_den, h1, h2]
  simp

/-- The literal `0.1f`. -/
theorem Binary32.round_tenth : Binary32.round (1 / 10) = 13421773 / 134217728 := by
  have e : (1 / 10 : ℚ) = ((1 : ℕ) : ℚ) / (10 : ℕ) := by norm_num
  have p : Binary32.roundParts 1 10 = (13421773, 0, 27) := by decide!
  rw [e, Binary32.round_of_pos _ _ (by norm_num) (by norm_num) (by norm_num), p]
  norm_num

/-- The difference `10000.0f - 0.1f`. -/
theorem Binary32.sub_far_near : Binary32.sub 10000 (13421773 / 134217728) = 5119949 / 512 := by
  have e : (10000 - 13421773 / 134217728 : ℚ) =
      ((1342163858227 : ℕ) : ℚ) / (134217728 : ℕ) := by norm_num
  have p : Binary32.roundParts 1342163858227 134217728 = (10239898, 0, 10) := by decide!
  rw [Binary32.sub, e, Binary32.round_of_pos _ _ (by norm_num) (by norm_num) (by norm_num), p]
  norm_num

/-- The quotient `scaleZa` of the default projection. -/
theorem Binary32.div_far : Binary32.div 10000 (5119949 / 512) = 2097173 / 2097152 := by
  have e : (10000 / (5119949 / 512) : ℚ) = ((5120000 : ℕ) : ℚ) / (5119949 : ℕ) := by norm_num
  have p : Binary32.roundParts 5120000 5119949 = (8388692, 0, 23) := by decide!
  rw [Binary32.div, e, Binary32.round_of_pos _ _ (by norm_num) (by norm_num) (by norm_num), p]
  norm_num

/-- The product `scaleZb` of the default projection. -/
theorem Binary32.mul_near : Binary32.mul (-(13421773 / 134217728)) (2097173 / 2097152) =
    -13421907 / 134217728 := by
  have e : (-(13421773 / 134217728) * (2097173 / 2097152) : ℚ) =
      -(((28147779947729 : ℕ) : ℚ) / (281474976710656 : ℕ)) := by norm_num
  have p : Binary32.roundParts 28147779947729 281474976710656 = (13421907, 0, 27) := by decide!
  rw [Binary32.mul, e, Binary32.round_of_neg _ _ (by norm_num) (by norm_num) (by norm_num), p]
  norm_num

end FloatLemmas

section FloatCounterexamples

/-- The binary32 sum `0.1f + 5.0f`. -/
theorem Binary32.add_tenth_five : Binary32.add (13421773 / 134217728) 5 =
    10695475 / 2097152 := by
  have e : (13421773 / 134217728 + 5 : ℚ) = ((684510413 : ℕ) : ℚ) / (134217728 : ℕ) := by
    norm_num
  have p : Binary32.roundParts 684510413 134217728 = (10695475, 0, 21) := by decide!
  rw [Binary32.add, e, Binary32.round_of_pos _ _ (by norm_num) (by norm_num) (by norm_num), p]
  norm_num

/-- A whole number of at most 24 bits is a binary32 value. -/
theorem Binary32.round_three : Binary32.round 3 = 3 := by
  have e : (3 : ℚ) = ((3 : ℕ) : ℚ) / (1 : ℕ) := by norm_num
  have p : Binary32.roundParts 3 1 = (12582912, 0, 22) := by decide!
  rw [e, Binary32.round_of_pos _ _ (by norm_num) (by norm_num) (by norm_num), p]
  norm_num

/-- The number 5 is a binary32 value. -/
theorem Binary32.round_five : Binary32.round 5 = 5 := by
  have e : (5 : ℚ) = ((5 : ℕ) : ℚ) / (1 : ℕ) := by norm_num
  have p : Binary32.roundParts 5 1 = (10485760, 0, 21) := by decide!
  rw [e, Binary32.round_of_pos _ _ (by norm_num) (by norm_num) (by norm_num), p]
  norm_num

/-- Zero is a binary32 value. -/
theorem Binary32.round_zero : Binary32.round 0 = 0 := by
  simp [Binary32.round]

/-- The entries `e22` and `e32` of the float projection matrix do not depend on
the maths library, the aspect ratio or the field of view. -/
theorem DirectXTutorial3.Float32.MakeProjectionMatrixDefault_depth_entries (m : CMath ℚ) :
    (DirectXTutorial3.Float32.MakeProjectionMatrixDefault m).e22 = 2097173 / 2097152 ∧
    (DirectXTutorial3.Float32.MakeProjectionMatrixDefault m).e32 = -13421907 / 134217728 ∧
    (DirectXTutorial3.Float32.MakeProjectionMatrixDefault m).e02 = 0 ∧
    (DirectXTutorial3.Float32.MakeProjectionMatrixDefault m).e12 = 0 ∧
    (DirectXTutorial3.Float32.MakeProjectionMatrixDefault m).e03 = 0 ∧
    (DirectXTutorial3.Float32.MakeProjectionMatrixDefault m).e13 = 0 ∧
    (DirectXTutorial3.Float32.MakeProjectionMatrixDefault m).e23 = 1 ∧
    (DirectXTutorial3.Float32.MakeProjectionMatrixDefault m).e33 = 0 := by
  simp only [DirectXTutorial3.Float32.MakeProjectionMatrixDefault,
    DirectXTutorial3.Float32.MakeProjectionMatrix, Binary32.round_tenth, Binary32.sub_far_near,
    Binary32.div_far, Binary32.mul_near]
  norm_num

/-- Counterexample for C4: in float arithmetic the default projection
(`nearClip = 0.1f`, `farClip = 10000.0f`; the library tangent of
`ToRadians(90) * 0.5f` is `1.0f`) has `e22 = 2097173 / 2097152` and
`e32 = -13421907 / 134217728`.  Even with the product and the division by `w`
done exactly from there, the depth of the point at `z = farClip` is above 1 and
the depth of the point at `z = nearClip` is above 0. -/
theorem DirectXTutorial3.Float32.projection_depth_outside :
    (DirectXTutorial3.Float32.MakeProjectionMatrixDefault
      ⟨fun _ => 0, fun _ => 1, fun _ => 1, fun a _ => a⟩).e22 = 2097173 / 2097152 ∧
    (DirectXTutorial3.Float32.MakeProjectionMatrixDefault
      ⟨fun _ => 0, fun _ => 1, fun _ => 1, fun a _ => a⟩).e32 = -13421907 / 134217728 ∧
    clipDepth (DirectXTutorial3.Float32.MakeProjectionMatrixDefault
      ⟨fun _ => 0, fun _ => 1, fun _ => 1, fun a _ => a⟩) 0 0 10000 =
        1342177298093 / 1342177280000 ∧
    1 < clipDepth (DirectXTutorial3.Float32.MakeProjectionMatrixDefault
      ⟨fun _ => 0, fun _ => 1, fun _ => 1, fun a _ => a⟩) 0 0 10000 ∧
    clipDepth (DirectXTutorial3.Float32.MakeProjectionMatrixDefault
      ⟨fun _ => 0, fun _ => 1, fun _ => 1, fun a _ => a⟩) 0 0 (13421773 / 134217728) =
        838865 / 28147498090496 ∧
    clipDepth (DirectXTutorial3.Float32.MakeProjectionMatrixDefault
      ⟨fun _ => 0, fun _ => 1, fun _ => 1, fun a _ => a⟩) 0 0 (13421773 / 134217728) ≠ 0 := by
  obtain ⟨h22, h32, h02, h12, h03, h13, h23, h33⟩ :=
    DirectXTutorial3.Float32.MakeProjectionMatrixDefault_depth_entries
      ⟨fun _ => 0, fun _ => 1, fun _ => 1, fun a _ => a⟩
  have d1 : clipDepth (DirectXTutorial3.Float32.MakeProjectionMatrixDefault
      ⟨fun _ => 0, fun _ => 1, fun _ => 1, fun a _ => a⟩) 0 0 10000 =
        1342177298093 / 1342177280000 := by
    simp only [clipDepth, CVector4.mulMatrix, h22, h32, h02, h12, h03, h13, h23, h33]
    norm_num
  have d2 : clipDepth (DirectXTutorial3.Float32.MakeProjectionMatrixDefault
      ⟨fun _ => 0, fun _ => 1, fun _ => 1, fun a _ => a⟩) 0 0 (13421773 / 134217728) =
        838865 / 28147498090496 := by
    simp only [clipDepth, CVector4.mulMatrix, h22, h32, h02, h12, h03, h13, h23, h33]
    norm_num
  refine ⟨h22, h32, d1, ?_, d2, ?_⟩
  · rw [d1]
    norm_num
  · rw [d2]
    norm_num

/-- Counterexample for C10: in float arithmetic, with the cube at
`(0.1f, 3, 0)` and the orbit angle 0 (where the library `cos` and `sin` give 1
and 0), `UpdateLight` puts the light at `x = 0.1f + 5.0f`, which rounds to
`10695475 / 2097152`; the light is then `5 - 13 / 134217728` from the cube in
the XZ plane, not `gLightOrbit = 5`. -/
theorem PixelLighting.Float32.UpdateLight_distance_short :
    (PixelLighting.Float32.UpdateLight ⟨fun _ => 0, fun _ => 1, fun _ => 0, fun a _ => a⟩ (1 / 64)
      { (PixelLighting.initialScene : PixelLighting.Scene ℚ) with
        gCubePosition := { x := 13421773 / 134217728, y := 3, z := 0 } }).gLight1Position =
      { x := 10695475 / 2097152, y := 3, z := 0 } ∧
    ((PixelLighting.Float32.UpdateLight ⟨fun _ => 0, fun _ => 1, fun _ => 0, fun a _ => a⟩
      (1 / 64)
      { (PixelLighting.initialScene : PixelLighting.Scene ℚ) with
        gCubePosition := { x := 13421773 / 134217728, y := 3, z := 0 } }).gLight1Position.x -
        13421773 / 134217728) ^ 2 +
      ((PixelLighting.Float32.UpdateLight ⟨fun _ => 0, fun _ => 1, fun _ => 0, fun a _ => a⟩
        (1 / 64)
        { (PixelLighting.initialScene : PixelLighting.Scene ℚ) with
          gCubePosition := { x := 13421773 / 134217728, y := 3, z := 0 } }).gLight1Position.z -
        0) ^ 2 =
      (5 - 13 / 134217728) ^ 2 ∧
    ((5 : ℚ) - 13 / 134217728) ^ 2 < (PixelLighting.gLightOrbit : ℚ) ^ 2 := by
  have hpos : (PixelLighting.Float32.UpdateLight
      ⟨fun _ => 0, fun _ => 1, fun _ => 0, fun a _ => a⟩ (1 / 64)
      { (PixelLighting.initialScene : PixelLighting.Scene ℚ) with
        gCubePosition := { x := 13421773 / 134217728, y := 3, z := 0 } }).gLight1Position =
      { x := 10695475 / 2097152, y := 3, z := 0 } := by
    simp only [PixelLighting.Float32.UpdateLight, PixelLighting.initialScene,
      Binary32.addVector, Binary32.mul, Binary32.add, PixelLighting.gLightOrbit, one_mul,
      zero_mul, add_zero, Binary32.round_zero, Binary32.round_five, Binary32.round_three]
    have := Binary32.add_tenth_five
    simp only [Binary32.add] at this
    rw [this]
  refine ⟨hpos, ?_, by norm_num [PixelLighting.gLightOrbit]⟩
  rw [hpos]
  norm_num

end FloatCounterexamples

end Graphics
